import Mathlib

/-!
The camera controller of OpenMW

A shallow embedding of `apps/openmw/mwrender/camera.cpp` and theorems about it.

Modelling conventions.

* The C++ `float`/`double` values are modelled as elements of an arbitrary linearly ordered
  field `α` with exact arithmetic (no rounding, no NaN, no overflow).  All definitions are
  computable for any such `α`; they evaluate over `ℚ`.
* A member function `Camera::f(args)` becomes `Camera.f E c args`, where `c` is the object
  before the call and the result is the object after the call (paired with the return value
  when there is one).
* `E : Env α` gathers what a call reads from outside `camera.cpp`: the library constant
  `osg::PI`, `osg::Vec2d::length`, and the answers of the animation, actor and world
  collaborators.  The answers are the same throughout one call of a public member function.
* Calls that only write into a collaborator (`NpcAnimation::setViewMode`,
  `CreatureStats::setSideMovementAngle`, `WindowManager::showCrosshair`) do not touch any
  member of `Camera` and are left out.
-/

namespace MWRender

/-- The enumeration `ThirdPersonViewMode` used by `mThirdPersonMode`. -/
inductive ThirdPersonViewMode where
  | Standard
  | OverShoulder
  deriving DecidableEq

/-- The enumeration `ThirdPersonOffsetType` used by `mThirdPersionOffsetType`. -/
inductive ThirdPersonOffsetType where
  | RightShoulder
  | LeftShoulder
  | Combat
  | Swimming
  deriving DecidableEq

/-- Modelled from the spec: the draw state of an actor (`MWMechanics::DrawState_`, declared in
`mwmechanics/drawstate.hpp`); the camera only tests it against `DrawState_Nothing`, the
"nothing drawn" weapon/spell state. -/
inductive DrawState_ where
  | DrawState_Nothing
  | DrawState_Weapon
  | DrawState_Spell
  deriving DecidableEq

/-- The two-dimensional vector `osg::Vec2d`. -/
structure Vec2d (α : Type) where
  x : α
  y : α

/-- The three-dimensional vector `osg::Vec3d`. -/
structure Vec3d (α : Type) where
  x : α
  y : α
  z : α

/-- The record `CamData` of one camera slot (`mMainCam`, `mPreviewCam`). -/
structure CamData (α : Type) where
  pitch : α
  yaw : α
  offset : α

/-- The record behind `mVanity`. -/
structure Vanity where
  enabled : Bool
  allowed : Bool

/-- What one call reads from outside `camera.cpp`. -/
structure Env (α : Type) where
  /-- The constant `osg::PI`. -/
  PI : α
  /-- The function `osg::Vec2d::length`. -/
  length : Vec2d α → α
  /-- The answer of `mAnimation->upperBodyReady()`. -/
  upperBodyReady : Bool
  /-- The answer of `mAnimation->getNode("Camera")` (a node handle, or null). -/
  cameraNode : Option Nat
  /-- The answer of `mAnimation->getNode("Head")`. -/
  headNode : Option Nat
  /-- The answer of `mTrackingPtr.getRefData().getBaseNode()` with its `getScale().z()`. -/
  baseNode : Option (Nat × α)
  /-- The answer of `mTrackingPtr.getClass().isActor()`. -/
  isActor : Bool
  /-- The answer of `getCreatureStats(mTrackingPtr).getDrawState()`. -/
  drawState : DrawState_
  /-- The answer of `getWorld()->isSwimming(mTrackingPtr)`. -/
  isSwimming : Bool
  /-- The answer of `mTrackingPtr.getClass().getSpeed(mTrackingPtr)`. -/
  speed : α

/-- The data members of `MWRender::Camera`. -/
structure Camera (α : Type) where
  mTrackingNode : Option Nat
  mHeightScale : α
  mMainCam : CamData α
  mPreviewCam : CamData α
  mFirstPersonView : Bool
  mPreviewMode : Bool
  mVanity : Vanity
  mNearest : α
  mFurthest : α
  mIsNearest : Bool
  mHeight : α
  mBaseCameraDistance : α
  mVanityToggleQueued : Bool
  mVanityToggleQueuedValue : Bool
  mViewModeToggleQueued : Bool
  mCameraDistance : α
  mThirdPersonMode : ThirdPersonViewMode
  mOverShoulderHorizontalOffset : α
  mDefaultShoulderIsRight : Bool
  mThirdPersionOffsetType : ThirdPersonOffsetType
  mFocalPointCurrentOffset : Vec2d α
  mFocalPointAdjustment : Vec3d α
  mFocalPointTransitionSpeed : α
  mSmoothedSpeed : α
  mZoomOutWhenMoveCoef : α

section Definitions

variable {α : Type} [LinearOrderedField α]

/-- The difference `a - b` of `osg::Vec2d`. -/
def Vec2d.sub (a b : Vec2d α) : Vec2d α := ⟨a.x - b.x, a.y - b.y⟩

/-- The sum `a + b` of `osg::Vec2d` (used by `+=`). -/
def Vec2d.add (a b : Vec2d α) : Vec2d α := ⟨a.x + b.x, a.y + b.y⟩

/-- The product `v * k` of an `osg::Vec2d` with a scalar. -/
def Vec2d.scale (v : Vec2d α) (k : α) : Vec2d α := ⟨v.x * k, v.y * k⟩

/-- The squared length `osg::Vec2d::length2`. -/
def Vec2d.length2 (v : Vec2d α) : α := v.x * v.x + v.y * v.y

/-- Modelled from the spec: `osg::PI_2` is a constant of the scene-graph library; the spec
gives the pitch limit as π/2 − ε, so it is half of `osg::PI`. -/
def PI_2 (E : Env α) : α := E.PI / 2

/-- Modelled from the spec: `osg::DegreesToRadians` is a function of the scene-graph library;
the spec reads its results as degrees (−30°, 3 degrees per second). -/
def DegreesToRadians (E : Env α) (angle : α) : α := angle * E.PI / 180

namespace Camera

/-- The constructor `Camera::Camera`.  The member `mZoomOutWhenMoveCoef` is not initialised in
`camera.cpp`; its value is the argument `zoom`.  `mTrackingNode` starts as the null pointer
and `mFocalPointAdjustment` as the zero vector. -/
def init (zoom : α) : Camera α where
  mTrackingNode := none
  mHeightScale := 1
  mMainCam := ⟨0, 0, 400⟩
  mPreviewCam := ⟨0, 0, 400⟩
  mFirstPersonView := true
  mPreviewMode := false
  mVanity := ⟨false, true⟩
  mNearest := 30
  mFurthest := 800
  mIsNearest := false
  mHeight := 124
  mBaseCameraDistance := 192
  mVanityToggleQueued := false
  mVanityToggleQueuedValue := false
  mViewModeToggleQueued := false
  mCameraDistance := 192
  mThirdPersonMode := ThirdPersonViewMode.Standard
  mOverShoulderHorizontalOffset := 30
  mDefaultShoulderIsRight := true
  mThirdPersionOffsetType := ThirdPersonOffsetType.RightShoulder
  mFocalPointCurrentOffset := ⟨0, 0⟩
  mFocalPointAdjustment := ⟨0, 0, 0⟩
  mFocalPointTransitionSpeed := 1
  mSmoothedSpeed := 0
  mZoomOutWhenMoveCoef := zoom

/-- Modelled from the spec: `Camera::isFirstPerson` is defined in `camera.hpp`; the spec calls
it strictly first-person: first-person view with neither preview nor vanity. -/
def isFirstPerson (c : Camera α) : Bool :=
  !(c.mVanity.enabled || c.mPreviewMode || !c.mFirstPersonView)

/-- The function `Camera::getYaw`. -/
def getYaw (c : Camera α) : α :=
  if c.mVanity.enabled || c.mPreviewMode then c.mPreviewCam.yaw else c.mMainCam.yaw

/-- The function `Camera::setYaw`. -/
def setYaw (E : Env α) (c : Camera α) (angle : α) : Camera α :=
  let angle :=
    if angle > E.PI then angle - E.PI * 2
    else if angle < -E.PI then angle + E.PI * 2
    else angle
  if c.mVanity.enabled || c.mPreviewMode then
    { c with mPreviewCam := { c.mPreviewCam with yaw := angle } }
  else
    { c with mMainCam := { c.mMainCam with yaw := angle } }

/-- The function `Camera::getPitch`. -/
def getPitch (c : Camera α) : α :=
  if c.mVanity.enabled || c.mPreviewMode then c.mPreviewCam.pitch else c.mMainCam.pitch

/-- The local constant `epsilon` of `Camera::setPitch`. -/
def epsilon : α := 1 / 1000000

/-- The function `Camera::setPitch`. -/
def setPitch (E : Env α) (c : Camera α) (angle : α) : Camera α :=
  let limit := PI_2 E - epsilon
  let limit := if c.mPreviewMode then limit / 2 else limit
  let angle :=
    if angle > limit then limit
    else if angle < -limit then -limit
    else angle
  if c.mVanity.enabled || c.mPreviewMode then
    { c with mPreviewCam := { c.mPreviewCam with pitch := angle } }
  else
    { c with mMainCam := { c.mMainCam with pitch := angle } }

/-- The function `Camera::rotateCamera`. -/
def rotateCamera (E : Env α) (c : Camera α) (pitch yaw : α) (adjust : Bool) : Camera α :=
  let pitch := if adjust then pitch + getPitch c else pitch
  let yaw := if adjust then yaw + getYaw c else yaw
  setPitch E (setYaw E c yaw) pitch

/-- The function `Camera::processViewChange`. -/
def processViewChange (E : Env α) (c : Camera α) : Camera α :=
  let c :=
    if isFirstPerson c then
      { c with
        mTrackingNode := match E.cameraNode with
          | some n => some n
          | none => E.headNode
        mHeightScale := 1 }
    else
      { c with
        mTrackingNode := E.baseNode.map Prod.fst
        mHeightScale := match E.baseNode with
          | some t => t.2
          | none => 1 }
  rotateCamera E c (getPitch c) (getYaw c) false

/-- The function `Camera::toggleViewMode`. -/
def toggleViewMode (E : Env α) (c : Camera α) (force : Bool) : Camera α :=
  if !E.upperBodyReady && !force then
    { c with mViewModeToggleQueued := true }
  else
    let c := { c with mViewModeToggleQueued := false }
    let c := { c with mFirstPersonView := !c.mFirstPersonView }
    processViewChange E c

/-- The function `Camera::toggleVanityMode`, with its return value. -/
def toggleVanityMode (E : Env α) (c : Camera α) (enable : Bool) : Bool × Camera α :=
  if c.mFirstPersonView && !E.upperBodyReady then
    (false, { c with mVanityToggleQueued := true, mVanityToggleQueuedValue := enable })
  else if !c.mVanity.allowed && enable then
    (false, c)
  else if c.mVanity.enabled == enable then
    (true, c)
  else
    let c := { c with mVanity := { c.mVanity with enabled := enable } }
    let c := processViewChange E c
    let offset := c.mPreviewCam.offset
    if c.mVanity.enabled then
      let c := setPitch E c (DegreesToRadians E (-30))
      let c := { c with mMainCam := { c.mMainCam with offset := c.mCameraDistance } }
      (true, { c with mCameraDistance := offset })
    else
      let offset := c.mMainCam.offset
      (true, { c with mCameraDistance := offset })

/-- The function `Camera::allowVanityMode`. -/
def allowVanityMode (E : Env α) (c : Camera α) (allow : Bool) : Camera α :=
  let c := if !allow && c.mVanity.enabled then (toggleVanityMode E c false).2 else c
  { c with mVanity := { c.mVanity with allowed := allow } }

/-- The function `Camera::togglePreviewMode`. -/
def togglePreviewMode (E : Env α) (c : Camera α) (enable : Bool) : Camera α :=
  if c.mFirstPersonView && !E.upperBodyReady then
    c
  else if c.mPreviewMode == enable then
    c
  else
    let c := { c with mPreviewMode := enable }
    let c := processViewChange E c
    let offset := c.mCameraDistance
    if c.mPreviewMode then
      let c := { c with mMainCam := { c.mMainCam with offset := offset } }
      let offset := c.mPreviewCam.offset
      { c with mCameraDistance := offset }
    else
      let c := { c with mPreviewCam := { c.mPreviewCam with offset := offset } }
      let offset := c.mMainCam.offset
      { c with mCameraDistance := offset }

/-- The function `Camera::reset`. -/
def reset (E : Env α) (c : Camera α) : Camera α :=
  let c := togglePreviewMode E c false
  let c := (toggleVanityMode E c false).2
  if !c.mFirstPersonView then toggleViewMode E c false else c

/-- The function `Camera::setOverShoulderHorizontalOffset`. -/
def setOverShoulderHorizontalOffset (c : Camera α) (v : α) : Camera α :=
  { c with mOverShoulderHorizontalOffset := |v|, mDefaultShoulderIsRight := decide (v > 0) }

/-- The function `Camera::switchToLeftShoulder`. -/
def switchToLeftShoulder (c : Camera α) : Camera α :=
  if c.mThirdPersionOffsetType = ThirdPersonOffsetType.RightShoulder then
    { c with mThirdPersionOffsetType := ThirdPersonOffsetType.LeftShoulder }
  else c

/-- The function `Camera::switchToRightShoulder`. -/
def switchToRightShoulder (c : Camera α) : Camera α :=
  if c.mThirdPersionOffsetType = ThirdPersonOffsetType.LeftShoulder then
    { c with mThirdPersionOffsetType := ThirdPersonOffsetType.RightShoulder }
  else c

/-- The function `Camera::switchToDefaultShoulder`. -/
def switchToDefaultShoulder (c : Camera α) : Camera α :=
  if c.mThirdPersionOffsetType = ThirdPersonOffsetType.LeftShoulder
      ∨ c.mThirdPersionOffsetType = ThirdPersonOffsetType.RightShoulder then
    { c with mThirdPersionOffsetType :=
        if c.mDefaultShoulderIsRight then ThirdPersonOffsetType.RightShoulder
        else ThirdPersonOffsetType.LeftShoulder }
  else c

/-- The target offset chosen by the `switch` of `Camera::updateFocalPointOffset`. -/
def focalPointTargetOffset (c : Camera α) : Vec2d α :=
  match c.mThirdPersionOffsetType with
  | ThirdPersonOffsetType.RightShoulder => ⟨c.mOverShoulderHorizontalOffset, -10⟩
  | ThirdPersonOffsetType.LeftShoulder => ⟨-c.mOverShoulderHorizontalOffset, -10⟩
  | ThirdPersonOffsetType.Combat => ⟨0, 15⟩
  | ThirdPersonOffsetType.Swimming => ⟨0, 15⟩

/-- The offset type computed at the start of `Camera::updateFocalPointOffset`
(the local `newOffsetType`). -/
def newOffsetType (E : Env α) (c : Camera α) : ThirdPersonOffsetType :=
  if E.isActor && E.drawState != DrawState_.DrawState_Nothing then
    ThirdPersonOffsetType.Combat
  else if E.isSwimming then
    ThirdPersonOffsetType.Swimming
  else if c.mThirdPersionOffsetType = ThirdPersonOffsetType.Combat
      ∨ c.mThirdPersionOffsetType = ThirdPersonOffsetType.Swimming then
    (if c.mDefaultShoulderIsRight then ThirdPersonOffsetType.RightShoulder
     else ThirdPersonOffsetType.LeftShoulder)
  else c.mThirdPersionOffsetType

/-- The block of `Camera::updateFocalPointOffset` that switches the offset type: when the new
type differs from the current one, the transition speed becomes 5 if Combat is entered or left
and 1 otherwise, and the new type is stored. -/
def switchOffsetType (E : Env α) (c : Camera α) : Camera α :=
  let newType := newOffsetType E c
  if newType ≠ c.mThirdPersionOffsetType then
    let c :=
      if newType = ThirdPersonOffsetType.Combat
          ∨ c.mThirdPersionOffsetType = ThirdPersonOffsetType.Combat then
        { c with mFocalPointTransitionSpeed := 5 }
      else
        { c with mFocalPointTransitionSpeed := 1 }
    { c with mThirdPersionOffsetType := newType }
  else c

/-- The function `Camera::updateFocalPointOffset`. -/
def updateFocalPointOffset (E : Env α) (c : Camera α) (duration : α) : Camera α :=
  if c.mThirdPersonMode = ThirdPersonViewMode.Standard then c
  else
    let c := switchOffsetType E c
    let delta := Vec2d.sub (focalPointTargetOffset c) c.mFocalPointCurrentOffset
    if Vec2d.length2 delta > 0 then
      let coef := duration * (1 + 5 / E.length delta) * c.mFocalPointTransitionSpeed
      { c with mFocalPointCurrentOffset :=
          Vec2d.add c.mFocalPointCurrentOffset (Vec2d.scale delta (min coef 1)) }
    else
      { c with mFocalPointTransitionSpeed := 1 }

/-- The function `Camera::update`. -/
def update (E : Env α) (c : Camera α) (duration : α) (paused : Bool) : Camera α :=
  let c :=
    if E.upperBodyReady then
      let c :=
        if c.mVanityToggleQueued then
          let c := (toggleVanityMode E c c.mVanityToggleQueuedValue).2
          { c with mVanityToggleQueued := false }
        else c
      if c.mViewModeToggleQueued then
        let c := togglePreviewMode E c false
        let c := toggleViewMode E c false
        { c with mViewModeToggleQueued := false }
      else c
    else c
  if paused then c
  else
    let c :=
      if c.mVanity.enabled then rotateCamera E c 0 (DegreesToRadians E (3 * duration)) true
      else c
    let c := updateFocalPointOffset E c duration
    let speed := E.speed
    let delta := speed - c.mSmoothedSpeed
    let maxDelta := 100 * duration
    let delta := min delta maxDelta
    let delta := max delta (-maxDelta)
    { c with mSmoothedSpeed := c.mSmoothedSpeed + delta }

/-- The function `Camera::getCameraDistance`. -/
def getCameraDistance (c : Camera α) : α :=
  if isFirstPerson c then 0 else c.mCameraDistance

/-- The function `Camera::getCameraDistanceCorrection`. -/
def getCameraDistanceCorrection (c : Camera α) : α :=
  if c.mThirdPersonMode = ThirdPersonViewMode.Standard then 0
  else
    let pitchCorrection := max (-getPitch c) 0 * 50
    let baseSpeed : α := 300
    let smoothedSpeedSqr := c.mSmoothedSpeed * c.mSmoothedSpeed
    let speedCorrection :=
      smoothedSpeedSqr / (smoothedSpeedSqr + baseSpeed * baseSpeed) * c.mZoomOutWhenMoveCoef
    pitchCorrection + speedCorrection

/-- The overload `Camera::setCameraDistance()` without arguments. -/
def setCameraDistanceNoArg (c : Camera α) : Camera α :=
  let c :=
    if c.mVanity.enabled || c.mPreviewMode then
      { c with mCameraDistance := c.mPreviewCam.offset }
    else if !c.mFirstPersonView then
      { c with mCameraDistance := c.mBaseCameraDistance + getCameraDistanceCorrection c }
    else c
  { c with mFocalPointAdjustment := ⟨0, 0, 0⟩ }

/-- The function `Camera::setBaseCameraDistance`. -/
def setBaseCameraDistance (c : Camera α) (dist : α) (adjust : Bool) : Camera α :=
  if c.mFirstPersonView && !c.mPreviewMode && !c.mVanity.enabled then c
  else
    let c := { c with mIsNearest := false }
    let dist :=
      if adjust then
        if c.mVanity.enabled || c.mPreviewMode then dist + c.mCameraDistance
        else dist + min (c.mCameraDistance - getCameraDistanceCorrection c) c.mBaseCameraDistance
      else dist
    let r : α × Camera α :=
      if dist >= c.mFurthest then (c.mFurthest, c)
      else if dist <= c.mNearest then (c.mNearest, { c with mIsNearest := true })
      else (dist, c)
    let dist := r.1
    let c := r.2
    let c :=
      if c.mVanity.enabled || c.mPreviewMode then
        { c with mPreviewCam := { c.mPreviewCam with offset := dist } }
      else if !c.mFirstPersonView then
        { c with mBaseCameraDistance := dist }
      else c
    setCameraDistanceNoArg c

/-- The overload `Camera::setCameraDistance(float dist, bool adjust)`. -/
def setCameraDistance (c : Camera α) (dist : α) (adjust : Bool) : Camera α :=
  if c.mFirstPersonView && !c.mPreviewMode && !c.mVanity.enabled then c
  else
    let dist := if adjust then dist + c.mCameraDistance else dist
    let dist :=
      if dist >= c.mFurthest then c.mFurthest
      else if dist < 10 then 10
      else dist
    { c with mCameraDistance := dist }

/-- The function `Camera::isVanityOrPreviewModeEnabled`. -/
def isVanityOrPreviewModeEnabled (c : Camera α) : Bool :=
  c.mPreviewMode || c.mVanity.enabled

/-- The function `Camera::isNearest`. -/
def isNearest (c : Camera α) : Bool := c.mIsNearest

end Camera

end Definitions

/-- A sample environment over `ℚ`: the library's decimal literal for `osg::PI`, the rational
square root (exact on squares of rationals) for `osg::Vec2d::length`, an unarmed actor on dry
land standing still, and the answer `ready` of the animation. -/
def sampleEnv (ready : Bool) : Env ℚ where
  PI := 3.14159265358979323846
  length := fun v => Rat.sqrt (Vec2d.length2 v)
  upperBodyReady := ready
  cameraNode := some 0
  headNode := some 1
  baseNode := some (2, 1)
  isActor := true
  drawState := DrawState_.DrawState_Nothing
  isSwimming := false
  speed := 0

/-- The state right after construction, over `ℚ`, with a zoom-out coefficient of 20. -/
def sampleCamera : Camera ℚ := Camera.init 20

section Operations

variable {α : Type} [LinearOrderedField α]

namespace Camera

/-- The function `Camera::setAnimation`: the new animation is the one the environment of the
call answers for, and the view is reprocessed. -/
def setAnimation (E : Env α) (c : Camera α) : Camera α := processViewChange E c

/-- The first block of `Camera::update`: with the animation ready, the queued vanity toggle
and then the queued view-mode toggle are applied. -/
def updateToggles (E : Env α) (c : Camera α) : Camera α :=
  if E.upperBodyReady then
    let c :=
      if c.mVanityToggleQueued then
        let c := (toggleVanityMode E c c.mVanityToggleQueuedValue).2
        { c with mVanityToggleQueued := false }
      else c
    if c.mViewModeToggleQueued then
      let c := togglePreviewMode E c false
      let c := toggleViewMode E c false
      { c with mViewModeToggleQueued := false }
    else c
  else c

/-- The part of `Camera::update` after `if (paused) return;`. -/
def updateFrame (E : Env α) (c : Camera α) (duration : α) : Camera α :=
  let c :=
    if c.mVanity.enabled then rotateCamera E c 0 (DegreesToRadians E (3 * duration)) true
    else c
  let c := updateFocalPointOffset E c duration
  let speed := E.speed
  let delta := speed - c.mSmoothedSpeed
  let maxDelta := 100 * duration
  let delta := min delta maxDelta
  let delta := max delta (-maxDelta)
  { c with mSmoothedSpeed := c.mSmoothedSpeed + delta }

end Camera

/-- The member functions of `Camera` defined in `camera.cpp` that change the object, with
their arguments. -/
inductive Op (α : Type) where
  | reset
  | rotateCamera (pitch yaw : α) (adjust : Bool)
  | update (duration : α) (paused : Bool)
  | setOverShoulderHorizontalOffset (v : α)
  | switchToLeftShoulder
  | switchToRightShoulder
  | switchToDefaultShoulder
  | toggleViewMode (force : Bool)
  | allowVanityMode (allow : Bool)
  | toggleVanityMode (enable : Bool)
  | togglePreviewMode (enable : Bool)
  | setYaw (angle : α)
  | setPitch (angle : α)
  | setBaseCameraDistance (dist : α) (adjust : Bool)
  | setCameraDistance (dist : α) (adjust : Bool)
  | setCameraDistanceNoArg
  | setAnimation
  | processViewChange

namespace Camera

/-- One call: the object after the member function `op` has run in the environment `E`. -/
def step (E : Env α) (op : Op α) (c : Camera α) : Camera α :=
  match op with
  | Op.reset => reset E c
  | Op.rotateCamera pitch yaw adjust => rotateCamera E c pitch yaw adjust
  | Op.update duration paused => update E c duration paused
  | Op.setOverShoulderHorizontalOffset v => setOverShoulderHorizontalOffset c v
  | Op.switchToLeftShoulder => switchToLeftShoulder c
  | Op.switchToRightShoulder => switchToRightShoulder c
  | Op.switchToDefaultShoulder => switchToDefaultShoulder c
  | Op.toggleViewMode force => toggleViewMode E c force
  | Op.allowVanityMode allow => allowVanityMode E c allow
  | Op.toggleVanityMode enable => (toggleVanityMode E c enable).2
  | Op.togglePreviewMode enable => togglePreviewMode E c enable
  | Op.setYaw angle => setYaw E c angle
  | Op.setPitch angle => setPitch E c angle
  | Op.setBaseCameraDistance dist adjust => setBaseCameraDistance c dist adjust
  | Op.setCameraDistance dist adjust => setCameraDistance c dist adjust
  | Op.setCameraDistanceNoArg => setCameraDistanceNoArg c
  | Op.setAnimation => setAnimation E c
  | Op.processViewChange => processViewChange E c

/-- A sequence of calls, each in its own environment, from the state `c`. -/
def run (trace : List (Env α × Op α)) (c : Camera α) : Camera α :=
  trace.foldl (fun c p => step p.1 p.2 c) c

/-- The pitch invariant: both slots hold a pitch of magnitude at most `pi / 2 - epsilon`, and
in preview mode the preview slot holds one of magnitude at most half of that. -/
def PitchInv (pi : α) (c : Camera α) : Prop :=
  |c.mMainCam.pitch| ≤ pi / 2 - epsilon
  ∧ |c.mPreviewCam.pitch| ≤ pi / 2 - epsilon
  ∧ (c.mPreviewMode = true → |c.mPreviewCam.pitch| ≤ (pi / 2 - epsilon) / 2)

/-- The distance predicate: `mCameraDistance` and the offsets of both slots lie in
`[10, mFurthest]`. -/
def DistInv (c : Camera α) : Prop :=
  (10 ≤ c.mCameraDistance ∧ c.mCameraDistance ≤ c.mFurthest)
  ∧ (10 ≤ c.mMainCam.offset ∧ c.mMainCam.offset ≤ c.mFurthest)
  ∧ (10 ≤ c.mPreviewCam.offset ∧ c.mPreviewCam.offset ≤ c.mFurthest)

end Camera

end Operations

section Theorems

variable {α : Type} [LinearOrderedField α]

open Camera

/-! ### Frame lemmas: the members that `setYaw`, `setPitch`, `rotateCamera` and
`processViewChange` leave alone -/

@[simp]
theorem setYaw_mTrackingNode (E : Env α) (c : Camera α) (a : α) :
    (setYaw E c a).mTrackingNode = c.mTrackingNode := by
  cases h : (c.mVanity.enabled || c.mPreviewMode) <;> simp only [setYaw, h, Bool.false_eq_true, ↓reduceIte]

@[simp]
theorem setYaw_mHeightScale (E : Env α) (c : Camera α) (a : α) :
    (setYaw E c a).mHeightScale = c.mHeightScale := by
  cases h : (c.mVanity.enabled || c.mPreviewMode) <;> simp only [setYaw, h, Bool.false_eq_true, ↓reduceIte]

@[simp]
theorem setYaw_mFirstPersonView (E : Env α) (c : Camera α) (a : α) :
    (setYaw E c a).mFirstPersonView = c.mFirstPersonView := by
  cases h : (c.mVanity.enabled || c.mPreviewMode) <;> simp only [setYaw, h, Bool.false_eq_true, ↓reduceIte]

@[simp]
theorem setYaw_mPreviewMode (E : Env α) (c : Camera α) (a : α) :
    (setYaw E c a).mPreviewMode = c.mPreviewMode := by
  cases h : (c.mVanity.enabled || c.mPreviewMode) <;> simp only [setYaw, h, Bool.false_eq_true, ↓reduceIte]

@[simp]
theorem setYaw_mVanity (E : Env α) (c : Camera α) (a : α) :
    (setYaw E c a).mVanity = c.mVanity := by
  cases h : (c.mVanity.enabled || c.mPreviewMode) <;> simp only [setYaw, h, Bool.false_eq_true, ↓reduceIte]

@[simp]
theorem setYaw_mNearest (E : Env α) (c : Camera α) (a : α) :
    (setYaw E c a).mNearest = c.mNearest := by
  cases h : (c.mVanity.enabled || c.mPreviewMode) <;> simp only [setYaw, h, Bool.false_eq_true, ↓reduceIte]

@[simp]
theorem setYaw_mFurthest (E : Env α) (c : Camera α) (a : α) :
    (setYaw E c a).mFurthest = c.mFurthest := by
  cases h : (c.mVanity.enabled || c.mPreviewMode) <;> simp only [setYaw, h, Bool.false_eq_true, ↓reduceIte]

@[simp]
theorem setYaw_mIsNearest (E : Env α) (c : Camera α) (a : α) :
    (setYaw E c a).mIsNearest = c.mIsNearest := by
  cases h : (c.mVanity.enabled || c.mPreviewMode) <;> simp only [setYaw, h, Bool.false_eq_true, ↓reduceIte]

@[simp]
theorem setYaw_mHeight (E : Env α) (c : Camera α) (a : α) :
    (setYaw E c a).mHeight = c.mHeight := by
  cases h : (c.mVanity.enabled || c.mPreviewMode) <;> simp only [setYaw, h, Bool.false_eq_true, ↓reduceIte]

@[simp]
theorem setYaw_mBaseCameraDistance (E : Env α) (c : Camera α) (a : α) :
    (setYaw E c a).mBaseCameraDistance = c.mBaseCameraDistance := by
  cases h : (c.mVanity.enabled || c.mPreviewMode) <;> simp only [setYaw, h, Bool.false_eq_true, ↓reduceIte]

@[simp]
theorem setYaw_mVanityToggleQueued (E : Env α) (c : Camera α) (a : α) :
    (setYaw E c a).mVanityToggleQueued = c.mVanityToggleQueued := by
  cases h : (c.mVanity.enabled || c.mPreviewMode) <;> simp only [setYaw, h, Bool.false_eq_true, ↓reduceIte]

@[simp]
theorem setYaw_mVanityToggleQueuedValue (E : Env α) (c : Camera α) (a : α) :
    (setYaw E c a).mVanityToggleQueuedValue = c.mVanityToggleQueuedValue := by
  cases h : (c.mVanity.enabled || c.mPreviewMode) <;> simp only [setYaw, h, Bool.false_eq_true, ↓reduceIte]

@[simp]
theorem setYaw_mViewModeToggleQueued (E : Env α) (c : Camera α) (a : α) :
    (setYaw E c a).mViewModeToggleQueued = c.mViewModeToggleQueued := by
  cases h : (c.mVanity.enabled || c.mPreviewMode) <;> simp only [setYaw, h, Bool.false_eq_true, ↓reduceIte]

@[simp]
theorem setYaw_mCameraDistance (E : Env α) (c : Camera α) (a : α) :
    (setYaw E c a).mCameraDistance = c.mCameraDistance := by
  cases h : (c.mVanity.enabled || c.mPreviewMode) <;> simp only [setYaw, h, Bool.false_eq_true, ↓reduceIte]

@[simp]
theorem setYaw_mThirdPersonMode (E : Env α) (c : Camera α) (a : α) :
    (setYaw E c a).mThirdPersonMode = c.mThirdPersonMode := by
  cases h : (c.mVanity.enabled || c.mPreviewMode) <;> simp only [setYaw, h, Bool.false_eq_true, ↓reduceIte]

@[simp]
theorem setYaw_mOverShoulderHorizontalOffset (E : Env α) (c : Camera α) (a : α) :
    (setYaw E c a).mOverShoulderHorizontalOffset = c.mOverShoulderHorizontalOffset := by
  cases h : (c.mVanity.enabled || c.mPreviewMode) <;> simp only [setYaw, h, Bool.false_eq_true, ↓reduceIte]

@[simp]
theorem setYaw_mDefaultShoulderIsRight (E : Env α) (c : Camera α) (a : α) :
    (setYaw E c a).mDefaultShoulderIsRight = c.mDefaultShoulderIsRight := by
  cases h : (c.mVanity.enabled || c.mPreviewMode) <;> simp only [setYaw, h, Bool.false_eq_true, ↓reduceIte]

@[simp]
theorem setYaw_mThirdPersionOffsetType (E : Env α) (c : Camera α) (a : α) :
    (setYaw E c a).mThirdPersionOffsetType = c.mThirdPersionOffsetType := by
  cases h : (c.mVanity.enabled || c.mPreviewMode) <;> simp only [setYaw, h, Bool.false_eq_true, ↓reduceIte]

@[simp]
theorem setYaw_mFocalPointCurrentOffset (E : Env α) (c : Camera α) (a : α) :
    (setYaw E c a).mFocalPointCurrentOffset = c.mFocalPointCurrentOffset := by
  cases h : (c.mVanity.enabled || c.mPreviewMode) <;> simp only [setYaw, h, Bool.false_eq_true, ↓reduceIte]

@[simp]
theorem setYaw_mFocalPointAdjustment (E : Env α) (c : Camera α) (a : α) :
    (setYaw E c a).mFocalPointAdjustment = c.mFocalPointAdjustment := by
  cases h : (c.mVanity.enabled || c.mPreviewMode) <;> simp only [setYaw, h, Bool.false_eq_true, ↓reduceIte]

@[simp]
theorem setYaw_mFocalPointTransitionSpeed (E : Env α) (c : Camera α) (a : α) :
    (setYaw E c a).mFocalPointTransitionSpeed = c.mFocalPointTransitionSpeed := by
  cases h : (c.mVanity.enabled || c.mPreviewMode) <;> simp only [setYaw, h, Bool.false_eq_true, ↓reduceIte]

@[simp]
theorem setYaw_mSmoothedSpeed (E : Env α) (c : Camera α) (a : α) :
    (setYaw E c a).mSmoothedSpeed = c.mSmoothedSpeed := by
  cases h : (c.mVanity.enabled || c.mPreviewMode) <;> simp only [setYaw, h, Bool.false_eq_true, ↓reduceIte]

@[simp]
theorem setYaw_mZoomOutWhenMoveCoef (E : Env α) (c : Camera α) (a : α) :
    (setYaw E c a).mZoomOutWhenMoveCoef = c.mZoomOutWhenMoveCoef := by
  cases h : (c.mVanity.enabled || c.mPreviewMode) <;> simp only [setYaw, h, Bool.false_eq_true, ↓reduceIte]

@[simp]
theorem setYaw_mMainCam_pitch (E : Env α) (c : Camera α) (a : α) :
    (setYaw E c a).mMainCam.pitch = c.mMainCam.pitch := by
  cases h : (c.mVanity.enabled || c.mPreviewMode) <;> simp only [setYaw, h, Bool.false_eq_true, ↓reduceIte]

@[simp]
theorem setYaw_mMainCam_offset (E : Env α) (c : Camera α) (a : α) :
    (setYaw E c a).mMainCam.offset = c.mMainCam.offset := by
  cases h : (c.mVanity.enabled || c.mPreviewMode) <;> simp only [setYaw, h, Bool.false_eq_true, ↓reduceIte]

@[simp]
theorem setYaw_mPreviewCam_pitch (E : Env α) (c : Camera α) (a : α) :
    (setYaw E c a).mPreviewCam.pitch = c.mPreviewCam.pitch := by
  cases h : (c.mVanity.enabled || c.mPreviewMode) <;> simp only [setYaw, h, Bool.false_eq_true, ↓reduceIte]

@[simp]
theorem setYaw_mPreviewCam_offset (E : Env α) (c : Camera α) (a : α) :
    (setYaw E c a).mPreviewCam.offset = c.mPreviewCam.offset := by
  cases h : (c.mVanity.enabled || c.mPreviewMode) <;> simp only [setYaw, h, Bool.false_eq_true, ↓reduceIte]

@[simp]
theorem setPitch_mTrackingNode (E : Env α) (c : Camera α) (a : α) :
    (setPitch E c a).mTrackingNode = c.mTrackingNode := by
  cases h : (c.mVanity.enabled || c.mPreviewMode) <;> simp only [setPitch, h, Bool.false_eq_true, ↓reduceIte]

@[simp]
theorem setPitch_mHeightScale (E : Env α) (c : Camera α) (a : α) :
    (setPitch E c a).mHeightScale = c.mHeightScale := by
  cases h : (c.mVanity.enabled || c.mPreviewMode) <;> simp only [setPitch, h, Bool.false_eq_true, ↓reduceIte]

@[simp]
theorem setPitch_mFirstPersonView (E : Env α) (c : Camera α) (a : α) :
    (setPitch E c a).mFirstPersonView = c.mFirstPersonView := by
  cases h : (c.mVanity.enabled || c.mPreviewMode) <;> simp only [setPitch, h, Bool.false_eq_true, ↓reduceIte]

@[simp]
theorem setPitch_mPreviewMode (E : Env α) (c : Camera α) (a : α) :
    (setPitch E c a).mPreviewMode = c.mPreviewMode := by
  cases h : (c.mVanity.enabled || c.mPreviewMode) <;> simp only [setPitch, h, Bool.false_eq_true, ↓reduceIte]

@[simp]
theorem setPitch_mVanity (E : Env α) (c : Camera α) (a : α) :
    (setPitch E c a).mVanity = c.mVanity := by
  cases h : (c.mVanity.enabled || c.mPreviewMode) <;> simp only [setPitch, h, Bool.false_eq_true, ↓reduceIte]

@[simp]
theorem setPitch_mNearest (E : Env α) (c : Camera α) (a : α) :
    (setPitch E c a).mNearest = c.mNearest := by
  cases h : (c.mVanity.enabled || c.mPreviewMode) <;> simp only [setPitch, h, Bool.false_eq_true, ↓reduceIte]

@[simp]
theorem setPitch_mFurthest (E : Env α) (c : Camera α) (a : α) :
    (setPitch E c a).mFurthest = c.mFurthest := by
  cases h : (c.mVanity.enabled || c.mPreviewMode) <;> simp only [setPitch, h, Bool.false_eq_true, ↓reduceIte]

@[simp]
theorem setPitch_mIsNearest (E : Env α) (c : Camera α) (a : α) :
    (setPitch E c a).mIsNearest = c.mIsNearest := by
  cases h : (c.mVanity.enabled || c.mPreviewMode) <;> simp only [setPitch, h, Bool.false_eq_true, ↓reduceIte]

@[simp]
theorem setPitch_mHeight (E : Env α) (c : Camera α) (a : α) :
    (setPitch E c a).mHeight = c.mHeight := by
  cases h : (c.mVanity.enabled || c.mPreviewMode) <;> simp only [setPitch, h, Bool.false_eq_true, ↓reduceIte]

@[simp]
theorem setPitch_mBaseCameraDistance (E : Env α) (c : Camera α) (a : α) :
    (setPitch E c a).mBaseCameraDistance = c.mBaseCameraDistance := by
  cases h : (c.mVanity.enabled || c.mPreviewMode) <;> simp only [setPitch, h, Bool.false_eq_true, ↓reduceIte]

@[simp]
theorem setPitch_mVanityToggleQueued (E : Env α) (c : Camera α) (a : α) :
    (setPitch E c a).mVanityToggleQueued = c.mVanityToggleQueued := by
  cases h : (c.mVanity.enabled || c.mPreviewMode) <;> simp only [setPitch, h, Bool.false_eq_true, ↓reduceIte]

@[simp]
theorem setPitch_mVanityToggleQueuedValue (E : Env α) (c : Camera α) (a : α) :
    (setPitch E c a).mVanityToggleQueuedValue = c.mVanityToggleQueuedValue := by
  cases h : (c.mVanity.enabled || c.mPreviewMode) <;> simp only [setPitch, h, Bool.false_eq_true, ↓reduceIte]

@[simp]
theorem setPitch_mViewModeToggleQueued (E : Env α) (c : Camera α) (a : α) :
    (setPitch E c a).mViewModeToggleQueued = c.mViewModeToggleQueued := by
  cases h : (c.mVanity.enabled || c.mPreviewMode) <;> simp only [setPitch, h, Bool.false_eq_true, ↓reduceIte]

@[simp]
theorem setPitch_mCameraDistance (E : Env α) (c : Camera α) (a : α) :
    (setPitch E c a).mCameraDistance = c.mCameraDistance := by
  cases h : (c.mVanity.enabled || c.mPreviewMode) <;> simp only [setPitch, h, Bool.false_eq_true, ↓reduceIte]

@[simp]
theorem setPitch_mThirdPersonMode (E : Env α) (c : Camera α) (a : α) :
    (setPitch E c a).mThirdPersonMode = c.mThirdPersonMode := by
  cases h : (c.mVanity.enabled || c.mPreviewMode) <;> simp only [setPitch, h, Bool.false_eq_true, ↓reduceIte]

@[simp]
theorem setPitch_mOverShoulderHorizontalOffset (E : Env α) (c : Camera α) (a : α) :
    (setPitch E c a).mOverShoulderHorizontalOffset = c.mOverShoulderHorizontalOffset := by
  cases h : (c.mVanity.enabled || c.mPreviewMode) <;> simp only [setPitch, h, Bool.false_eq_true, ↓reduceIte]

@[simp]
theorem setPitch_mDefaultShoulderIsRight (E : Env α) (c : Camera α) (a : α) :
    (setPitch E c a).mDefaultShoulderIsRight = c.mDefaultShoulderIsRight := by
  cases h : (c.mVanity.enabled || c.mPreviewMode) <;> simp only [setPitch, h, Bool.false_eq_true, ↓reduceIte]

@[simp]
theorem setPitch_mThirdPersionOffsetType (E : Env α) (c : Camera α) (a : α) :
    (setPitch E c a).mThirdPersionOffsetType = c.mThirdPersionOffsetType := by
  cases h : (c.mVanity.enabled || c.mPreviewMode) <;> simp only [setPitch, h, Bool.false_eq_true, ↓reduceIte]

@[simp]
theorem setPitch_mFocalPointCurrentOffset (E : Env α) (c : Camera α) (a : α) :
    (setPitch E c a).mFocalPointCurrentOffset = c.mFocalPointCurrentOffset := by
  cases h : (c.mVanity.enabled || c.mPreviewMode) <;> simp only [setPitch, h, Bool.false_eq_true, ↓reduceIte]

@[simp]
theorem setPitch_mFocalPointAdjustment (E : Env α) (c : Camera α) (a : α) :
    (setPitch E c a).mFocalPointAdjustment = c.mFocalPointAdjustment := by
  cases h : (c.mVanity.enabled || c.mPreviewMode) <;> simp only [setPitch, h, Bool.false_eq_true, ↓reduceIte]

@[simp]
theorem setPitch_mFocalPointTransitionSpeed (E : Env α) (c : Camera α) (a : α) :
    (setPitch E c a).mFocalPointTransitionSpeed = c.mFocalPointTransitionSpeed := by
  cases h : (c.mVanity.enabled || c.mPreviewMode) <;> simp only [setPitch, h, Bool.false_eq_true, ↓reduceIte]

@[simp]
theorem setPitch_mSmoothedSpeed (E : Env α) (c : Camera α) (a : α) :
    (setPitch E c a).mSmoothedSpeed = c.mSmoothedSpeed := by
  cases h : (c.mVanity.enabled || c.mPreviewMode) <;> simp only [setPitch, h, Bool.false_eq_true, ↓reduceIte]

@[simp]
theorem setPitch_mZoomOutWhenMoveCoef (E : Env α) (c : Camera α) (a : α) :
    (setPitch E c a).mZoomOutWhenMoveCoef = c.mZoomOutWhenMoveCoef := by
  cases h : (c.mVanity.enabled || c.mPreviewMode) <;> simp only [setPitch, h, Bool.false_eq_true, ↓reduceIte]

@[simp]
theorem setPitch_mMainCam_yaw (E : Env α) (c : Camera α) (a : α) :
    (setPitch E c a).mMainCam.yaw = c.mMainCam.yaw := by
  cases h : (c.mVanity.enabled || c.mPreviewMode) <;> simp only [setPitch, h, Bool.false_eq_true, ↓reduceIte]

@[simp]
theorem setPitch_mMainCam_offset (E : Env α) (c : Camera α) (a : α) :
    (setPitch E c a).mMainCam.offset = c.mMainCam.offset := by
  cases h : (c.mVanity.enabled || c.mPreviewMode) <;> simp only [setPitch, h, Bool.false_eq_true, ↓reduceIte]

@[simp]
theorem setPitch_mPreviewCam_yaw (E : Env α) (c : Camera α) (a : α) :
    (setPitch E c a).mPreviewCam.yaw = c.mPreviewCam.yaw := by
  cases h : (c.mVanity.enabled || c.mPreviewMode) <;> simp only [setPitch, h, Bool.false_eq_true, ↓reduceIte]

@[simp]
theorem setPitch_mPreviewCam_offset (E : Env α) (c : Camera α) (a : α) :
    (setPitch E c a).mPreviewCam.offset = c.mPreviewCam.offset := by
  cases h : (c.mVanity.enabled || c.mPreviewMode) <;> simp only [setPitch, h, Bool.false_eq_true, ↓reduceIte]

@[simp]
theorem rotateCamera_mTrackingNode (E : Env α) (c : Camera α) (p y : α) (adj : Bool) :
    (rotateCamera E c p y adj).mTrackingNode = c.mTrackingNode := by
  unfold rotateCamera; rw [setPitch_mTrackingNode, setYaw_mTrackingNode]

@[simp]
theorem rotateCamera_mHeightScale (E : Env α) (c : Camera α) (p y : α) (adj : Bool) :
    (rotateCamera E c p y adj).mHeightScale = c.mHeightScale := by
  unfold rotateCamera; rw [setPitch_mHeightScale, setYaw_mHeightScale]

@[simp]
theorem rotateCamera_mFirstPersonView (E : Env α) (c : Camera α) (p y : α) (adj : Bool) :
    (rotateCamera E c p y adj).mFirstPersonView = c.mFirstPersonView := by
  unfold rotateCamera; rw [setPitch_mFirstPersonView, setYaw_mFirstPersonView]

@[simp]
theorem rotateCamera_mPreviewMode (E : Env α) (c : Camera α) (p y : α) (adj : Bool) :
    (rotateCamera E c p y adj).mPreviewMode = c.mPreviewMode := by
  unfold rotateCamera; rw [setPitch_mPreviewMode, setYaw_mPreviewMode]

@[simp]
theorem rotateCamera_mVanity (E : Env α) (c : Camera α) (p y : α) (adj : Bool) :
    (rotateCamera E c p y adj).mVanity = c.mVanity := by
  unfold rotateCamera; rw [setPitch_mVanity, setYaw_mVanity]

@[simp]
theorem rotateCamera_mNearest (E : Env α) (c : Camera α) (p y : α) (adj : Bool) :
    (rotateCamera E c p y adj).mNearest = c.mNearest := by
  unfold rotateCamera; rw [setPitch_mNearest, setYaw_mNearest]

@[simp]
theorem rotateCamera_mFurthest (E : Env α) (c : Camera α) (p y : α) (adj : Bool) :
    (rotateCamera E c p y adj).mFurthest = c.mFurthest := by
  unfold rotateCamera; rw [setPitch_mFurthest, setYaw_mFurthest]

@[simp]
theorem rotateCamera_mIsNearest (E : Env α) (c : Camera α) (p y : α) (adj : Bool) :
    (rotateCamera E c p y adj).mIsNearest = c.mIsNearest := by
  unfold rotateCamera; rw [setPitch_mIsNearest, setYaw_mIsNearest]

@[simp]
theorem rotateCamera_mHeight (E : Env α) (c : Camera α) (p y : α) (adj : Bool) :
    (rotateCamera E c p y adj).mHeight = c.mHeight := by
  unfold rotateCamera; rw [setPitch_mHeight, setYaw_mHeight]

@[simp]
theorem rotateCamera_mBaseCameraDistance (E : Env α) (c : Camera α) (p y : α) (adj : Bool) :
    (rotateCamera E c p y adj).mBaseCameraDistance = c.mBaseCameraDistance := by
  unfold rotateCamera; rw [setPitch_mBaseCameraDistance, setYaw_mBaseCameraDistance]

@[simp]
theorem rotateCamera_mVanityToggleQueued (E : Env α) (c : Camera α) (p y : α) (adj : Bool) :
    (rotateCamera E c p y adj).mVanityToggleQueued = c.mVanityToggleQueued := by
  unfold rotateCamera; rw [setPitch_mVanityToggleQueued, setYaw_mVanityToggleQueued]

@[simp]
theorem rotateCamera_mVanityToggleQueuedValue (E : Env α) (c : Camera α) (p y : α) (adj : Bool) :
    (rotateCamera E c p y adj).mVanityToggleQueuedValue = c.mVanityToggleQueuedValue := by
  unfold rotateCamera; rw [setPitch_mVanityToggleQueuedValue, setYaw_mVanityToggleQueuedValue]

@[simp]
theorem rotateCamera_mViewModeToggleQueued (E : Env α) (c : Camera α) (p y : α) (adj : Bool) :
    (rotateCamera E c p y adj).mViewModeToggleQueued = c.mViewModeToggleQueued := by
  unfold rotateCamera; rw [setPitch_mViewModeToggleQueued, setYaw_mViewModeToggleQueued]

@[simp]
theorem rotateCamera_mCameraDistance (E : Env α) (c : Camera α) (p y : α) (adj : Bool) :
    (rotateCamera E c p y adj).mCameraDistance = c.mCameraDistance := by
  unfold rotateCamera; rw [setPitch_mCameraDistance, setYaw_mCameraDistance]

@[simp]
theorem rotateCamera_mThirdPersonMode (E : Env α) (c : Camera α) (p y : α) (adj : Bool) :
    (rotateCamera E c p y adj).mThirdPersonMode = c.mThirdPersonMode := by
  unfold rotateCamera; rw [setPitch_mThirdPersonMode, setYaw_mThirdPersonMode]

@[simp]
theorem rotateCamera_mOverShoulderHorizontalOffset (E : Env α) (c : Camera α) (p y : α) (adj : Bool) :
    (rotateCamera E c p y adj).mOverShoulderHorizontalOffset = c.mOverShoulderHorizontalOffset := by
  unfold rotateCamera; rw [setPitch_mOverShoulderHorizontalOffset, setYaw_mOverShoulderHorizontalOffset]

@[simp]
theorem rotateCamera_mDefaultShoulderIsRight (E : Env α) (c : Camera α) (p y : α) (adj : Bool) :
    (rotateCamera E c p y adj).mDefaultShoulderIsRight = c.mDefaultShoulderIsRight := by
  unfold rotateCamera; rw [setPitch_mDefaultShoulderIsRight, setYaw_mDefaultShoulderIsRight]

@[simp]
theorem rotateCamera_mThirdPersionOffsetType (E : Env α) (c : Camera α) (p y : α) (adj : Bool) :
    (rotateCamera E c p y adj).mThirdPersionOffsetType = c.mThirdPersionOffsetType := by
  unfold rotateCamera; rw [setPitch_mThirdPersionOffsetType, setYaw_mThirdPersionOffsetType]

@[simp]
theorem rotateCamera_mFocalPointCurrentOffset (E : Env α) (c : Camera α) (p y : α) (adj : Bool) :
    (rotateCamera E c p y adj).mFocalPointCurrentOffset = c.mFocalPointCurrentOffset := by
  unfold rotateCamera; rw [setPitch_mFocalPointCurrentOffset, setYaw_mFocalPointCurrentOffset]

@[simp]
theorem rotateCamera_mFocalPointAdjustment (E : Env α) (c : Camera α) (p y : α) (adj : Bool) :
    (rotateCamera E c p y adj).mFocalPointAdjustment = c.mFocalPointAdjustment := by
  unfold rotateCamera; rw [setPitch_mFocalPointAdjustment, setYaw_mFocalPointAdjustment]

@[simp]
theorem rotateCamera_mFocalPointTransitionSpeed (E : Env α) (c : Camera α) (p y : α) (adj : Bool) :
    (rotateCamera E c p y adj).mFocalPointTransitionSpeed = c.mFocalPointTransitionSpeed := by
  unfold rotateCamera; rw [setPitch_mFocalPointTransitionSpeed, setYaw_mFocalPointTransitionSpeed]

@[simp]
theorem rotateCamera_mSmoothedSpeed (E : Env α) (c : Camera α) (p y : α) (adj : Bool) :
    (rotateCamera E c p y adj).mSmoothedSpeed = c.mSmoothedSpeed := by
  unfold rotateCamera; rw [setPitch_mSmoothedSpeed, setYaw_mSmoothedSpeed]

@[simp]
theorem rotateCamera_mZoomOutWhenMoveCoef (E : Env α) (c : Camera α) (p y : α) (adj : Bool) :
    (rotateCamera E c p y adj).mZoomOutWhenMoveCoef = c.mZoomOutWhenMoveCoef := by
  unfold rotateCamera; rw [setPitch_mZoomOutWhenMoveCoef, setYaw_mZoomOutWhenMoveCoef]

@[simp]
theorem rotateCamera_mMainCam_offset (E : Env α) (c : Camera α) (p y : α) (adj : Bool) :
    (rotateCamera E c p y adj).mMainCam.offset = c.mMainCam.offset := by
  unfold rotateCamera; rw [setPitch_mMainCam_offset, setYaw_mMainCam_offset]

@[simp]
theorem rotateCamera_mPreviewCam_offset (E : Env α) (c : Camera α) (p y : α) (adj : Bool) :
    (rotateCamera E c p y adj).mPreviewCam.offset = c.mPreviewCam.offset := by
  unfold rotateCamera; rw [setPitch_mPreviewCam_offset, setYaw_mPreviewCam_offset]

@[simp]
theorem processViewChange_mFirstPersonView (E : Env α) (c : Camera α) :
    (processViewChange E c).mFirstPersonView = c.mFirstPersonView := by
  unfold processViewChange; dsimp only; rw [rotateCamera_mFirstPersonView]; split <;> rfl

@[simp]
theorem processViewChange_mPreviewMode (E : Env α) (c : Camera α) :
    (processViewChange E c).mPreviewMode = c.mPreviewMode := by
  unfold processViewChange; dsimp only; rw [rotateCamera_mPreviewMode]; split <;> rfl

@[simp]
theorem processViewChange_mVanity (E : Env α) (c : Camera α) :
    (processViewChange E c).mVanity = c.mVanity := by
  unfold processViewChange; dsimp only; rw [rotateCamera_mVanity]; split <;> rfl

@[simp]
theorem processViewChange_mNearest (E : Env α) (c : Camera α) :
    (processViewChange E c).mNearest = c.mNearest := by
  unfold processViewChange; dsimp only; rw [rotateCamera_mNearest]; split <;> rfl

@[simp]
theorem processViewChange_mFurthest (E : Env α) (c : Camera α) :
    (processViewChange E c).mFurthest = c.mFurthest := by
  unfold processViewChange; dsimp only; rw [rotateCamera_mFurthest]; split <;> rfl

@[simp]
theorem processViewChange_mIsNearest (E : Env α) (c : Camera α) :
    (processViewChange E c).mIsNearest = c.mIsNearest := by
  unfold processViewChange; dsimp only; rw [rotateCamera_mIsNearest]; split <;> rfl

@[simp]
theorem processViewChange_mHeight (E : Env α) (c : Camera α) :
    (processViewChange E c).mHeight = c.mHeight := by
  unfold processViewChange; dsimp only; rw [rotateCamera_mHeight]; split <;> rfl

@[simp]
theorem processViewChange_mBaseCameraDistance (E : Env α) (c : Camera α) :
    (processViewChange E c).mBaseCameraDistance = c.mBaseCameraDistance := by
  unfold processViewChange; dsimp only; rw [rotateCamera_mBaseCameraDistance]; split <;> rfl

@[simp]
theorem processViewChange_mVanityToggleQueued (E : Env α) (c : Camera α) :
    (processViewChange E c).mVanityToggleQueued = c.mVanityToggleQueued := by
  unfold processViewChange; dsimp only; rw [rotateCamera_mVanityToggleQueued]; split <;> rfl

@[simp]
theorem processViewChange_mVanityToggleQueuedValue (E : Env α) (c : Camera α) :
    (processViewChange E c).mVanityToggleQueuedValue = c.mVanityToggleQueuedValue := by
  unfold processViewChange; dsimp only; rw [rotateCamera_mVanityToggleQueuedValue]; split <;> rfl

@[simp]
theorem processViewChange_mViewModeToggleQueued (E : Env α) (c : Camera α) :
    (processViewChange E c).mViewModeToggleQueued = c.mViewModeToggleQueued := by
  unfold processViewChange; dsimp only; rw [rotateCamera_mViewModeToggleQueued]; split <;> rfl

@[simp]
theorem processViewChange_mCameraDistance (E : Env α) (c : Camera α) :
    (processViewChange E c).mCameraDistance = c.mCameraDistance := by
  unfold processViewChange; dsimp only; rw [rotateCamera_mCameraDistance]; split <;> rfl

@[simp]
theorem processViewChange_mThirdPersonMode (E : Env α) (c : Camera α) :
    (processViewChange E c).mThirdPersonMode = c.mThirdPersonMode := by
  unfold processViewChange; dsimp only; rw [rotateCamera_mThirdPersonMode]; split <;> rfl

@[simp]
theorem processViewChange_mOverShoulderHorizontalOffset (E : Env α) (c : Camera α) :
    (processViewChange E c).mOverShoulderHorizontalOffset = c.mOverShoulderHorizontalOffset := by
  unfold processViewChange; dsimp only; rw [rotateCamera_mOverShoulderHorizontalOffset]; split <;> rfl

@[simp]
theorem processViewChange_mDefaultShoulderIsRight (E : Env α) (c : Camera α) :
    (processViewChange E c).mDefaultShoulderIsRight = c.mDefaultShoulderIsRight := by
  unfold processViewChange; dsimp only; rw [rotateCamera_mDefaultShoulderIsRight]; split <;> rfl

@[simp]
theorem processViewChange_mThirdPersionOffsetType (E : Env α) (c : Camera α) :
    (processViewChange E c).mThirdPersionOffsetType = c.mThirdPersionOffsetType := by
  unfold processViewChange; dsimp only; rw [rotateCamera_mThirdPersionOffsetType]; split <;> rfl

@[simp]
theorem processViewChange_mFocalPointCurrentOffset (E : Env α) (c : Camera α) :
    (processViewChange E c).mFocalPointCurrentOffset = c.mFocalPointCurrentOffset := by
  unfold processViewChange; dsimp only; rw [rotateCamera_mFocalPointCurrentOffset]; split <;> rfl

@[simp]
theorem processViewChange_mFocalPointAdjustment (E : Env α) (c : Camera α) :
    (processViewChange E c).mFocalPointAdjustment = c.mFocalPointAdjustment := by
  unfold processViewChange; dsimp only; rw [rotateCamera_mFocalPointAdjustment]; split <;> rfl

@[simp]
theorem processViewChange_mFocalPointTransitionSpeed (E : Env α) (c : Camera α) :
    (processViewChange E c).mFocalPointTransitionSpeed = c.mFocalPointTransitionSpeed := by
  unfold processViewChange; dsimp only; rw [rotateCamera_mFocalPointTransitionSpeed]; split <;> rfl

@[simp]
theorem processViewChange_mSmoothedSpeed (E : Env α) (c : Camera α) :
    (processViewChange E c).mSmoothedSpeed = c.mSmoothedSpeed := by
  unfold processViewChange; dsimp only; rw [rotateCamera_mSmoothedSpeed]; split <;> rfl

@[simp]
theorem processViewChange_mZoomOutWhenMoveCoef (E : Env α) (c : Camera α) :
    (processViewChange E c).mZoomOutWhenMoveCoef = c.mZoomOutWhenMoveCoef := by
  unfold processViewChange; dsimp only; rw [rotateCamera_mZoomOutWhenMoveCoef]; split <;> rfl

@[simp]
theorem processViewChange_mMainCam_offset (E : Env α) (c : Camera α) :
    (processViewChange E c).mMainCam.offset = c.mMainCam.offset := by
  unfold processViewChange; dsimp only; rw [rotateCamera_mMainCam_offset]; split <;> rfl

@[simp]
theorem processViewChange_mPreviewCam_offset (E : Env α) (c : Camera α) :
    (processViewChange E c).mPreviewCam.offset = c.mPreviewCam.offset := by
  unfold processViewChange; dsimp only; rw [rotateCamera_mPreviewCam_offset]; split <;> rfl

/-! ### What the setters of yaw and pitch store -/

theorem getPitch_setPitch (E : Env α) (c : Camera α) (p : α) :
    getPitch (setPitch E c p) =
      (if p > (if c.mPreviewMode then (PI_2 E - epsilon) / 2 else PI_2 E - epsilon) then
        (if c.mPreviewMode then (PI_2 E - epsilon) / 2 else PI_2 E - epsilon)
      else if p < -(if c.mPreviewMode then (PI_2 E - epsilon) / 2 else PI_2 E - epsilon) then
        -(if c.mPreviewMode then (PI_2 E - epsilon) / 2 else PI_2 E - epsilon)
      else p) := by
  unfold getPitch setPitch
  by_cases h : (c.mVanity.enabled || c.mPreviewMode) = true <;> simp [h]

theorem getYaw_setYaw (E : Env α) (c : Camera α) (y : α) :
    getYaw (setYaw E c y) =
      (if y > E.PI then y - E.PI * 2 else if y < -E.PI then y + E.PI * 2 else y) := by
  unfold getYaw setYaw
  by_cases h : (c.mVanity.enabled || c.mPreviewMode) = true <;> simp [h]

/-- C1: after `setPitch p` the pitch of the active slot lies in `[-limit, limit]`, where
`limit` is π/2 − 0.000001, halved in preview mode, and it is `p` itself when `p` already lies
in that interval (for any value of `osg::PI` above 3). -/
theorem setPitch_within_limit (E : Env α) (c : Camera α) (p limit : α) (hPI : 3 < E.PI)
    (hlimit : limit = if c.mPreviewMode then (E.PI / 2 - 1 / 1000000) / 2
      else E.PI / 2 - 1 / 1000000) :
    -limit ≤ getPitch (setPitch E c p) ∧ getPitch (setPitch E c p) ≤ limit ∧
      (-limit ≤ p → p ≤ limit → getPitch (setPitch E c p) = p) := by
  have hpos : 0 ≤ limit := by
    rw [hlimit]; split_ifs <;> linarith
  have hl : (if c.mPreviewMode then (PI_2 E - epsilon) / 2 else PI_2 E - epsilon) = limit := by
    rw [hlimit]; simp [PI_2, epsilon]
  rw [getPitch_setPitch, hl]
  refine ⟨?_, ?_, ?_⟩
  · split_ifs <;> linarith
  · split_ifs <;> linarith
  · intro h1 h2
    split_ifs <;> linarith

/-- Witness of C1 in preview mode: a pitch of 2 radians is cut down to the halved limit. -/
theorem setPitch_within_limit_witness :
    getPitch (setPitch (sampleEnv true) { sampleCamera with mPreviewMode := true } 2)
      ≤ (3.14159265358979323846 / 2 - 1 / 1000000) / 2 :=
  (setPitch_within_limit (sampleEnv true) { sampleCamera with mPreviewMode := true } 2
    ((3.14159265358979323846 / 2 - 1 / 1000000) / 2) (by norm_num [sampleEnv])
    (by norm_num [sampleEnv, sampleCamera])).2.1

/-- C2, as stated, fails: `setYaw` wraps by one turn only, so a yaw of 10 radians is stored
as 10 − 2π, which is above π, and a yaw of −π is stored unchanged although −π is not in the
half-open interval (−π, π]. -/
theorem setYaw_not_normalized :
    ¬ (-(sampleEnv true).PI < getYaw (setYaw (sampleEnv true) sampleCamera 10)
        ∧ getYaw (setYaw (sampleEnv true) sampleCamera 10) ≤ (sampleEnv true).PI)
    ∧ ¬ (-(sampleEnv true).PI
          < getYaw (setYaw (sampleEnv true) sampleCamera (-(sampleEnv true).PI))
        ∧ getYaw (setYaw (sampleEnv true) sampleCamera (-(sampleEnv true).PI))
          ≤ (sampleEnv true).PI) := by
  constructor
  · rw [getYaw_setYaw]; norm_num [sampleEnv]
  · rw [getYaw_setYaw]; norm_num [sampleEnv]

/-- C2, amended: after `setYaw y` the yaw of the active slot is `y`, `y − 2π` or `y + 2π`
(so it equals `y` modulo 2π), and it lies in the half-open interval (−π, π] exactly when
−3π < y ≤ 3π and y ≠ −π. -/
theorem setYaw_wraps_once (E : Env α) (c : Camera α) (y : α) :
    (∃ k : ℤ, (k = 0 ∨ k = 1 ∨ k = -1) ∧ getYaw (setYaw E c y) = y + k * (2 * E.PI))
    ∧ ((-E.PI < getYaw (setYaw E c y) ∧ getYaw (setYaw E c y) ≤ E.PI)
        ↔ (-(3 * E.PI) < y ∧ y ≤ 3 * E.PI ∧ y ≠ -E.PI)) := by
  rw [getYaw_setYaw]
  constructor
  · by_cases h1 : y > E.PI
    · exact ⟨-1, by simp, by simp [h1]; ring⟩
    · by_cases h2 : y < -E.PI
      · exact ⟨1, by simp, by simp [h1, h2]; ring⟩
      · exact ⟨0, by simp, by simp [h1, h2]⟩
  · by_cases h1 : y > E.PI
    · simp only [h1, if_true]
      constructor
      · rintro ⟨a, b⟩
        refine ⟨by linarith, by linarith, fun h => by linarith⟩
      · rintro ⟨a, b, _⟩
        exact ⟨by linarith, by linarith⟩
    · by_cases h2 : y < -E.PI
      · simp only [h1, h2, if_true, if_false]
        constructor
        · rintro ⟨a, b⟩
          refine ⟨by linarith, by linarith, fun h => by linarith⟩
        · rintro ⟨a, b, _⟩
          exact ⟨by linarith, by linarith⟩
      · simp only [h1, h2, if_false]
        push_neg at h1 h2
        constructor
        · rintro ⟨a, b⟩
          refine ⟨by linarith, by linarith, fun h => by linarith⟩
        · rintro ⟨a, b, hne⟩
          exact ⟨lt_of_le_of_ne h2 (Ne.symm hne), h1⟩

/-! ### The view flags through the toggles -/

@[simp]
theorem toggleVanityMode_mFirstPersonView (E : Env α) (c : Camera α) (b : Bool) :
    (toggleVanityMode E c b).2.mFirstPersonView = c.mFirstPersonView := by
  unfold toggleVanityMode; dsimp only; split_ifs <;> simp

@[simp]
theorem toggleVanityMode_mPreviewMode (E : Env α) (c : Camera α) (b : Bool) :
    (toggleVanityMode E c b).2.mPreviewMode = c.mPreviewMode := by
  unfold toggleVanityMode; dsimp only; split_ifs <;> simp

@[simp]
theorem toggleVanityMode_mViewModeToggleQueued (E : Env α) (c : Camera α) (b : Bool) :
    (toggleVanityMode E c b).2.mViewModeToggleQueued = c.mViewModeToggleQueued := by
  unfold toggleVanityMode; dsimp only; split_ifs <;> simp

@[simp]
theorem toggleVanityMode_allowed (E : Env α) (c : Camera α) (b : Bool) :
    (toggleVanityMode E c b).2.mVanity.allowed = c.mVanity.allowed := by
  unfold toggleVanityMode; dsimp only; split_ifs <;> simp

@[simp]
theorem togglePreviewMode_mFirstPersonView (E : Env α) (c : Camera α) (b : Bool) :
    (togglePreviewMode E c b).mFirstPersonView = c.mFirstPersonView := by
  unfold togglePreviewMode; dsimp only; split_ifs <;> simp

@[simp]
theorem togglePreviewMode_mVanity (E : Env α) (c : Camera α) (b : Bool) :
    (togglePreviewMode E c b).mVanity = c.mVanity := by
  unfold togglePreviewMode; dsimp only; split_ifs <;> simp

@[simp]
theorem togglePreviewMode_mViewModeToggleQueued (E : Env α) (c : Camera α) (b : Bool) :
    (togglePreviewMode E c b).mViewModeToggleQueued = c.mViewModeToggleQueued := by
  unfold togglePreviewMode; dsimp only; split_ifs <;> simp

@[simp]
theorem togglePreviewMode_mVanityToggleQueued (E : Env α) (c : Camera α) (b : Bool) :
    (togglePreviewMode E c b).mVanityToggleQueued = c.mVanityToggleQueued := by
  unfold togglePreviewMode; dsimp only; split_ifs <;> simp

@[simp]
theorem togglePreviewMode_mVanityToggleQueuedValue (E : Env α) (c : Camera α) (b : Bool) :
    (togglePreviewMode E c b).mVanityToggleQueuedValue = c.mVanityToggleQueuedValue := by
  unfold togglePreviewMode; dsimp only; split_ifs <;> simp

/-- With the animation ready, or in third-person view, `togglePreviewMode b` ends with
`mPreviewMode = b`. -/
theorem togglePreviewMode_mPreviewMode (E : Env α) (c : Camera α) (b : Bool)
    (h : (c.mFirstPersonView && !E.upperBodyReady) = false) :
    (togglePreviewMode E c b).mPreviewMode = b := by
  unfold togglePreviewMode; dsimp only
  rw [h]
  by_cases hb : c.mPreviewMode = b
  · simp [hb]
  · have hb2 : (c.mPreviewMode == b) = false := by simpa using hb
    simp only [hb2, Bool.false_eq_true, if_false]
    split_ifs <;> simp

/-- With the animation ready, or in third-person view, `toggleVanityMode false` ends with
vanity off. -/
theorem toggleVanityMode_false_enabled (E : Env α) (c : Camera α)
    (h : (c.mFirstPersonView && !E.upperBodyReady) = false) :
    (toggleVanityMode E c false).2.mVanity.enabled = false := by
  unfold toggleVanityMode; dsimp only
  rw [h]
  cases he : c.mVanity.enabled <;> simp [he]

theorem toggleViewMode_queued (E : Env α) (c : Camera α) (h : E.upperBodyReady = false) :
    toggleViewMode E c false = { c with mViewModeToggleQueued := true } := by
  unfold toggleViewMode; simp [h]

theorem toggleViewMode_ready_mFirstPersonView (E : Env α) (c : Camera α) (force : Bool)
    (h : (!E.upperBodyReady && !force) = false) :
    (toggleViewMode E c force).mFirstPersonView = !c.mFirstPersonView := by
  unfold toggleViewMode; simp [h]

theorem toggleViewMode_ready_mVanity (E : Env α) (c : Camera α) (force : Bool)
    (h : (!E.upperBodyReady && !force) = false) :
    (toggleViewMode E c force).mVanity = c.mVanity := by
  unfold toggleViewMode; simp [h]

theorem toggleViewMode_ready_mPreviewMode (E : Env α) (c : Camera α) (force : Bool)
    (h : (!E.upperBodyReady && !force) = false) :
    (toggleViewMode E c force).mPreviewMode = c.mPreviewMode := by
  unfold toggleViewMode; simp [h]

@[simp]
theorem updateFocalPointOffset_mFirstPersonView (E : Env α) (c : Camera α) (d : α) :
    (updateFocalPointOffset E c d).mFirstPersonView = c.mFirstPersonView := by
  unfold updateFocalPointOffset switchOffsetType; dsimp only; split_ifs <;> rfl

@[simp]
theorem updateFocalPointOffset_mViewModeToggleQueued (E : Env α) (c : Camera α) (d : α) :
    (updateFocalPointOffset E c d).mViewModeToggleQueued = c.mViewModeToggleQueued := by
  unfold updateFocalPointOffset switchOffsetType; dsimp only; split_ifs <;> rfl

theorem toggleViewMode_ready_mViewModeToggleQueued (E : Env α) (c : Camera α) (force : Bool)
    (h : (!E.upperBodyReady && !force) = false) :
    (toggleViewMode E c force).mViewModeToggleQueued = false := by
  unfold toggleViewMode; simp [h]

/-- The view flag after `update`: flipped exactly when the animation is ready and a view-mode
toggle is queued. -/
theorem update_mFirstPersonView (E : Env α) (c : Camera α) (d : α) (p : Bool) :
    (update E c d p).mFirstPersonView =
      (if E.upperBodyReady && c.mViewModeToggleQueued then !c.mFirstPersonView
       else c.mFirstPersonView) := by
  unfold update; dsimp only
  cases hr : E.upperBodyReady <;> cases hq : c.mViewModeToggleQueued <;>
    cases hv : c.mVanityToggleQueued <;> cases p <;>
    simp [hr, hq, hv, toggleViewMode_ready_mFirstPersonView, apply_ite Camera.mFirstPersonView]

/-- The queued view-mode flag after `update`: cleared when the animation is ready. -/
theorem update_mViewModeToggleQueued (E : Env α) (c : Camera α) (d : α) (p : Bool) :
    (update E c d p).mViewModeToggleQueued =
      (if E.upperBodyReady then false else c.mViewModeToggleQueued) := by
  unfold update; dsimp only
  cases hr : E.upperBodyReady <;> cases hq : c.mViewModeToggleQueued <;>
    cases hv : c.mVanityToggleQueued <;> cases p <;>
    simp [hr, hq, hv, apply_ite Camera.mViewModeToggleQueued]

/-- C3: with the animation not ready, `toggleViewMode()` leaves `mFirstPersonView` alone and
queues the toggle; one `update` with the animation ready then flips `mFirstPersonView`, and a
further `update` (animation ready or not) does not flip it again. -/
theorem toggleViewMode_deferred_once (E1 E2 E3 : Env α) (c : Camera α) (d2 d3 : α)
    (p2 p3 : Bool) (h1 : E1.upperBodyReady = false) (h2 : E2.upperBodyReady = true) :
    (toggleViewMode E1 c false).mFirstPersonView = c.mFirstPersonView
    ∧ (toggleViewMode E1 c false).mViewModeToggleQueued = true
    ∧ (update E2 (toggleViewMode E1 c false) d2 p2).mFirstPersonView = !c.mFirstPersonView
    ∧ (update E3 (update E2 (toggleViewMode E1 c false) d2 p2) d3 p3).mFirstPersonView
        = !c.mFirstPersonView := by
  rw [toggleViewMode_queued E1 c h1]
  refine ⟨rfl, rfl, ?_, ?_⟩
  · rw [update_mFirstPersonView]; simp [h2]
  · rw [update_mFirstPersonView, update_mViewModeToggleQueued, update_mFirstPersonView]
    simp [h2]

/-- Witness of C3 from the state after construction (first-person view): the queued toggle
is applied by the first `update` and the view stays third-person after the second. -/
theorem toggleViewMode_deferred_once_witness :
    (update (sampleEnv true)
      (update (sampleEnv true) (toggleViewMode (sampleEnv false) sampleCamera false) 1 false)
      1 false).mFirstPersonView = false :=
  (toggleViewMode_deferred_once (sampleEnv false) (sampleEnv true) (sampleEnv true)
    sampleCamera 1 1 false false rfl rfl).2.2.2

/-- When the call is not deferred and not refused, `toggleVanityMode b` ends with
`mVanity.enabled = b`. -/
theorem toggleVanityMode_enabled (E : Env α) (c : Camera α) (b : Bool)
    (h : (c.mFirstPersonView && !E.upperBodyReady) = false)
    (ha : (!c.mVanity.allowed && b) = false) :
    (toggleVanityMode E c b).2.mVanity.enabled = b := by
  unfold toggleVanityMode; dsimp only
  rw [h, ha]
  by_cases hb : c.mVanity.enabled = b
  · simp [hb]
  · have hb2 : (c.mVanity.enabled == b) = false := by simpa using hb
    simp only [hb2, Bool.false_eq_true, if_false]
    split_ifs <;> simp

/-- A refused call (vanity disallowed, enabling requested, not deferred) changes nothing. -/
theorem toggleVanityMode_refused (E : Env α) (c : Camera α) (b : Bool)
    (h : (c.mFirstPersonView && !E.upperBodyReady) = false)
    (ha : (!c.mVanity.allowed && b) = true) :
    toggleVanityMode E c b = (false, c) := by
  unfold toggleVanityMode; dsimp only
  rw [h, ha]; simp

/-- A call that asks for the state vanity is already in (not deferred, not refused) changes
nothing and returns true. -/
theorem toggleVanityMode_same (E : Env α) (c : Camera α) (b : Bool)
    (h : (c.mFirstPersonView && !E.upperBodyReady) = false)
    (ha : (!c.mVanity.allowed && b) = false) (hb : c.mVanity.enabled = b) :
    toggleVanityMode E c b = (true, c) := by
  unfold toggleVanityMode; dsimp only
  rw [h, ha]; simp [hb]

/-- C4, as stated, fails: with vanity disallowed and the animation ready, the second of two
calls `toggleVanityMode(true)` returns false, not true. -/
theorem toggleVanityMode_twice_refused :
    (toggleVanityMode (sampleEnv true)
      (toggleVanityMode (sampleEnv true)
        { sampleCamera with mVanity := ⟨false, false⟩ } true).2 true).1 = false := by
  rw [toggleVanityMode_refused (sampleEnv true) { sampleCamera with mVanity := ⟨false, false⟩ }
    true rfl rfl]
  rw [toggleVanityMode_refused (sampleEnv true) { sampleCamera with mVanity := ⟨false, false⟩ }
    true rfl rfl]

/-- C4, amended: with the animation ready, the second of two calls `toggleVanityMode(enable)`
leaves the whole state unchanged; it returns true when vanity is allowed or `enable` is false,
and false when vanity is disallowed and `enable` is true. -/
theorem toggleVanityMode_twice (E1 E2 : Env α) (c : Camera α) (enable : Bool)
    (h1 : E1.upperBodyReady = true) (h2 : E2.upperBodyReady = true) :
    toggleVanityMode E2 (toggleVanityMode E1 c enable).2 enable
      = (c.mVanity.allowed || !enable, (toggleVanityMode E1 c enable).2) := by
  have hd1 : (c.mFirstPersonView && !E1.upperBodyReady) = false := by simp [h1]
  cases ha : (!c.mVanity.allowed && enable)
  · have hen := toggleVanityMode_enabled E1 c enable hd1 ha
    have hr : (c.mVanity.allowed || !enable) = true := by
      cases hx : c.mVanity.allowed <;> cases enable <;> simp_all
    rw [hr]
    apply toggleVanityMode_same _ _ _ _ _ hen
    · simp [h2]
    · rw [toggleVanityMode_allowed]; exact ha
  · have hr : (c.mVanity.allowed || !enable) = false := by
      cases hx : c.mVanity.allowed <;> cases enable <;> simp_all
    rw [hr, toggleVanityMode_refused E1 c enable hd1 ha]
    exact toggleVanityMode_refused E2 c enable (by simp [h2]) ha

/-- Witness of C4 (amended): entering vanity twice from the state after construction. -/
theorem toggleVanityMode_twice_witness :
    toggleVanityMode (sampleEnv true) (toggleVanityMode (sampleEnv true) sampleCamera true).2
        true
      = (true, (toggleVanityMode (sampleEnv true) sampleCamera true).2) :=
  toggleVanityMode_twice (sampleEnv true) (sampleEnv true) sampleCamera true rfl rfl

/-- C5: outside strict first person (third-person view, or vanity or preview on), and with
`mFurthest` at least 10 (the constructor sets it to 800 and nothing changes it),
`setCameraDistance(dist, false)` makes `getCameraDistance()` return `dist` clamped to
`[10, mFurthest]`: 10 below 10, `mFurthest` from `mFurthest` on, `dist` in between; so
`setCameraDistance(5)` yields 10. -/
theorem setCameraDistance_clamps (c : Camera α) (dist : α)
    (hnfp : c.mFirstPersonView = false ∨ c.mVanity.enabled = true ∨ c.mPreviewMode = true)
    (hF : 10 ≤ c.mFurthest) :
    (dist < 10 → getCameraDistance (setCameraDistance c dist false) = 10)
    ∧ (c.mFurthest ≤ dist → getCameraDistance (setCameraDistance c dist false) = c.mFurthest)
    ∧ (10 ≤ dist → dist < c.mFurthest →
        getCameraDistance (setCameraDistance c dist false) = dist)
    ∧ 10 ≤ getCameraDistance (setCameraDistance c dist false)
    ∧ getCameraDistance (setCameraDistance c dist false) ≤ c.mFurthest
    ∧ getCameraDistance (setCameraDistance c 5 false) = 10 := by
  have hg : (c.mFirstPersonView && !c.mPreviewMode && !c.mVanity.enabled) = false := by
    rcases hnfp with h | h | h <;> simp [h]
  have hfp : ∀ x : α, isFirstPerson { c with mCameraDistance := x } = false := by
    intro x
    rcases hnfp with h | h | h <;> simp [isFirstPerson, h]
  have key : ∀ d : α, getCameraDistance (setCameraDistance c d false)
      = if d ≥ c.mFurthest then c.mFurthest else if d < 10 then 10 else d := by
    intro d
    unfold getCameraDistance setCameraDistance
    simp only [hg, Bool.false_eq_true, if_false, hfp]
  rw [key, key]
  refine ⟨?_, ?_, ?_, ?_, ?_, ?_⟩
  · intro h
    rw [if_neg (by simp only [ge_iff_le, not_le]; linarith), if_pos h]
  · intro h
    rw [if_pos h]
  · intro h1 h2
    rw [if_neg (by simp only [ge_iff_le, not_le]; exact h2), if_neg (not_lt.mpr h1)]
  · split_ifs <;> linarith
  · split_ifs <;> linarith
  · rw [if_neg (by simp only [ge_iff_le, not_le]; linarith), if_pos (by norm_num)]

/-- Witness of C5 in third-person view: asking for a distance of 5 yields 10. -/
theorem setCameraDistance_clamps_witness :
    getCameraDistance
      (setCameraDistance { sampleCamera with mFirstPersonView := false } 5 false) = 10 :=
  (setCameraDistance_clamps { sampleCamera with mFirstPersonView := false } 5
    (Or.inl rfl) (by norm_num [sampleCamera, Camera.init])).1 (by norm_num)

/-- C6, as stated, fails: when vanity was entered from first-person view and the animation is
not ready, `allowVanityMode(false)` only queues the toggle and vanity stays enabled. -/
theorem allowVanityMode_false_deferred :
    (allowVanityMode (sampleEnv false) { sampleCamera with mVanity := ⟨true, true⟩ }
      false).mVanity.enabled = true := by
  simp [allowVanityMode, toggleVanityMode, sampleCamera, Camera.init, sampleEnv]

/-- C6, amended: from a state with vanity enabled, `allowVanityMode(false)` always ends with
vanity disallowed; vanity is off afterwards when the toggle is not deferred (third-person
view, or animation ready); when it is deferred (first-person view and animation not ready)
vanity stays enabled and a toggle to off is queued. -/
theorem allowVanityMode_false_forces_off (E : Env α) (c : Camera α)
    (hen : c.mVanity.enabled = true) :
    (allowVanityMode E c false).mVanity.allowed = false
    ∧ (c.mFirstPersonView = false ∨ E.upperBodyReady = true →
        (allowVanityMode E c false).mVanity.enabled = false)
    ∧ (c.mFirstPersonView = true ∧ E.upperBodyReady = false →
        (allowVanityMode E c false).mVanity.enabled = true
        ∧ (allowVanityMode E c false).mVanityToggleQueued = true
        ∧ (allowVanityMode E c false).mVanityToggleQueuedValue = false) := by
  have hu : allowVanityMode E c false
      = { (toggleVanityMode E c false).2 with
          mVanity := { (toggleVanityMode E c false).2.mVanity with allowed := false } } := by
    simp [allowVanityMode, hen]
  rw [hu]
  refine ⟨rfl, ?_, ?_⟩
  · intro h
    have hd : (c.mFirstPersonView && !E.upperBodyReady) = false := by
      rcases h with h | h <;> simp [h]
    exact toggleVanityMode_false_enabled E c hd
  · rintro ⟨hf, hr⟩
    simp [toggleVanityMode, hf, hr, hen]

/-- Witness of C6 (amended): in third-person view with vanity on, disallowing vanity turns
it off even though the animation is not ready. -/
theorem allowVanityMode_false_forces_off_witness :
    (allowVanityMode (sampleEnv false)
      { sampleCamera with mVanity := ⟨true, true⟩, mFirstPersonView := false }
      false).mVanity.enabled = false :=
  (allowVanityMode_false_forces_off (sampleEnv false)
    { sampleCamera with mVanity := ⟨true, true⟩, mFirstPersonView := false } rfl).2.1
    (Or.inl rfl)

/-- C7: with vanity disallowed, `toggleVanityMode(true)` returns false and leaves
`mVanity.enabled` alone; when the call is not deferred (third-person view, or animation
ready) the whole state, queued-toggle flags included, is unchanged. -/
theorem toggleVanityMode_disallowed (E : Env α) (c : Camera α)
    (hdis : c.mVanity.allowed = false) :
    (toggleVanityMode E c true).1 = false
    ∧ (toggleVanityMode E c true).2.mVanity.enabled = c.mVanity.enabled
    ∧ (c.mFirstPersonView = false ∨ E.upperBodyReady = true →
        (toggleVanityMode E c true).2 = c) := by
  have ha : (!c.mVanity.allowed && true) = true := by simp [hdis]
  cases hd : (c.mFirstPersonView && !E.upperBodyReady)
  · rw [toggleVanityMode_refused E c true hd ha]
    exact ⟨rfl, rfl, fun _ => rfl⟩
  · refine ⟨?_, ?_, ?_⟩
    · simp [toggleVanityMode, hd]
    · simp [toggleVanityMode, hd]
    · intro h
      rcases h with h | h <;> simp [h] at hd

/-- Witness of C7: with vanity disallowed and the animation ready, `toggleVanityMode(true)`
changes nothing. -/
theorem toggleVanityMode_disallowed_witness :
    (toggleVanityMode (sampleEnv true) { sampleCamera with mVanity := ⟨false, false⟩ } true).2
      = { sampleCamera with mVanity := ⟨false, false⟩ } :=
  (toggleVanityMode_disallowed (sampleEnv true)
    { sampleCamera with mVanity := ⟨false, false⟩ } rfl).2.2 (Or.inr rfl)

/-- C8, as stated, fails: in third-person view with the animation not ready, `reset()` only
queues the view-mode toggle and the camera stays in third-person view. -/
theorem reset_not_ready_third_person :
    (reset (sampleEnv false) { sampleCamera with mFirstPersonView := false }).mFirstPersonView
      = false
    ∧ (reset (sampleEnv false)
        { sampleCamera with mFirstPersonView := false }).mViewModeToggleQueued = true := by
  simp [reset, togglePreviewMode, toggleVanityMode, toggleViewMode, sampleCamera, Camera.init,
    sampleEnv]

/-- C8, amended: with the animation ready, `reset()` ends in first-person view with vanity
and preview both off.  With the animation not ready it never changes `mFirstPersonView`: in
third-person view it turns vanity and preview off and queues the view-mode toggle; in
first-person view it only queues a vanity toggle to off. -/
theorem reset_forces_first_person (E : Env α) (c : Camera α) :
    (E.upperBodyReady = true →
      (reset E c).mFirstPersonView = true ∧ (reset E c).mVanity.enabled = false
      ∧ (reset E c).mPreviewMode = false)
    ∧ (E.upperBodyReady = false → c.mFirstPersonView = false →
        (reset E c).mFirstPersonView = false ∧ (reset E c).mVanity.enabled = false
        ∧ (reset E c).mPreviewMode = false ∧ (reset E c).mViewModeToggleQueued = true)
    ∧ (E.upperBodyReady = false → c.mFirstPersonView = true →
        reset E c = { c with mVanityToggleQueued := true, mVanityToggleQueuedValue := false })
    := by
  refine ⟨?_, ?_, ?_⟩
  · intro hr
    have hd : ∀ b : Bool, (b && !E.upperBodyReady) = false := by intro b; simp [hr]
    have hq : ∀ f : Bool, (!E.upperBodyReady && !f) = false := by intro f; simp [hr]
    have hp := togglePreviewMode_mPreviewMode E c false (hd _)
    have hv := toggleVanityMode_false_enabled E (togglePreviewMode E c false) (hd _)
    unfold reset; dsimp only
    cases hf : c.mFirstPersonView
    · simp only [toggleVanityMode_mFirstPersonView, togglePreviewMode_mFirstPersonView, hf,
        Bool.not_false, if_true]
      rw [toggleViewMode_ready_mFirstPersonView _ _ _ (hq _),
        toggleViewMode_ready_mVanity _ _ _ (hq _),
        toggleViewMode_ready_mPreviewMode _ _ _ (hq _)]
      simp [hf, hv, hp]
    · simp [hf, hv, hp]
  · intro hr hf
    have hd : (c.mFirstPersonView && !E.upperBodyReady) = false := by simp [hf]
    have hp := togglePreviewMode_mPreviewMode E c false hd
    have hv := toggleVanityMode_false_enabled E (togglePreviewMode E c false)
      (by simp [hf])
    unfold reset; dsimp only
    simp only [toggleVanityMode_mFirstPersonView, togglePreviewMode_mFirstPersonView, hf,
      Bool.not_false, if_true]
    rw [toggleViewMode_queued _ _ hr]
    simp [hf, hv, hp]
  · intro hr hf
    simp [reset, togglePreviewMode, toggleVanityMode, hr, hf]

/-- Witness of C8 (amended): with the animation ready, `reset()` brings a third-person camera
in preview mode back to first-person view. -/
theorem reset_forces_first_person_witness :
    (reset (sampleEnv true)
      { sampleCamera with mFirstPersonView := false, mPreviewMode := true }).mFirstPersonView
      = true :=
  ((reset_forces_first_person (sampleEnv true)
    { sampleCamera with mFirstPersonView := false, mPreviewMode := true }).1 rfl).1

/-! ### The focal-point offset -/

theorem Vec2d.length2_nonneg (v : Vec2d α) : 0 ≤ Vec2d.length2 v := by
  unfold Vec2d.length2
  nlinarith [mul_self_nonneg v.x, mul_self_nonneg v.y]

/-- The squared length is positive exactly for a vector other than zero. -/
theorem Vec2d.length2_pos_iff (v : Vec2d α) : Vec2d.length2 v > 0 ↔ ¬ (v.x = 0 ∧ v.y = 0) := by
  unfold Vec2d.length2
  constructor
  · rintro h ⟨hx, hy⟩
    rw [hx, hy] at h
    simp at h
  · intro h
    by_cases hx : v.x = 0
    · have hy : v.y ≠ 0 := fun hy => h ⟨hx, hy⟩
      have := mul_self_pos.mpr hy
      nlinarith [mul_self_nonneg v.x]
    · have := mul_self_pos.mpr hx
      nlinarith [mul_self_nonneg v.y]

/-- C10, as stated, fails: when the offset already equals the shared target (0, 15), the call
that switches from Swimming to Combat sets the speed to 5 in the state-change branch and then
resets it to 1 in the at-target branch of the same call. -/
theorem swimming_to_combat_at_target :
    (updateFocalPointOffset { sampleEnv true with drawState := DrawState_.DrawState_Weapon }
      { sampleCamera with
        mThirdPersonMode := ThirdPersonViewMode.OverShoulder
        mThirdPersionOffsetType := ThirdPersonOffsetType.Swimming
        mFocalPointCurrentOffset := ⟨0, 15⟩ } 1).mFocalPointTransitionSpeed = 1 := by
  simp [updateFocalPointOffset, switchOffsetType, newOffsetType, focalPointTargetOffset, sampleEnv,
    sampleCamera,
    Camera.init, Vec2d.sub, Vec2d.length2]

/-- C10, amended: in OverShoulder mode with offset type Swimming, a call of
`updateFocalPointOffset` made while the target is an actor whose draw state is not 'nothing'
leaves the offset type Combat, and the transition speed 5 unless the current offset already
equals the target (0, 15), in which case the speed is 1 after the call; and with offset type
RightShoulder, a call made while the target is swimming and not in combat leaves the offset
type Swimming and the transition speed 1. -/
theorem swimming_combat_speed (E : Env α) (c : Camera α) (d : α)
    (hmode : c.mThirdPersonMode = ThirdPersonViewMode.OverShoulder) :
    (c.mThirdPersionOffsetType = ThirdPersonOffsetType.Swimming →
      E.isActor = true → E.drawState ≠ DrawState_.DrawState_Nothing →
        (updateFocalPointOffset E c d).mThirdPersionOffsetType = ThirdPersonOffsetType.Combat
        ∧ (c.mFocalPointCurrentOffset ≠ ⟨0, 15⟩ →
            (updateFocalPointOffset E c d).mFocalPointTransitionSpeed = 5)
        ∧ (c.mFocalPointCurrentOffset = ⟨0, 15⟩ →
            (updateFocalPointOffset E c d).mFocalPointTransitionSpeed = 1))
    ∧ (c.mThirdPersionOffsetType = ThirdPersonOffsetType.RightShoulder →
        (E.isActor = false ∨ E.drawState = DrawState_.DrawState_Nothing) →
        E.isSwimming = true →
        (updateFocalPointOffset E c d).mThirdPersionOffsetType = ThirdPersonOffsetType.Swimming
        ∧ (updateFocalPointOffset E c d).mFocalPointTransitionSpeed = 1) := by
  constructor
  · intro htype hact hdraw
    have hnew : newOffsetType E c = ThirdPersonOffsetType.Combat := by
      simp [newOffsetType, hact, hdraw]
    have hsw : switchOffsetType E c
        = { c with mFocalPointTransitionSpeed := 5
                   mThirdPersionOffsetType := ThirdPersonOffsetType.Combat } := by
      simp [switchOffsetType, hnew, htype]
    have hst : ¬ c.mThirdPersonMode = ThirdPersonViewMode.Standard := by rw [hmode]; decide
    unfold updateFocalPointOffset
    rw [if_neg hst]; dsimp only; rw [hsw]; dsimp only [focalPointTargetOffset]
    refine ⟨?_, ?_, ?_⟩
    · split_ifs <;> rfl
    · intro hne
      have hpos : Vec2d.length2 (Vec2d.sub (⟨0, 15⟩ : Vec2d α) c.mFocalPointCurrentOffset) > 0 := by
        rw [Vec2d.length2_pos_iff]
        rintro ⟨hx, hy⟩
        apply hne
        rcases hc : c.mFocalPointCurrentOffset with ⟨x, y⟩
        rw [hc] at hx hy
        simp only [Vec2d.sub] at hx hy
        rw [show x = 0 by linarith, show y = 15 by linarith]
      rw [if_pos hpos]
    · intro heq
      have hz : ¬ Vec2d.length2 (Vec2d.sub (⟨0, 15⟩ : Vec2d α) c.mFocalPointCurrentOffset) > 0 := by
        rw [heq]; simp [Vec2d.sub, Vec2d.length2]
      rw [if_neg hz]
  · intro htype hnc hswim
    have hc : (E.isActor && E.drawState != DrawState_.DrawState_Nothing) = false := by
      rcases hnc with h | h <;> simp [h]
    have hnew : newOffsetType E c = ThirdPersonOffsetType.Swimming := by
      simp [newOffsetType, hc, hswim]
    have hsw : switchOffsetType E c
        = { c with mFocalPointTransitionSpeed := 1
                   mThirdPersionOffsetType := ThirdPersonOffsetType.Swimming } := by
      simp [switchOffsetType, hnew, htype]
    have hst : ¬ c.mThirdPersonMode = ThirdPersonViewMode.Standard := by rw [hmode]; decide
    unfold updateFocalPointOffset
    rw [if_neg hst]; dsimp only; rw [hsw]
    constructor
    · split_ifs <;> rfl
    · split_ifs <;> rfl

/-- Witness of C10 (amended): from the offset (0, 0) the switch from Swimming to Combat
leaves the transition speed at 5. -/
theorem swimming_combat_speed_witness :
    (updateFocalPointOffset { sampleEnv true with drawState := DrawState_.DrawState_Weapon }
      { sampleCamera with
        mThirdPersonMode := ThirdPersonViewMode.OverShoulder
        mThirdPersionOffsetType := ThirdPersonOffsetType.Swimming } 1).mFocalPointTransitionSpeed
      = 5 :=
  ((swimming_combat_speed { sampleEnv true with drawState := DrawState_.DrawState_Weapon }
    { sampleCamera with
      mThirdPersonMode := ThirdPersonViewMode.OverShoulder
      mThirdPersionOffsetType := ThirdPersonOffsetType.Swimming } 1 rfl).1 rfl rfl
    (by decide)).2.1 (by simp [sampleCamera, Camera.init])

/-! ### Convergence of the focal-point offset -/

/-- For a length function that is the non-negative square root of `length2`, scaling a vector
by a non-negative factor scales its length. -/
theorem length_scale (E : Env α)
    (hlen : ∀ v, 0 ≤ E.length v ∧ E.length v * E.length v = Vec2d.length2 v)
    (v : Vec2d α) (t : α) (ht : 0 ≤ t) :
    E.length (Vec2d.scale v t) = t * E.length v := by
  apply (mul_self_inj_of_nonneg (hlen _).1 (mul_nonneg ht (hlen v).1)).mp
  rw [(hlen _).2]
  have h2 := (hlen v).2
  have : t * E.length v * (t * E.length v) = t * t * (E.length v * E.length v) := by ring
  rw [this, h2]
  unfold Vec2d.length2 Vec2d.scale
  ring

/-- After moving from `cur` towards `T` by the fraction `m` of the way, what is left of the
way is the fraction `1 - m`. -/
theorem sub_add_scale (T cur : Vec2d α) (m : α) :
    Vec2d.sub T (Vec2d.add cur (Vec2d.scale (Vec2d.sub T cur) m))
      = Vec2d.scale (Vec2d.sub T cur) (1 - m) := by
  simp only [Vec2d.sub, Vec2d.add, Vec2d.scale, Vec2d.mk.injEq]
  constructor <;> ring

/-- A vector whose difference from `T` has squared length zero is `T`. -/
theorem eq_of_length2_sub_not_pos (T cur : Vec2d α)
    (h : ¬ Vec2d.length2 (Vec2d.sub T cur) > 0) : cur = T := by
  rw [Vec2d.length2_pos_iff, not_not] at h
  rcases T with ⟨a, b⟩
  rcases cur with ⟨x, y⟩
  simp only [Vec2d.sub] at h
  rw [Vec2d.mk.injEq]
  exact ⟨by linarith [h.1], by linarith [h.2]⟩

/-- One call of `updateFocalPointOffset` in OverShoulder mode with offset type RightShoulder,
the target neither in combat nor swimming: mode, type and horizontal magnitude stay; an offset
at the target `(H, -10)` stays there; otherwise, with a positive duration and transition
speed, the speed stays, the distance to the target does not grow, and either the target is
reached or the distance shrinks by at least `5 * d * speed`. -/
theorem focal_step (E : Env α) (c : Camera α) (d : α)
    (hlen : ∀ v, 0 ≤ E.length v ∧ E.length v * E.length v = Vec2d.length2 v)
    (hmode : c.mThirdPersonMode = ThirdPersonViewMode.OverShoulder)
    (htype : c.mThirdPersionOffsetType = ThirdPersonOffsetType.RightShoulder)
    (hcalm : (E.isActor && E.drawState != DrawState_.DrawState_Nothing) = false)
    (hswim : E.isSwimming = false) (hd : 0 < d) :
    (updateFocalPointOffset E c d).mThirdPersonMode = ThirdPersonViewMode.OverShoulder
    ∧ (updateFocalPointOffset E c d).mThirdPersionOffsetType
        = ThirdPersonOffsetType.RightShoulder
    ∧ (updateFocalPointOffset E c d).mOverShoulderHorizontalOffset
        = c.mOverShoulderHorizontalOffset
    ∧ (c.mFocalPointCurrentOffset = ⟨c.mOverShoulderHorizontalOffset, -10⟩ →
        (updateFocalPointOffset E c d).mFocalPointCurrentOffset
          = ⟨c.mOverShoulderHorizontalOffset, -10⟩)
    ∧ (c.mFocalPointCurrentOffset ≠ ⟨c.mOverShoulderHorizontalOffset, -10⟩ →
        0 < c.mFocalPointTransitionSpeed →
        (updateFocalPointOffset E c d).mFocalPointTransitionSpeed
            = c.mFocalPointTransitionSpeed
        ∧ E.length (Vec2d.sub ⟨c.mOverShoulderHorizontalOffset, -10⟩
              (updateFocalPointOffset E c d).mFocalPointCurrentOffset)
            ≤ E.length (Vec2d.sub ⟨c.mOverShoulderHorizontalOffset, -10⟩
                c.mFocalPointCurrentOffset)
        ∧ ((updateFocalPointOffset E c d).mFocalPointCurrentOffset
              = ⟨c.mOverShoulderHorizontalOffset, -10⟩
            ∨ E.length (Vec2d.sub ⟨c.mOverShoulderHorizontalOffset, -10⟩
                  (updateFocalPointOffset E c d).mFocalPointCurrentOffset)
                ≤ E.length (Vec2d.sub ⟨c.mOverShoulderHorizontalOffset, -10⟩
                    c.mFocalPointCurrentOffset) - 5 * d * c.mFocalPointTransitionSpeed)) := by
  have hnew : newOffsetType E c = ThirdPersonOffsetType.RightShoulder := by
    simp [newOffsetType, hcalm, hswim, htype]
  have hsw : switchOffsetType E c = c := by
    simp [switchOffsetType, hnew, htype]
  have hst : ¬ c.mThirdPersonMode = ThirdPersonViewMode.Standard := by rw [hmode]; decide
  have htar : focalPointTargetOffset c = ⟨c.mOverShoulderHorizontalOffset, -10⟩ := by
    simp [focalPointTargetOffset, htype]
  unfold updateFocalPointOffset
  rw [if_neg hst]; dsimp only; rw [hsw, htar]
  generalize hT : (⟨c.mOverShoulderHorizontalOffset, -10⟩ : Vec2d α) = T
  by_cases hpos : Vec2d.length2 (Vec2d.sub T c.mFocalPointCurrentOffset) > 0
  · rw [if_pos hpos]
    refine ⟨hmode, htype, rfl, ?_, ?_⟩
    · intro heq
      exfalso
      rw [heq] at hpos
      simp [Vec2d.sub, Vec2d.length2] at hpos
    · intro _ hs
      dsimp only
      rw [sub_add_scale]
      set δ := Vec2d.sub T c.mFocalPointCurrentOffset with hδ
      set L := E.length δ with hL
      have hL0 : 0 ≤ L := (hlen δ).1
      have hLpos : 0 < L := by
        rcases hL0.lt_or_eq with h | h
        · exact h
        · have h2 := (hlen δ).2
          rw [← hL, ← h] at h2
          simp at h2
          rw [← h2] at hpos
          exact absurd hpos (lt_irrefl _)
      set coef := d * (1 + 5 / L) * c.mFocalPointTransitionSpeed with hcoef
      have hcoefpos : 0 < coef := by
        have : 0 < 5 / L := div_pos (by norm_num) hLpos
        positivity
      have hcL : coef * L = d * c.mFocalPointTransitionSpeed * (L + 5) := by
        rw [hcoef]; field_simp; ring
      have hm0 : 0 < min coef 1 := lt_min hcoefpos one_pos
      have hm1 : min coef 1 ≤ 1 := min_le_right _ _
      rw [length_scale E hlen δ (1 - min coef 1) (by linarith)]
      refine ⟨rfl, ?_, ?_⟩
      · nlinarith
      · by_cases hc1 : 1 ≤ coef
        · left
          rw [min_eq_right hc1]
          rcases hcur : c.mFocalPointCurrentOffset with ⟨x, y⟩
          rcases T with ⟨a, b⟩
          rw [hδ, hcur]
          simp [Vec2d.sub, Vec2d.add, Vec2d.scale]
        · right
          rw [min_eq_left (le_of_lt (not_le.mp hc1))]
          have : (1 - coef) * L = L - d * c.mFocalPointTransitionSpeed * (L + 5) := by
            rw [← hcL]; ring
          rw [this]
          have : 0 ≤ d * c.mFocalPointTransitionSpeed * L := by positivity
          nlinarith
  · rw [if_neg hpos]
    have heq := eq_of_length2_sub_not_pos T c.mFocalPointCurrentOffset hpos
    refine ⟨hmode, htype, rfl, fun _ => heq, ?_⟩
    intro hne
    exact absurd heq hne

/-- C9 (exact arithmetic, `length` the non-negative square root of `length2`, in an
Archimedean ordered field): in OverShoulder mode with offset type RightShoulder, the target
neither in combat nor swimming, a frame duration `d > 0` and a positive transition speed (the
code only ever stores 1 or 5), from any starting offset, in particular (0, 0), there is an
`N` such that after `N` calls of `updateFocalPointOffset(d)` the offset is exactly the target
`(H, -10)`, it stays there under every further call, and no call increases the distance to
the target. -/
theorem focalOffset_converges [Archimedean α] (E : Env α) (c : Camera α) (d : α)
    (hlen : ∀ v, 0 ≤ E.length v ∧ E.length v * E.length v = Vec2d.length2 v)
    (hmode : c.mThirdPersonMode = ThirdPersonViewMode.OverShoulder)
    (htype : c.mThirdPersionOffsetType = ThirdPersonOffsetType.RightShoulder)
    (hcalm : E.isActor = false ∨ E.drawState = DrawState_.DrawState_Nothing)
    (hswim : E.isSwimming = false) (hd : 0 < d) (hs : 0 < c.mFocalPointTransitionSpeed) :
    ∃ N : ℕ,
      ((fun x => updateFocalPointOffset E x d)^[N] c).mFocalPointCurrentOffset
        = ⟨c.mOverShoulderHorizontalOffset, -10⟩
      ∧ (∀ n, N ≤ n →
          ((fun x => updateFocalPointOffset E x d)^[n] c).mFocalPointCurrentOffset
            = ⟨c.mOverShoulderHorizontalOffset, -10⟩
          ∧ ((fun x => updateFocalPointOffset E x d)^[n + 1] c).mFocalPointCurrentOffset
            = ((fun x => updateFocalPointOffset E x d)^[n] c).mFocalPointCurrentOffset)
      ∧ (∀ n, E.length (Vec2d.sub ⟨c.mOverShoulderHorizontalOffset, -10⟩
            ((fun x => updateFocalPointOffset E x d)^[n + 1] c).mFocalPointCurrentOffset)
          ≤ E.length (Vec2d.sub ⟨c.mOverShoulderHorizontalOffset, -10⟩
            ((fun x => updateFocalPointOffset E x d)^[n] c).mFocalPointCurrentOffset)) := by
  have hc : (E.isActor && E.drawState != DrawState_.DrawState_Nothing) = false := by
    rcases hcalm with h | h <;> simp [h]
  generalize hf : (fun x => updateFocalPointOffset E x d) = f
  have hfa : ∀ x, f x = updateFocalPointOffset E x d := fun x => by rw [← hf]
  generalize hT : (⟨c.mOverShoulderHorizontalOffset, -10⟩ : Vec2d α) = T
  set s := c.mFocalPointTransitionSpeed with hsdef
  set L0 := E.length (Vec2d.sub T c.mFocalPointCurrentOffset) with hL0
  -- the invariant of the iteration
  have inv : ∀ n : ℕ,
      (f^[n] c).mThirdPersonMode = ThirdPersonViewMode.OverShoulder
      ∧ (f^[n] c).mThirdPersionOffsetType = ThirdPersonOffsetType.RightShoulder
      ∧ (f^[n] c).mOverShoulderHorizontalOffset = c.mOverShoulderHorizontalOffset
      ∧ ((f^[n] c).mFocalPointCurrentOffset = T
          ∨ ((f^[n] c).mFocalPointTransitionSpeed = s
              ∧ E.length (Vec2d.sub T (f^[n] c).mFocalPointCurrentOffset)
                  ≤ L0 - n * (5 * d * s))) := by
    intro n
    induction n with
    | zero =>
      refine ⟨hmode, htype, rfl, Or.inr ⟨rfl, ?_⟩⟩
      simp [hL0]
    | succ n ih =>
      obtain ⟨im, it, iH, ic⟩ := ih
      have st := focal_step E (f^[n] c) d hlen im it hc hswim hd
      rw [iH, hT] at st
      obtain ⟨sm, stt, sH, sfix, sprog⟩ := st
      rw [Function.iterate_succ_apply', hfa]
      refine ⟨sm, stt, sH, ?_⟩
      by_cases hat : (f^[n] c).mFocalPointCurrentOffset = T
      · exact Or.inl (sfix hat)
      · rcases ic with h | ⟨hsp, hle⟩
        · exact absurd h hat
        · obtain ⟨p1, _, p3⟩ := sprog hat (by rw [hsp]; exact hs)
          rcases p3 with h | h
          · exact Or.inl h
          · refine Or.inr ⟨by rw [p1, hsp], ?_⟩
            rw [hsp] at h
            push_cast
            linarith
  -- the fixed point
  have fix : ∀ n : ℕ, (f^[n] c).mFocalPointCurrentOffset = T →
      (f^[n + 1] c).mFocalPointCurrentOffset = T := by
    intro n h
    obtain ⟨im, it, iH, _⟩ := inv n
    have st := focal_step E (f^[n] c) d hlen im it hc hswim hd
    rw [iH, hT] at st
    rw [Function.iterate_succ_apply', hfa]
    exact st.2.2.2.1 h
  have hpos : 0 < 5 * d * s := by positivity
  obtain ⟨N, hN⟩ := exists_nat_gt (L0 / (5 * d * s))
  have hN2 : L0 < N * (5 * d * s) := (div_lt_iff₀ hpos).mp hN
  have hreach : (f^[N] c).mFocalPointCurrentOffset = T := by
    rcases (inv N).2.2.2 with h | ⟨_, h⟩
    · exact h
    · have := (hlen (Vec2d.sub T (f^[N] c).mFocalPointCurrentOffset)).1
      linarith
  have hstay : ∀ n, N ≤ n → (f^[n] c).mFocalPointCurrentOffset = T := by
    intro n hn
    induction n, hn using Nat.le_induction with
    | base => exact hreach
    | succ n _ ih => exact fix n ih
  refine ⟨N, hreach, ?_, ?_⟩
  · intro n hn
    exact ⟨hstay n hn, by rw [fix n (hstay n hn), hstay n hn]⟩
  · intro n
    by_cases hat : (f^[n] c).mFocalPointCurrentOffset = T
    · rw [fix n hat, hat]
    · obtain ⟨im, it, iH, ic⟩ := inv n
      have st := focal_step E (f^[n] c) d hlen im it hc hswim hd
      rw [iH, hT] at st
      rw [Function.iterate_succ_apply', hfa]
      rcases ic with h | ⟨hsp, _⟩
      · exact absurd h hat
      · exact (st.2.2.2.2 hat (by rw [hsp]; exact hs)).2.1

/-- Witness of C9 over the real numbers, with the real square root as length: from the state
after construction switched to OverShoulder mode (offset (0, 0), `H = 30`, speed 1), at 60
frames per second, the offset reaches (30, -10) after finitely many calls. -/
theorem focalOffset_converges_witness :
    ∃ N : ℕ,
      ((fun x => updateFocalPointOffset
          (⟨Real.pi, fun v => Real.sqrt (Vec2d.length2 v), true, none, none, none, true,
            DrawState_.DrawState_Nothing, false, 0⟩ : Env ℝ) x (1 / 60))^[N]
        { Camera.init (0 : ℝ) with
          mThirdPersonMode := ThirdPersonViewMode.OverShoulder }).mFocalPointCurrentOffset
        = ⟨30, -10⟩ := by
  obtain ⟨N, h, _⟩ := focalOffset_converges
    (⟨Real.pi, fun v => Real.sqrt (Vec2d.length2 v), true, none, none, none, true,
      DrawState_.DrawState_Nothing, false, 0⟩ : Env ℝ)
    { Camera.init (0 : ℝ) with mThirdPersonMode := ThirdPersonViewMode.OverShoulder }
    (1 / 60)
    (fun v => ⟨Real.sqrt_nonneg _, Real.mul_self_sqrt (Vec2d.length2_nonneg v)⟩)
    rfl rfl (Or.inr rfl) rfl (by norm_num) (by norm_num [Camera.init])
  exact ⟨N, h⟩

/-! ### Distance setters and the dropped preview toggle -/

/-- C11: in strict first person (first-person view, preview off, vanity off) both
`setBaseCameraDistance(dist, adjust)` and `setCameraDistance(dist, adjust)` leave the whole
state unchanged. -/
theorem distance_setters_first_person (c : Camera α) (dist : α) (adjust : Bool)
    (hf : c.mFirstPersonView = true) (hp : c.mPreviewMode = false)
    (hv : c.mVanity.enabled = false) :
    setBaseCameraDistance c dist adjust = c ∧ setCameraDistance c dist adjust = c := by
  constructor
  · simp [setBaseCameraDistance, hf, hp, hv]
  · simp [setCameraDistance, hf, hp, hv]

/-- Witness of C11 at the state after construction, which is strictly first-person. -/
theorem distance_setters_first_person_witness :
    setBaseCameraDistance sampleCamera 50 true = sampleCamera
    ∧ setCameraDistance sampleCamera 50 true = sampleCamera :=
  distance_setters_first_person sampleCamera 50 true rfl rfl rfl

/-- C12: in first-person view with the animation not ready, `togglePreviewMode(enable)`
leaves the whole state unchanged: the request is dropped, not queued. -/
theorem togglePreviewMode_dropped (E : Env α) (c : Camera α) (enable : Bool)
    (hf : c.mFirstPersonView = true) (hr : E.upperBodyReady = false) :
    togglePreviewMode E c enable = c := by
  simp [togglePreviewMode, hf, hr]

/-- Witness of C12 at the state after construction with the animation not ready. -/
theorem togglePreviewMode_dropped_witness :
    togglePreviewMode (sampleEnv false) sampleCamera true = sampleCamera :=
  togglePreviewMode_dropped (sampleEnv false) sampleCamera true rfl rfl

/-- The distance correction reads only the third-person mode, the pitch of the active slot,
the smoothed speed and the zoom-out coefficient. -/
theorem getCameraDistanceCorrection_congr (c c' : Camera α)
    (h1 : c'.mThirdPersonMode = c.mThirdPersonMode) (h2 : c'.mVanity = c.mVanity)
    (h3 : c'.mPreviewMode = c.mPreviewMode) (h4 : c'.mMainCam = c.mMainCam)
    (h5 : c'.mPreviewCam = c.mPreviewCam) (h6 : c'.mSmoothedSpeed = c.mSmoothedSpeed)
    (h7 : c'.mZoomOutWhenMoveCoef = c.mZoomOutWhenMoveCoef) :
    getCameraDistanceCorrection c' = getCameraDistanceCorrection c := by
  unfold getCameraDistanceCorrection getPitch
  rw [h1, h2, h3, h4, h5, h6, h7]

/-- The distance `setBaseCameraDistance` works on after the optional adjustment (the local
`dist` right before the clamp). -/
theorem setBaseCameraDistance_stored (c : Camera α) (dist : α) (adjust : Bool)
    (hnfp : (c.mFirstPersonView && !c.mPreviewMode && !c.mVanity.enabled) = false) :
    ∃ x : α,
      (if c.mVanity.enabled || c.mPreviewMode then
          (setBaseCameraDistance c dist adjust).mPreviewCam.offset
        else (setBaseCameraDistance c dist adjust).mBaseCameraDistance)
        = (if x ≥ c.mFurthest then c.mFurthest else if x ≤ c.mNearest then c.mNearest else x)
      ∧ (setBaseCameraDistance c dist adjust).mIsNearest
        = (if x ≥ c.mFurthest then false else if x ≤ c.mNearest then true else false)
      ∧ (setBaseCameraDistance c dist adjust).mCameraDistance
        = (if c.mVanity.enabled || c.mPreviewMode then
            (if x ≥ c.mFurthest then c.mFurthest
              else if x ≤ c.mNearest then c.mNearest else x)
          else
            (if x ≥ c.mFurthest then c.mFurthest
              else if x ≤ c.mNearest then c.mNearest else x)
            + getCameraDistanceCorrection c)
      ∧ (setBaseCameraDistance c dist adjust).mFurthest = c.mFurthest
      ∧ (setBaseCameraDistance c dist adjust).mNearest = c.mNearest
      ∧ (setBaseCameraDistance c dist adjust).mMainCam = c.mMainCam
      ∧ ((c.mVanity.enabled || c.mPreviewMode) = false →
          (setBaseCameraDistance c dist adjust).mPreviewCam = c.mPreviewCam) := by
  refine ⟨if adjust then
      (if c.mVanity.enabled || c.mPreviewMode then dist + c.mCameraDistance
        else dist + min (c.mCameraDistance - getCameraDistanceCorrection c)
          c.mBaseCameraDistance)
    else dist, ?_⟩
  have hcorr2 : ∀ (b : Bool),
      getCameraDistanceCorrection { c with mIsNearest := b }
        = getCameraDistanceCorrection c := fun _ => rfl
  unfold setBaseCameraDistance
  rw [hnfp]
  simp only [Bool.false_eq_true, if_false, hcorr2]
  generalize (if adjust then
      (if c.mVanity.enabled || c.mPreviewMode then dist + c.mCameraDistance
        else dist + min (c.mCameraDistance - getCameraDistanceCorrection c)
          c.mBaseCameraDistance)
    else dist) = x
  cases hvp : (c.mVanity.enabled || c.mPreviewMode)
  · have hf : c.mFirstPersonView = false := by
      cases h1 : c.mFirstPersonView
      · rfl
      · simp only [Bool.or_eq_false_iff] at hvp
        simp [h1, hvp.1, hvp.2] at hnfp
    have hg : ∀ c' : Camera α, c'.mThirdPersonMode = c.mThirdPersonMode →
        c'.mVanity = c.mVanity → c'.mPreviewMode = c.mPreviewMode → c'.mMainCam = c.mMainCam →
        c'.mPreviewCam = c.mPreviewCam → c'.mSmoothedSpeed = c.mSmoothedSpeed →
        c'.mZoomOutWhenMoveCoef = c.mZoomOutWhenMoveCoef →
        getCameraDistanceCorrection c' = getCameraDistanceCorrection c :=
      getCameraDistanceCorrection_congr c
    by_cases h1 : x ≥ c.mFurthest
    · simp [setCameraDistanceNoArg, hvp, hf, h1]
      exact hg _ rfl rfl rfl rfl rfl rfl rfl
    · by_cases h2 : x ≤ c.mNearest
      · simp [setCameraDistanceNoArg, hvp, hf, h1, h2]
        exact hg _ rfl rfl rfl rfl rfl rfl rfl
      · simp [setCameraDistanceNoArg, hvp, hf, h1, h2]
        exact hg _ rfl rfl rfl rfl rfl rfl rfl
  · by_cases h1 : x ≥ c.mFurthest
    · simp [setCameraDistanceNoArg, hvp, h1]
    · by_cases h2 : x ≤ c.mNearest
      · simp [setCameraDistanceNoArg, hvp, h1, h2]
      · simp [setCameraDistanceNoArg, hvp, h1, h2]

/-- C15: outside strict first person and with `mNearest < mFurthest`, the distance that
`setBaseCameraDistance(dist, adjust)` stores (`mPreviewCam.offset` when vanity or preview is
on, `mBaseCameraDistance` otherwise) lies in `[mNearest, mFurthest]`, and `isNearest()` is
true exactly when that distance equals `mNearest`. -/
theorem setBaseCameraDistance_isNearest (c : Camera α) (dist stored : α) (adjust : Bool)
    (hnfp : c.mFirstPersonView = false ∨ c.mVanity.enabled = true ∨ c.mPreviewMode = true)
    (hNF : c.mNearest < c.mFurthest)
    (hstored : stored = if c.mVanity.enabled || c.mPreviewMode then
        (setBaseCameraDistance c dist adjust).mPreviewCam.offset
      else (setBaseCameraDistance c dist adjust).mBaseCameraDistance) :
    c.mNearest ≤ stored ∧ stored ≤ c.mFurthest
    ∧ (isNearest (setBaseCameraDistance c dist adjust) = true ↔ stored = c.mNearest) := by
  have hg : (c.mFirstPersonView && !c.mPreviewMode && !c.mVanity.enabled) = false := by
    rcases hnfp with h | h | h <;> simp [h]
  obtain ⟨x, hx, hn, _⟩ := setBaseCameraDistance_stored c dist adjust hg
  rw [hstored, hx]
  unfold isNearest
  rw [hn]
  by_cases h1 : x ≥ c.mFurthest
  · simp only [h1, if_true]
    refine ⟨le_of_lt hNF, le_refl _, ?_⟩
    constructor
    · intro h; exact absurd h (by simp)
    · intro h; exact absurd h (ne_of_gt hNF)
  · by_cases h2 : x ≤ c.mNearest
    · simp only [h1, h2, if_true, if_false]
      exact ⟨le_refl _, le_of_lt hNF, by simp⟩
    · simp only [h1, h2, if_false]
      push_neg at h1 h2
      refine ⟨le_of_lt h2, le_of_lt h1, ?_⟩
      constructor
      · intro h; exact absurd h (by simp)
      · intro h; exact absurd h (ne_of_gt h2)

/-- Witness of C15 in third-person view: asking for a base distance of 5 stores the nearest
distance 30 and raises `isNearest()`. -/
theorem setBaseCameraDistance_isNearest_witness :
    isNearest (setBaseCameraDistance { sampleCamera with mFirstPersonView := false } 5 false)
        = true
      ↔ (setBaseCameraDistance { sampleCamera with mFirstPersonView := false } 5
          false).mBaseCameraDistance = 30 :=
  (setBaseCameraDistance_isNearest { sampleCamera with mFirstPersonView := false } 5
    (setBaseCameraDistance { sampleCamera with mFirstPersonView := false } 5
      false).mBaseCameraDistance false (Or.inl rfl)
    (by norm_num [sampleCamera, Camera.init]) rfl).2.2

/-- The yaw `rotateCamera` leaves in the active slot. -/
theorem getYaw_rotateCamera (E : Env α) (c : Camera α) (p y : α) (adj : Bool) :
    getYaw (rotateCamera E c p y adj)
      = getYaw (setYaw E c (if adj then y + getYaw c else y)) := by
  unfold rotateCamera
  dsimp only
  unfold getYaw
  simp only [setPitch_mVanity, setPitch_mPreviewMode, setPitch_mPreviewCam_yaw,
    setPitch_mMainCam_yaw]

/-- C20: for `-3π ≤ y ≤ 3π`, after `setYaw y` the yaw of the active slot lies in `[-π, π]` and
is `y`, `y - 2π` or `y + 2π`; so `rotateCamera` with `adjust = true` keeps the yaw in
`[-π, π]` when the current yaw is in `[-π, π]` and the increment has magnitude at most `2π`. -/
theorem setYaw_within_three_turns (E : Env α) (c : Camera α) :
    (∀ y : α, -(3 * E.PI) ≤ y → y ≤ 3 * E.PI →
      (-E.PI ≤ getYaw (setYaw E c y) ∧ getYaw (setYaw E c y) ≤ E.PI)
      ∧ (getYaw (setYaw E c y) = y ∨ getYaw (setYaw E c y) = y - 2 * E.PI
          ∨ getYaw (setYaw E c y) = y + 2 * E.PI))
    ∧ (∀ p dy : α, -E.PI ≤ getYaw c → getYaw c ≤ E.PI → |dy| ≤ 2 * E.PI →
        -E.PI ≤ getYaw (rotateCamera E c p dy true)
        ∧ getYaw (rotateCamera E c p dy true) ≤ E.PI) := by
  have key : ∀ y : α, -(3 * E.PI) ≤ y → y ≤ 3 * E.PI →
      (-E.PI ≤ getYaw (setYaw E c y) ∧ getYaw (setYaw E c y) ≤ E.PI)
      ∧ (getYaw (setYaw E c y) = y ∨ getYaw (setYaw E c y) = y - 2 * E.PI
          ∨ getYaw (setYaw E c y) = y + 2 * E.PI) := by
    intro y h1 h2
    rw [getYaw_setYaw]
    by_cases ha : y > E.PI
    · rw [if_pos ha]
      exact ⟨⟨by linarith, by linarith⟩, Or.inr (Or.inl (by ring))⟩
    · rw [if_neg ha]
      by_cases hb : y < -E.PI
      · rw [if_pos hb]
        exact ⟨⟨by linarith, by linarith⟩, Or.inr (Or.inr (by ring))⟩
      · rw [if_neg hb]
        push_neg at ha hb
        exact ⟨⟨hb, ha⟩, Or.inl rfl⟩
  refine ⟨key, ?_⟩
  intro p dy h1 h2 h3
  rw [getYaw_rotateCamera]
  simp only [if_true]
  have h4 := abs_le.mp h3
  exact (key (dy + getYaw c) (by linarith [h4.1]) (by linarith [h4.2])).1

/-- Witness of C20: a yaw of 4 radians is stored as 4 − 2π, which lies in `[-π, π]`. -/
theorem setYaw_within_three_turns_witness :
    -(sampleEnv true).PI ≤ getYaw (setYaw (sampleEnv true) sampleCamera 4)
    ∧ getYaw (setYaw (sampleEnv true) sampleCamera 4) ≤ (sampleEnv true).PI :=
  ((setYaw_within_three_turns (sampleEnv true) sampleCamera).1 4
    (by norm_num [sampleEnv]) (by norm_num [sampleEnv])).1

/-! ### Frame lemmas: the members that the toggles and `updateFocalPointOffset` leave alone -/

@[simp]
theorem updateFocalPointOffset_mTrackingNode (E : Env α) (c : Camera α) (d : α) :
    (updateFocalPointOffset E c d).mTrackingNode = c.mTrackingNode := by
  unfold updateFocalPointOffset switchOffsetType; dsimp only; split_ifs <;> rfl

@[simp]
theorem updateFocalPointOffset_mHeightScale (E : Env α) (c : Camera α) (d : α) :
    (updateFocalPointOffset E c d).mHeightScale = c.mHeightScale := by
  unfold updateFocalPointOffset switchOffsetType; dsimp only; split_ifs <;> rfl

@[simp]
theorem updateFocalPointOffset_mPreviewMode (E : Env α) (c : Camera α) (d : α) :
    (updateFocalPointOffset E c d).mPreviewMode = c.mPreviewMode := by
  unfold updateFocalPointOffset switchOffsetType; dsimp only; split_ifs <;> rfl

@[simp]
theorem updateFocalPointOffset_mVanity (E : Env α) (c : Camera α) (d : α) :
    (updateFocalPointOffset E c d).mVanity = c.mVanity := by
  unfold updateFocalPointOffset switchOffsetType; dsimp only; split_ifs <;> rfl

@[simp]
theorem updateFocalPointOffset_mNearest (E : Env α) (c : Camera α) (d : α) :
    (updateFocalPointOffset E c d).mNearest = c.mNearest := by
  unfold updateFocalPointOffset switchOffsetType; dsimp only; split_ifs <;> rfl

@[simp]
theorem updateFocalPointOffset_mFurthest (E : Env α) (c : Camera α) (d : α) :
    (updateFocalPointOffset E c d).mFurthest = c.mFurthest := by
  unfold updateFocalPointOffset switchOffsetType; dsimp only; split_ifs <;> rfl

@[simp]
theorem updateFocalPointOffset_mIsNearest (E : Env α) (c : Camera α) (d : α) :
    (updateFocalPointOffset E c d).mIsNearest = c.mIsNearest := by
  unfold updateFocalPointOffset switchOffsetType; dsimp only; split_ifs <;> rfl

@[simp]
theorem updateFocalPointOffset_mHeight (E : Env α) (c : Camera α) (d : α) :
    (updateFocalPointOffset E c d).mHeight = c.mHeight := by
  unfold updateFocalPointOffset switchOffsetType; dsimp only; split_ifs <;> rfl

@[simp]
theorem updateFocalPointOffset_mBaseCameraDistance (E : Env α) (c : Camera α) (d : α) :
    (updateFocalPointOffset E c d).mBaseCameraDistance = c.mBaseCameraDistance := by
  unfold updateFocalPointOffset switchOffsetType; dsimp only; split_ifs <;> rfl

@[simp]
theorem updateFocalPointOffset_mVanityToggleQueued (E : Env α) (c : Camera α) (d : α) :
    (updateFocalPointOffset E c d).mVanityToggleQueued = c.mVanityToggleQueued := by
  unfold updateFocalPointOffset switchOffsetType; dsimp only; split_ifs <;> rfl

@[simp]
theorem updateFocalPointOffset_mVanityToggleQueuedValue (E : Env α) (c : Camera α) (d : α) :
    (updateFocalPointOffset E c d).mVanityToggleQueuedValue = c.mVanityToggleQueuedValue := by
  unfold updateFocalPointOffset switchOffsetType; dsimp only; split_ifs <;> rfl

@[simp]
theorem updateFocalPointOffset_mCameraDistance (E : Env α) (c : Camera α) (d : α) :
    (updateFocalPointOffset E c d).mCameraDistance = c.mCameraDistance := by
  unfold updateFocalPointOffset switchOffsetType; dsimp only; split_ifs <;> rfl

@[simp]
theorem updateFocalPointOffset_mThirdPersonMode (E : Env α) (c : Camera α) (d : α) :
    (updateFocalPointOffset E c d).mThirdPersonMode = c.mThirdPersonMode := by
  unfold updateFocalPointOffset switchOffsetType; dsimp only; split_ifs <;> rfl

@[simp]
theorem updateFocalPointOffset_mOverShoulderHorizontalOffset (E : Env α) (c : Camera α) (d : α) :
    (updateFocalPointOffset E c d).mOverShoulderHorizontalOffset = c.mOverShoulderHorizontalOffset := by
  unfold updateFocalPointOffset switchOffsetType; dsimp only; split_ifs <;> rfl

@[simp]
theorem updateFocalPointOffset_mDefaultShoulderIsRight (E : Env α) (c : Camera α) (d : α) :
    (updateFocalPointOffset E c d).mDefaultShoulderIsRight = c.mDefaultShoulderIsRight := by
  unfold updateFocalPointOffset switchOffsetType; dsimp only; split_ifs <;> rfl

@[simp]
theorem updateFocalPointOffset_mFocalPointAdjustment (E : Env α) (c : Camera α) (d : α) :
    (updateFocalPointOffset E c d).mFocalPointAdjustment = c.mFocalPointAdjustment := by
  unfold updateFocalPointOffset switchOffsetType; dsimp only; split_ifs <;> rfl

@[simp]
theorem updateFocalPointOffset_mSmoothedSpeed (E : Env α) (c : Camera α) (d : α) :
    (updateFocalPointOffset E c d).mSmoothedSpeed = c.mSmoothedSpeed := by
  unfold updateFocalPointOffset switchOffsetType; dsimp only; split_ifs <;> rfl

@[simp]
theorem updateFocalPointOffset_mZoomOutWhenMoveCoef (E : Env α) (c : Camera α) (d : α) :
    (updateFocalPointOffset E c d).mZoomOutWhenMoveCoef = c.mZoomOutWhenMoveCoef := by
  unfold updateFocalPointOffset switchOffsetType; dsimp only; split_ifs <;> rfl

@[simp]
theorem updateFocalPointOffset_mMainCam (E : Env α) (c : Camera α) (d : α) :
    (updateFocalPointOffset E c d).mMainCam = c.mMainCam := by
  unfold updateFocalPointOffset switchOffsetType; dsimp only; split_ifs <;> rfl

@[simp]
theorem updateFocalPointOffset_mPreviewCam (E : Env α) (c : Camera α) (d : α) :
    (updateFocalPointOffset E c d).mPreviewCam = c.mPreviewCam := by
  unfold updateFocalPointOffset switchOffsetType; dsimp only; split_ifs <;> rfl

@[simp]
theorem toggleViewMode_mNearest (E : Env α) (c : Camera α) (force : Bool) :
    (toggleViewMode E c force).mNearest = c.mNearest := by
  unfold toggleViewMode; dsimp only; split_ifs <;> simp

@[simp]
theorem toggleViewMode_mFurthest (E : Env α) (c : Camera α) (force : Bool) :
    (toggleViewMode E c force).mFurthest = c.mFurthest := by
  unfold toggleViewMode; dsimp only; split_ifs <;> simp

@[simp]
theorem toggleViewMode_mIsNearest (E : Env α) (c : Camera α) (force : Bool) :
    (toggleViewMode E c force).mIsNearest = c.mIsNearest := by
  unfold toggleViewMode; dsimp only; split_ifs <;> simp

@[simp]
theorem toggleViewMode_mHeight (E : Env α) (c : Camera α) (force : Bool) :
    (toggleViewMode E c force).mHeight = c.mHeight := by
  unfold toggleViewMode; dsimp only; split_ifs <;> simp

@[simp]
theorem toggleViewMode_mBaseCameraDistance (E : Env α) (c : Camera α) (force : Bool) :
    (toggleViewMode E c force).mBaseCameraDistance = c.mBaseCameraDistance := by
  unfold toggleViewMode; dsimp only; split_ifs <;> simp

@[simp]
theorem toggleViewMode_mThirdPersonMode (E : Env α) (c : Camera α) (force : Bool) :
    (toggleViewMode E c force).mThirdPersonMode = c.mThirdPersonMode := by
  unfold toggleViewMode; dsimp only; split_ifs <;> simp

@[simp]
theorem toggleViewMode_mOverShoulderHorizontalOffset (E : Env α) (c : Camera α) (force : Bool) :
    (toggleViewMode E c force).mOverShoulderHorizontalOffset = c.mOverShoulderHorizontalOffset := by
  unfold toggleViewMode; dsimp only; split_ifs <;> simp

@[simp]
theorem toggleViewMode_mDefaultShoulderIsRight (E : Env α) (c : Camera α) (force : Bool) :
    (toggleViewMode E c force).mDefaultShoulderIsRight = c.mDefaultShoulderIsRight := by
  unfold toggleViewMode; dsimp only; split_ifs <;> simp

@[simp]
theorem toggleViewMode_mThirdPersionOffsetType (E : Env α) (c : Camera α) (force : Bool) :
    (toggleViewMode E c force).mThirdPersionOffsetType = c.mThirdPersionOffsetType := by
  unfold toggleViewMode; dsimp only; split_ifs <;> simp

@[simp]
theorem toggleViewMode_mFocalPointCurrentOffset (E : Env α) (c : Camera α) (force : Bool) :
    (toggleViewMode E c force).mFocalPointCurrentOffset = c.mFocalPointCurrentOffset := by
  unfold toggleViewMode; dsimp only; split_ifs <;> simp

@[simp]
theorem toggleViewMode_mFocalPointAdjustment (E : Env α) (c : Camera α) (force : Bool) :
    (toggleViewMode E c force).mFocalPointAdjustment = c.mFocalPointAdjustment := by
  unfold toggleViewMode; dsimp only; split_ifs <;> simp

@[simp]
theorem toggleViewMode_mFocalPointTransitionSpeed (E : Env α) (c : Camera α) (force : Bool) :
    (toggleViewMode E c force).mFocalPointTransitionSpeed = c.mFocalPointTransitionSpeed := by
  unfold toggleViewMode; dsimp only; split_ifs <;> simp

@[simp]
theorem toggleViewMode_mSmoothedSpeed (E : Env α) (c : Camera α) (force : Bool) :
    (toggleViewMode E c force).mSmoothedSpeed = c.mSmoothedSpeed := by
  unfold toggleViewMode; dsimp only; split_ifs <;> simp

@[simp]
theorem toggleViewMode_mZoomOutWhenMoveCoef (E : Env α) (c : Camera α) (force : Bool) :
    (toggleViewMode E c force).mZoomOutWhenMoveCoef = c.mZoomOutWhenMoveCoef := by
  unfold toggleViewMode; dsimp only; split_ifs <;> simp

@[simp]
theorem toggleViewMode_mPreviewMode (E : Env α) (c : Camera α) (force : Bool) :
    (toggleViewMode E c force).mPreviewMode = c.mPreviewMode := by
  unfold toggleViewMode; dsimp only; split_ifs <;> simp

@[simp]
theorem toggleViewMode_mVanity (E : Env α) (c : Camera α) (force : Bool) :
    (toggleViewMode E c force).mVanity = c.mVanity := by
  unfold toggleViewMode; dsimp only; split_ifs <;> simp

@[simp]
theorem toggleViewMode_mVanityToggleQueued (E : Env α) (c : Camera α) (force : Bool) :
    (toggleViewMode E c force).mVanityToggleQueued = c.mVanityToggleQueued := by
  unfold toggleViewMode; dsimp only; split_ifs <;> simp

@[simp]
theorem toggleViewMode_mVanityToggleQueuedValue (E : Env α) (c : Camera α) (force : Bool) :
    (toggleViewMode E c force).mVanityToggleQueuedValue = c.mVanityToggleQueuedValue := by
  unfold toggleViewMode; dsimp only; split_ifs <;> simp

@[simp]
theorem toggleViewMode_mCameraDistance (E : Env α) (c : Camera α) (force : Bool) :
    (toggleViewMode E c force).mCameraDistance = c.mCameraDistance := by
  unfold toggleViewMode; dsimp only; split_ifs <;> simp

@[simp]
theorem toggleViewMode_mMainCam_offset (E : Env α) (c : Camera α) (force : Bool) :
    (toggleViewMode E c force).mMainCam.offset = c.mMainCam.offset := by
  unfold toggleViewMode; dsimp only; split_ifs <;> simp

@[simp]
theorem toggleViewMode_mPreviewCam_offset (E : Env α) (c : Camera α) (force : Bool) :
    (toggleViewMode E c force).mPreviewCam.offset = c.mPreviewCam.offset := by
  unfold toggleViewMode; dsimp only; split_ifs <;> simp

@[simp]
theorem toggleVanityMode_mNearest (E : Env α) (c : Camera α) (b : Bool) :
    ((toggleVanityMode E c b).2).mNearest = c.mNearest := by
  unfold toggleVanityMode; dsimp only; split_ifs <;> simp

@[simp]
theorem toggleVanityMode_mFurthest (E : Env α) (c : Camera α) (b : Bool) :
    ((toggleVanityMode E c b).2).mFurthest = c.mFurthest := by
  unfold toggleVanityMode; dsimp only; split_ifs <;> simp

@[simp]
theorem toggleVanityMode_mIsNearest (E : Env α) (c : Camera α) (b : Bool) :
    ((toggleVanityMode E c b).2).mIsNearest = c.mIsNearest := by
  unfold toggleVanityMode; dsimp only; split_ifs <;> simp

@[simp]
theorem toggleVanityMode_mHeight (E : Env α) (c : Camera α) (b : Bool) :
    ((toggleVanityMode E c b).2).mHeight = c.mHeight := by
  unfold toggleVanityMode; dsimp only; split_ifs <;> simp

@[simp]
theorem toggleVanityMode_mBaseCameraDistance (E : Env α) (c : Camera α) (b : Bool) :
    ((toggleVanityMode E c b).2).mBaseCameraDistance = c.mBaseCameraDistance := by
  unfold toggleVanityMode; dsimp only; split_ifs <;> simp

@[simp]
theorem toggleVanityMode_mThirdPersonMode (E : Env α) (c : Camera α) (b : Bool) :
    ((toggleVanityMode E c b).2).mThirdPersonMode = c.mThirdPersonMode := by
  unfold toggleVanityMode; dsimp only; split_ifs <;> simp

@[simp]
theorem toggleVanityMode_mOverShoulderHorizontalOffset (E : Env α) (c : Camera α) (b : Bool) :
    ((toggleVanityMode E c b).2).mOverShoulderHorizontalOffset = c.mOverShoulderHorizontalOffset := by
  unfold toggleVanityMode; dsimp only; split_ifs <;> simp

@[simp]
theorem toggleVanityMode_mDefaultShoulderIsRight (E : Env α) (c : Camera α) (b : Bool) :
    ((toggleVanityMode E c b).2).mDefaultShoulderIsRight = c.mDefaultShoulderIsRight := by
  unfold toggleVanityMode; dsimp only; split_ifs <;> simp

@[simp]
theorem toggleVanityMode_mThirdPersionOffsetType (E : Env α) (c : Camera α) (b : Bool) :
    ((toggleVanityMode E c b).2).mThirdPersionOffsetType = c.mThirdPersionOffsetType := by
  unfold toggleVanityMode; dsimp only; split_ifs <;> simp

@[simp]
theorem toggleVanityMode_mFocalPointCurrentOffset (E : Env α) (c : Camera α) (b : Bool) :
    ((toggleVanityMode E c b).2).mFocalPointCurrentOffset = c.mFocalPointCurrentOffset := by
  unfold toggleVanityMode; dsimp only; split_ifs <;> simp

@[simp]
theorem toggleVanityMode_mFocalPointAdjustment (E : Env α) (c : Camera α) (b : Bool) :
    ((toggleVanityMode E c b).2).mFocalPointAdjustment = c.mFocalPointAdjustment := by
  unfold toggleVanityMode; dsimp only; split_ifs <;> simp

@[simp]
theorem toggleVanityMode_mFocalPointTransitionSpeed (E : Env α) (c : Camera α) (b : Bool) :
    ((toggleVanityMode E c b).2).mFocalPointTransitionSpeed = c.mFocalPointTransitionSpeed := by
  unfold toggleVanityMode; dsimp only; split_ifs <;> simp

@[simp]
theorem toggleVanityMode_mSmoothedSpeed (E : Env α) (c : Camera α) (b : Bool) :
    ((toggleVanityMode E c b).2).mSmoothedSpeed = c.mSmoothedSpeed := by
  unfold toggleVanityMode; dsimp only; split_ifs <;> simp

@[simp]
theorem toggleVanityMode_mZoomOutWhenMoveCoef (E : Env α) (c : Camera α) (b : Bool) :
    ((toggleVanityMode E c b).2).mZoomOutWhenMoveCoef = c.mZoomOutWhenMoveCoef := by
  unfold toggleVanityMode; dsimp only; split_ifs <;> simp

@[simp]
theorem toggleVanityMode_mPreviewCam_offset (E : Env α) (c : Camera α) (b : Bool) :
    ((toggleVanityMode E c b).2).mPreviewCam.offset = c.mPreviewCam.offset := by
  unfold toggleVanityMode; dsimp only; split_ifs <;> simp

@[simp]
theorem togglePreviewMode_mNearest (E : Env α) (c : Camera α) (b : Bool) :
    (togglePreviewMode E c b).mNearest = c.mNearest := by
  unfold togglePreviewMode; dsimp only; split_ifs <;> simp

@[simp]
theorem togglePreviewMode_mFurthest (E : Env α) (c : Camera α) (b : Bool) :
    (togglePreviewMode E c b).mFurthest = c.mFurthest := by
  unfold togglePreviewMode; dsimp only; split_ifs <;> simp

@[simp]
theorem togglePreviewMode_mIsNearest (E : Env α) (c : Camera α) (b : Bool) :
    (togglePreviewMode E c b).mIsNearest = c.mIsNearest := by
  unfold togglePreviewMode; dsimp only; split_ifs <;> simp

@[simp]
theorem togglePreviewMode_mHeight (E : Env α) (c : Camera α) (b : Bool) :
    (togglePreviewMode E c b).mHeight = c.mHeight := by
  unfold togglePreviewMode; dsimp only; split_ifs <;> simp

@[simp]
theorem togglePreviewMode_mBaseCameraDistance (E : Env α) (c : Camera α) (b : Bool) :
    (togglePreviewMode E c b).mBaseCameraDistance = c.mBaseCameraDistance := by
  unfold togglePreviewMode; dsimp only; split_ifs <;> simp

@[simp]
theorem togglePreviewMode_mThirdPersonMode (E : Env α) (c : Camera α) (b : Bool) :
    (togglePreviewMode E c b).mThirdPersonMode = c.mThirdPersonMode := by
  unfold togglePreviewMode; dsimp only; split_ifs <;> simp

@[simp]
theorem togglePreviewMode_mOverShoulderHorizontalOffset (E : Env α) (c : Camera α) (b : Bool) :
    (togglePreviewMode E c b).mOverShoulderHorizontalOffset = c.mOverShoulderHorizontalOffset := by
  unfold togglePreviewMode; dsimp only; split_ifs <;> simp

@[simp]
theorem togglePreviewMode_mDefaultShoulderIsRight (E : Env α) (c : Camera α) (b : Bool) :
    (togglePreviewMode E c b).mDefaultShoulderIsRight = c.mDefaultShoulderIsRight := by
  unfold togglePreviewMode; dsimp only; split_ifs <;> simp

@[simp]
theorem togglePreviewMode_mThirdPersionOffsetType (E : Env α) (c : Camera α) (b : Bool) :
    (togglePreviewMode E c b).mThirdPersionOffsetType = c.mThirdPersionOffsetType := by
  unfold togglePreviewMode; dsimp only; split_ifs <;> simp

@[simp]
theorem togglePreviewMode_mFocalPointCurrentOffset (E : Env α) (c : Camera α) (b : Bool) :
    (togglePreviewMode E c b).mFocalPointCurrentOffset = c.mFocalPointCurrentOffset := by
  unfold togglePreviewMode; dsimp only; split_ifs <;> simp

@[simp]
theorem togglePreviewMode_mFocalPointAdjustment (E : Env α) (c : Camera α) (b : Bool) :
    (togglePreviewMode E c b).mFocalPointAdjustment = c.mFocalPointAdjustment := by
  unfold togglePreviewMode; dsimp only; split_ifs <;> simp

@[simp]
theorem togglePreviewMode_mFocalPointTransitionSpeed (E : Env α) (c : Camera α) (b : Bool) :
    (togglePreviewMode E c b).mFocalPointTransitionSpeed = c.mFocalPointTransitionSpeed := by
  unfold togglePreviewMode; dsimp only; split_ifs <;> simp

@[simp]
theorem togglePreviewMode_mSmoothedSpeed (E : Env α) (c : Camera α) (b : Bool) :
    (togglePreviewMode E c b).mSmoothedSpeed = c.mSmoothedSpeed := by
  unfold togglePreviewMode; dsimp only; split_ifs <;> simp

@[simp]
theorem togglePreviewMode_mZoomOutWhenMoveCoef (E : Env α) (c : Camera α) (b : Bool) :
    (togglePreviewMode E c b).mZoomOutWhenMoveCoef = c.mZoomOutWhenMoveCoef := by
  unfold togglePreviewMode; dsimp only; split_ifs <;> simp

/-! ### What the vanity and preview toggles do to the distances -/

/-- Entering vanity (not deferred, allowed, vanity off before): the call returns true, vanity
is on, the old `mCameraDistance` is saved in `mMainCam.offset` and `mCameraDistance` becomes
`mPreviewCam.offset`. -/
theorem toggleVanityMode_enter (E : Env α) (c : Camera α)
    (hd : (c.mFirstPersonView && !E.upperBodyReady) = false)
    (ha : c.mVanity.allowed = true) (he : c.mVanity.enabled = false) :
    (toggleVanityMode E c true).1 = true
    ∧ (toggleVanityMode E c true).2.mVanity.enabled = true
    ∧ (toggleVanityMode E c true).2.mCameraDistance = c.mPreviewCam.offset
    ∧ (toggleVanityMode E c true).2.mMainCam.offset = c.mCameraDistance := by
  unfold toggleVanityMode; dsimp only
  rw [hd]
  simp [ha, he]

/-- Leaving vanity (not deferred, vanity on before): the call returns true, vanity is off and
`mCameraDistance` is restored from `mMainCam.offset`. -/
theorem toggleVanityMode_leave (E : Env α) (c : Camera α)
    (hd : (c.mFirstPersonView && !E.upperBodyReady) = false)
    (he : c.mVanity.enabled = true) :
    (toggleVanityMode E c false).1 = true
    ∧ (toggleVanityMode E c false).2.mVanity.enabled = false
    ∧ (toggleVanityMode E c false).2.mCameraDistance = c.mMainCam.offset
    ∧ (toggleVanityMode E c false).2.mMainCam.offset = c.mMainCam.offset := by
  unfold toggleVanityMode; dsimp only
  rw [hd]
  simp [he]

/-- A deferred vanity toggle only writes the two members of the vanity queue. -/
theorem toggleVanityMode_deferred (E : Env α) (c : Camera α) (b : Bool)
    (hd : (c.mFirstPersonView && !E.upperBodyReady) = true) :
    toggleVanityMode E c b
      = (false, { c with mVanityToggleQueued := true, mVanityToggleQueuedValue := b }) := by
  unfold toggleVanityMode; dsimp only
  rw [hd]; simp

/-- Entering preview (not dropped, preview off before): the old `mCameraDistance` is saved in
`mMainCam.offset` and `mCameraDistance` becomes `mPreviewCam.offset`. -/
theorem togglePreviewMode_enter (E : Env α) (c : Camera α)
    (hd : (c.mFirstPersonView && !E.upperBodyReady) = false)
    (hp : c.mPreviewMode = false) :
    (togglePreviewMode E c true).mCameraDistance = c.mPreviewCam.offset
    ∧ (togglePreviewMode E c true).mMainCam.offset = c.mCameraDistance
    ∧ (togglePreviewMode E c true).mPreviewCam.offset = c.mPreviewCam.offset := by
  unfold togglePreviewMode; dsimp only
  rw [hd]
  simp [hp]

/-- Leaving preview (not dropped, preview on before): `mCameraDistance` is saved in
`mPreviewCam.offset` and restored from `mMainCam.offset`. -/
theorem togglePreviewMode_leave (E : Env α) (c : Camera α)
    (hd : (c.mFirstPersonView && !E.upperBodyReady) = false)
    (hp : c.mPreviewMode = true) :
    (togglePreviewMode E c false).mCameraDistance = c.mMainCam.offset
    ∧ (togglePreviewMode E c false).mMainCam.offset = c.mMainCam.offset
    ∧ (togglePreviewMode E c false).mPreviewCam.offset = c.mCameraDistance := by
  unfold togglePreviewMode; dsimp only
  rw [hd]
  simp [hp]

/-- A preview toggle that is dropped, or that asks for the mode preview is already in,
changes nothing. -/
theorem togglePreviewMode_noop (E : Env α) (c : Camera α) (b : Bool)
    (h : (c.mFirstPersonView && !E.upperBodyReady) = true ∨ c.mPreviewMode = b) :
    togglePreviewMode E c b = c := by
  unfold togglePreviewMode; dsimp only
  rcases h with h | h
  · rw [h]; simp
  · cases hd : (c.mFirstPersonView && !E.upperBodyReady) <;> simp [h]

/-! ### The two blocks of `update` -/

theorem update_eq_blocks (E : Env α) (c : Camera α) (d : α) (p : Bool) :
    update E c d p
      = if p then updateToggles E c else updateFrame E (updateToggles E c) d := by
  unfold update updateToggles updateFrame
  rfl

/-- With the animation not ready the first block of `update` does nothing. -/
theorem updateToggles_not_ready (E : Env α) (c : Camera α) (h : E.upperBodyReady = false) :
    updateToggles E c = c := by
  simp [updateToggles, h]

/-- With the animation ready the first block of `update` leaves no toggle queued, and preview
off when a view-mode toggle was queued. -/
theorem updateToggles_ready (E : Env α) (c : Camera α) (h : E.upperBodyReady = true) :
    (updateToggles E c).mVanityToggleQueued = false
    ∧ (updateToggles E c).mViewModeToggleQueued = false
    ∧ (c.mViewModeToggleQueued = true → (updateToggles E c).mPreviewMode = false) := by
  have hq : (!E.upperBodyReady && !false) = false := by simp [h]
  have hd : ∀ x : Camera α, (x.mFirstPersonView && !E.upperBodyReady) = false := by
    intro x; simp [h]
  unfold updateToggles
  rw [if_pos h]
  dsimp only
  cases hv : c.mVanityToggleQueued <;> cases hw : c.mViewModeToggleQueued
  · simp [hv, hw]
  · simp [hv, hw, togglePreviewMode_mPreviewMode E c false (hd c)]
  · simp [hv, hw]
  · simp [hv, hw, togglePreviewMode_mPreviewMode E _ false (hd _)]

@[simp]
theorem updateToggles_mSmoothedSpeed (E : Env α) (c : Camera α) :
    (updateToggles E c).mSmoothedSpeed = c.mSmoothedSpeed := by
  unfold updateToggles; dsimp only
  split_ifs <;> simp

@[simp]
theorem updateFrame_mVanityToggleQueued (E : Env α) (c : Camera α) (d : α) :
    (updateFrame E c d).mVanityToggleQueued = c.mVanityToggleQueued := by
  unfold updateFrame; dsimp only
  split_ifs <;> simp

@[simp]
theorem updateFrame_mViewModeToggleQueued (E : Env α) (c : Camera α) (d : α) :
    (updateFrame E c d).mViewModeToggleQueued = c.mViewModeToggleQueued := by
  unfold updateFrame; dsimp only
  split_ifs <;> simp

@[simp]
theorem updateFrame_mPreviewMode (E : Env α) (c : Camera α) (d : α) :
    (updateFrame E c d).mPreviewMode = c.mPreviewMode := by
  unfold updateFrame; dsimp only
  split_ifs <;> simp

/-- The smoothed speed after the second block of `update`. -/
theorem updateFrame_mSmoothedSpeed (E : Env α) (c : Camera α) (d : α) :
    (updateFrame E c d).mSmoothedSpeed
      = c.mSmoothedSpeed + max (min (E.speed - c.mSmoothedSpeed) (100 * d)) (-(100 * d)) := by
  unfold updateFrame; dsimp only
  split_ifs <;> simp

@[simp]
theorem updateFrame_mVanity (E : Env α) (c : Camera α) (d : α) :
    (updateFrame E c d).mVanity = c.mVanity := by
  unfold updateFrame; dsimp only
  split_ifs <;> simp

@[simp]
theorem updateFrame_mFirstPersonView (E : Env α) (c : Camera α) (d : α) :
    (updateFrame E c d).mFirstPersonView = c.mFirstPersonView := by
  unfold updateFrame; dsimp only
  split_ifs <;> simp

/-- What a vanity toggle that is not deferred leaves in `mVanity.enabled`: the requested value,
unless the request is to enable while vanity is disallowed. -/
theorem toggleVanityMode_enabled_value (E : Env α) (c : Camera α) (b : Bool)
    (h : (c.mFirstPersonView && !E.upperBodyReady) = false) :
    (toggleVanityMode E c b).2.mVanity.enabled
      = if !c.mVanity.allowed && b then c.mVanity.enabled else b := by
  cases ha : (!c.mVanity.allowed && b)
  · rw [toggleVanityMode_enabled E c b h ha]; simp
  · rw [toggleVanityMode_refused E c b h ha]; simp

/-- With the animation ready, the first block of `update` is: the queued vanity toggle (if
any) with its flag cleared, then, if a view-mode toggle is queued, `togglePreviewMode(false)`
followed by `toggleViewMode()` with its flag cleared. -/
theorem updateToggles_ready_eq (E : Env α) (c : Camera α) (h : E.upperBodyReady = true) :
    (c.mVanityToggleQueued = true → c.mViewModeToggleQueued = true →
      updateToggles E c
        = { toggleViewMode E (togglePreviewMode E
              { (toggleVanityMode E c c.mVanityToggleQueuedValue).2 with
                mVanityToggleQueued := false } false) false with
            mViewModeToggleQueued := false })
    ∧ (c.mVanityToggleQueued = true → c.mViewModeToggleQueued = false →
        updateToggles E c
          = { (toggleVanityMode E c c.mVanityToggleQueuedValue).2 with
              mVanityToggleQueued := false })
    ∧ (c.mVanityToggleQueued = false → c.mViewModeToggleQueued = true →
        updateToggles E c
          = { toggleViewMode E (togglePreviewMode E c false) false with
              mViewModeToggleQueued := false })
    ∧ (c.mVanityToggleQueued = false → c.mViewModeToggleQueued = false →
        updateToggles E c = c) := by
  refine ⟨?_, ?_, ?_, ?_⟩
  · intro hv hw
    unfold updateToggles
    rw [if_pos h]
    simp [hv, hw]
  · intro hv hw
    unfold updateToggles
    rw [if_pos h]
    simp [hv, hw]
  · intro hv hw
    unfold updateToggles
    rw [if_pos h]
    simp [hv, hw]
  · intro hv hw
    unfold updateToggles
    rw [if_pos h]
    simp [hv, hw]

/-- The view flag, the preview flag and the vanity flag after the first block of `update`
with the animation ready. -/
theorem updateToggles_ready_flags (E : Env α) (c : Camera α) (h : E.upperBodyReady = true) :
    (updateToggles E c).mFirstPersonView
        = (if c.mViewModeToggleQueued then !c.mFirstPersonView else c.mFirstPersonView)
    ∧ (updateToggles E c).mPreviewMode
        = (if c.mViewModeToggleQueued then false else c.mPreviewMode)
    ∧ (updateToggles E c).mVanity.enabled
        = (if c.mVanityToggleQueued then
            (if !c.mVanity.allowed && c.mVanityToggleQueuedValue then c.mVanity.enabled
              else c.mVanityToggleQueuedValue)
          else c.mVanity.enabled) := by
  have hq : (!E.upperBodyReady && !false) = false := by simp [h]
  have hd : ∀ x : Camera α, (x.mFirstPersonView && !E.upperBodyReady) = false := by
    intro x; simp [h]
  obtain ⟨e1, e2, e3, e4⟩ := updateToggles_ready_eq E c h
  have hval := toggleVanityMode_enabled_value E c c.mVanityToggleQueuedValue (hd c)
  cases hv : c.mVanityToggleQueued <;> cases hw : c.mViewModeToggleQueued
  · rw [e4 hv hw]; simp
  · rw [e3 hv hw]
    simp [toggleViewMode_ready_mFirstPersonView E _ false hq,
      togglePreviewMode_mPreviewMode E c false (hd c)]
  · rw [e2 hv hw]
    simp [hval]
  · rw [e1 hv hw]
    simp [toggleViewMode_ready_mFirstPersonView E _ false hq,
      togglePreviewMode_mPreviewMode E _ false (hd _), hval]

/-- C16: with the animation ready, after `update(duration, paused)` neither the vanity toggle
nor the view-mode toggle is queued, and preview mode is off when a view-mode toggle was
queued before the call.  The queued toggles are applied: a queued view-mode toggle flips
`mFirstPersonView` (which otherwise keeps its value, as does `mPreviewMode`), and a queued
vanity toggle leaves `mVanity.enabled` at the queued value, unless that value is true while
vanity is disallowed (without a queued vanity toggle `mVanity.enabled` keeps its value).  The
order is: the queued vanity toggle first, then `togglePreviewMode(false)`, then
`toggleViewMode()`, each only if queued; a paused `update` ends in exactly that state, and a
non-paused one runs the per-frame part of `update` from it. -/
theorem update_resolves_queue (E : Env α) (c : Camera α) (d : α) (p : Bool)
    (h : E.upperBodyReady = true) :
    (update E c d p).mVanityToggleQueued = false
    ∧ (update E c d p).mViewModeToggleQueued = false
    ∧ (c.mViewModeToggleQueued = true → (update E c d p).mPreviewMode = false)
    ∧ (c.mViewModeToggleQueued = true →
        (update E c d p).mFirstPersonView = !c.mFirstPersonView)
    ∧ (c.mViewModeToggleQueued = false →
        (update E c d p).mFirstPersonView = c.mFirstPersonView
        ∧ (update E c d p).mPreviewMode = c.mPreviewMode)
    ∧ (c.mVanityToggleQueued = true →
        (update E c d p).mVanity.enabled
          = (if !c.mVanity.allowed && c.mVanityToggleQueuedValue then c.mVanity.enabled
              else c.mVanityToggleQueuedValue))
    ∧ (c.mVanityToggleQueued = false →
        (update E c d p).mVanity.enabled = c.mVanity.enabled)
    ∧ (c.mVanityToggleQueued = true → c.mViewModeToggleQueued = true →
        update E c d true
          = { toggleViewMode E (togglePreviewMode E
                { (toggleVanityMode E c c.mVanityToggleQueuedValue).2 with
                  mVanityToggleQueued := false } false) false with
              mViewModeToggleQueued := false })
    ∧ (c.mVanityToggleQueued = true → c.mViewModeToggleQueued = false →
        update E c d true
          = { (toggleVanityMode E c c.mVanityToggleQueuedValue).2 with
              mVanityToggleQueued := false })
    ∧ (c.mVanityToggleQueued = false → c.mViewModeToggleQueued = true →
        update E c d true
          = { toggleViewMode E (togglePreviewMode E c false) false with
              mViewModeToggleQueued := false })
    ∧ (c.mVanityToggleQueued = false → c.mViewModeToggleQueued = false →
        update E c d true = c)
    ∧ update E c d false = updateFrame E (update E c d true) d := by
  obtain ⟨h1, h2, h3⟩ := updateToggles_ready E c h
  obtain ⟨f1, f2, f3⟩ := updateToggles_ready_flags E c h
  obtain ⟨e1, e2, e3, e4⟩ := updateToggles_ready_eq E c h
  have hfields : (update E c d p).mVanityToggleQueued = (updateToggles E c).mVanityToggleQueued
      ∧ (update E c d p).mViewModeToggleQueued = (updateToggles E c).mViewModeToggleQueued
      ∧ (update E c d p).mPreviewMode = (updateToggles E c).mPreviewMode
      ∧ (update E c d p).mFirstPersonView = (updateToggles E c).mFirstPersonView
      ∧ (update E c d p).mVanity = (updateToggles E c).mVanity := by
    rw [update_eq_blocks]
    cases p
    · simp only [Bool.false_eq_true, if_false, updateFrame_mVanityToggleQueued,
        updateFrame_mViewModeToggleQueued, updateFrame_mPreviewMode,
        updateFrame_mFirstPersonView, updateFrame_mVanity, and_self]
    · simp only [if_true, and_self]
  obtain ⟨g1, g2, g3, g4, g5⟩ := hfields
  have hpaused : update E c d true = updateToggles E c := by
    rw [update_eq_blocks]; simp
  refine ⟨by rw [g1]; exact h1, by rw [g2]; exact h2, fun hw => by rw [g3]; exact h3 hw,
    ?_, ?_, ?_, ?_, ?_, ?_, ?_, ?_, ?_⟩
  · intro hw
    rw [g4, f1, hw]; simp
  · intro hw
    rw [g4, g3, f1, f2, hw]; simp
  · intro hv
    rw [g5, f3, hv]; simp
  · intro hv
    rw [g5, f3, hv]; simp
  · intro hv hw
    rw [hpaused]; exact e1 hv hw
  · intro hv hw
    rw [hpaused]; exact e2 hv hw
  · intro hv hw
    rw [hpaused]; exact e3 hv hw
  · intro hv hw
    rw [hpaused]; exact e4 hv hw
  · rw [hpaused, update_eq_blocks]; simp

/-- Witness of C16: a camera in third-person preview with both toggles queued (vanity to on);
one paused `update` with the animation ready ends in first-person view. -/
theorem update_resolves_queue_witness :
    (update (sampleEnv true)
      { sampleCamera with
        mFirstPersonView := false
        mPreviewMode := true
        mVanityToggleQueued := true
        mVanityToggleQueuedValue := true
        mViewModeToggleQueued := true } 1 true).mFirstPersonView = true :=
  (update_resolves_queue (sampleEnv true)
    { sampleCamera with
      mFirstPersonView := false
      mPreviewMode := true
      mVanityToggleQueued := true
      mVanityToggleQueuedValue := true
      mViewModeToggleQueued := true } 1 true rfl).2.2.2.1 rfl

/-- C19: a non-paused `update(duration, false)` with `duration ≥ 0` moves `mSmoothedSpeed`
from `s` to `s'` with `|s' - s| ≤ 100 * duration`, `s'` between `s` and the reported speed
`v`, and `s' = v` whenever `|v - s| ≤ 100 * duration`; a paused `update` leaves
`mSmoothedSpeed` unchanged. -/
theorem update_smoothedSpeed (E : Env α) (c : Camera α) (d : α) (hd : 0 ≤ d) :
    |(update E c d false).mSmoothedSpeed - c.mSmoothedSpeed| ≤ 100 * d
    ∧ min c.mSmoothedSpeed E.speed ≤ (update E c d false).mSmoothedSpeed
    ∧ (update E c d false).mSmoothedSpeed ≤ max c.mSmoothedSpeed E.speed
    ∧ (|E.speed - c.mSmoothedSpeed| ≤ 100 * d →
        (update E c d false).mSmoothedSpeed = E.speed)
    ∧ (update E c d true).mSmoothedSpeed = c.mSmoothedSpeed := by
  rw [update_eq_blocks, update_eq_blocks]
  simp only [Bool.false_eq_true, if_false, if_true, updateFrame_mSmoothedSpeed,
    updateToggles_mSmoothedSpeed]
  generalize c.mSmoothedSpeed = s
  generalize E.speed = v
  have hm : 0 ≤ 100 * d := by positivity
  refine ⟨?_, ?_, ?_, ?_, trivial⟩
  · rw [add_sub_cancel_left, abs_le]
    constructor
    · exact le_max_right _ _
    · apply max_le
      · exact min_le_right _ _
      · linarith
  · rcases le_total s v with h | h
    · rw [min_eq_left h]
      have : 0 ≤ max (min (v - s) (100 * d)) (-(100 * d)) :=
        le_max_of_le_left (le_min (by linarith) hm)
      linarith
    · rw [min_eq_right h]
      have : v - s ≤ max (min (v - s) (100 * d)) (-(100 * d)) := by
        rcases le_total (v - s) (-(100 * d)) with h2 | h2
        · exact le_trans h2 (le_max_right _ _)
        · exact le_max_of_le_left (le_min (le_refl _) (by linarith))
      linarith
  · rcases le_total s v with h | h
    · rw [max_eq_right h]
      have : max (min (v - s) (100 * d)) (-(100 * d)) ≤ v - s :=
        max_le (min_le_left _ _) (by linarith)
      linarith
    · rw [max_eq_left h]
      have : max (min (v - s) (100 * d)) (-(100 * d)) ≤ 0 :=
        max_le (le_trans (min_le_left _ _) (by linarith)) (by linarith)
      linarith
  · intro h
    have h2 := abs_le.mp h
    rw [min_eq_left h2.2, max_eq_left h2.1]
    ring

/-- Witness of C19: from rest, with a reported speed of 500 and a frame of 1 second, the
smoothed speed moves by at most 100. -/
theorem update_smoothedSpeed_witness :
    |(update { sampleEnv true with speed := 500 } sampleCamera 1 false).mSmoothedSpeed
      - sampleCamera.mSmoothedSpeed| ≤ 100 * 1 :=
  (update_smoothedSpeed { sampleEnv true with speed := 500 } sampleCamera 1 (by norm_num)).1

/-- The pitch of the active slot right after vanity is entered, outside preview mode. -/
theorem toggleVanityMode_enter_pitch (E : Env α) (c : Camera α)
    (hd : (c.mFirstPersonView && !E.upperBodyReady) = false)
    (ha : c.mVanity.allowed = true) (he : c.mVanity.enabled = false)
    (hp : c.mPreviewMode = false) (hPI : 3 < E.PI) :
    getPitch (toggleVanityMode E c true).2 = DegreesToRadians E (-30) := by
  have hg : ∀ (x : Camera α) (m o : α),
      getPitch { x with mMainCam := { x.mMainCam with offset := m }, mCameraDistance := o }
        = getPitch x := fun _ _ _ => rfl
  unfold toggleVanityMode; dsimp only
  rw [hd]
  simp only [ha, he, Bool.not_true, Bool.false_and, Bool.false_eq_true, if_false,
    processViewChange_mVanity, if_true]
  have hbeq : ((false : Bool) == true) = false := rfl
  simp only [hbeq, Bool.false_eq_true, if_false, hg, getPitch_setPitch,
    processViewChange_mPreviewMode, hp]
  unfold DegreesToRadians PI_2 epsilon
  rw [if_neg (by rw [not_lt]; linarith), if_neg (by rw [not_lt]; linarith)]

/-- C17: from a state with vanity off and allowed and preview off, with neither call deferred
(third-person view, or the animation ready at each call), `toggleVanityMode(true)` returns
true, stores the previous `mCameraDistance` in `mMainCam.offset`, sets the pitch of the active
slot to −30 degrees and `mCameraDistance` to `mPreviewCam.offset`; the following
`toggleVanityMode(false)` returns true and restores `mCameraDistance` to its value before the
first call (for any value of `osg::PI` above 3). -/
theorem vanity_round_trip (E1 E2 : Env α) (c : Camera α)
    (he : c.mVanity.enabled = false) (ha : c.mVanity.allowed = true)
    (hp : c.mPreviewMode = false)
    (hd1 : c.mFirstPersonView = false ∨ E1.upperBodyReady = true)
    (hd2 : c.mFirstPersonView = false ∨ E2.upperBodyReady = true) (hPI : 3 < E1.PI) :
    (toggleVanityMode E1 c true).1 = true
    ∧ (toggleVanityMode E1 c true).2.mMainCam.offset = c.mCameraDistance
    ∧ getPitch (toggleVanityMode E1 c true).2 = -30 * E1.PI / 180
    ∧ (toggleVanityMode E1 c true).2.mCameraDistance = c.mPreviewCam.offset
    ∧ (toggleVanityMode E2 (toggleVanityMode E1 c true).2 false).1 = true
    ∧ (toggleVanityMode E2 (toggleVanityMode E1 c true).2 false).2.mCameraDistance
        = c.mCameraDistance := by
  have h1 : (c.mFirstPersonView && !E1.upperBodyReady) = false := by
    rcases hd1 with h | h <;> simp [h]
  have h2 : ((toggleVanityMode E1 c true).2.mFirstPersonView && !E2.upperBodyReady)
      = false := by
    rw [toggleVanityMode_mFirstPersonView]
    rcases hd2 with h | h <;> simp [h]
  obtain ⟨a1, a2, a3, a4⟩ := toggleVanityMode_enter E1 c h1 ha he
  obtain ⟨b1, _, b3, _⟩ := toggleVanityMode_leave E2 (toggleVanityMode E1 c true).2 h2 a2
  refine ⟨a1, a4, ?_, a3, b1, ?_⟩
  · rw [toggleVanityMode_enter_pitch E1 c h1 ha he hp hPI]; rfl
  · rw [b3, a4]

/-- Witness of C17 from the state after construction with the animation ready: after
entering and leaving vanity the distance is the initial 192 again. -/
theorem vanity_round_trip_witness :
    (toggleVanityMode (sampleEnv true)
      (toggleVanityMode (sampleEnv true) sampleCamera true).2 false).2.mCameraDistance
      = 192 :=
  (vanity_round_trip (sampleEnv true) (sampleEnv true) sampleCamera rfl rfl rfl
    (Or.inr rfl) (Or.inr rfl) (by norm_num [sampleEnv])).2.2.2.2.2

/-- The sequence vanity on, preview on, preview off, vanity off with the animation ready at
each call: vanity and preview end off, and `mCameraDistance` ends as the `mPreviewCam.offset`
from before the sequence. -/
theorem vanity_preview_sequence (E1 E2 E3 E4 : Env α) (c : Camera α)
    (he : c.mVanity.enabled = false) (ha : c.mVanity.allowed = true)
    (hp : c.mPreviewMode = false)
    (h1 : E1.upperBodyReady = true) (h2 : E2.upperBodyReady = true)
    (h3 : E3.upperBodyReady = true) (h4 : E4.upperBodyReady = true) :
    (toggleVanityMode E4 (togglePreviewMode E3
      (togglePreviewMode E2 (toggleVanityMode E1 c true).2 true) false) false).2.mVanity.enabled
        = false
    ∧ (toggleVanityMode E4 (togglePreviewMode E3
        (togglePreviewMode E2 (toggleVanityMode E1 c true).2 true) false) false).2.mPreviewMode
        = false
    ∧ (toggleVanityMode E4 (togglePreviewMode E3
        (togglePreviewMode E2 (toggleVanityMode E1 c true).2 true) false)
          false).2.mCameraDistance = c.mPreviewCam.offset := by
  have d1 : ∀ x : Camera α, (x.mFirstPersonView && !E1.upperBodyReady) = false := by
    intro x; simp [h1]
  have d2 : ∀ x : Camera α, (x.mFirstPersonView && !E2.upperBodyReady) = false := by
    intro x; simp [h2]
  have d3 : ∀ x : Camera α, (x.mFirstPersonView && !E3.upperBodyReady) = false := by
    intro x; simp [h3]
  have d4 : ∀ x : Camera α, (x.mFirstPersonView && !E4.upperBodyReady) = false := by
    intro x; simp [h4]
  obtain ⟨_, a2, a3, a4⟩ := toggleVanityMode_enter E1 c (d1 c) ha he
  have a5 : (toggleVanityMode E1 c true).2.mPreviewMode = false := by
    rw [toggleVanityMode_mPreviewMode]; exact hp
  have a6 := toggleVanityMode_mPreviewCam_offset E1 c true
  generalize (toggleVanityMode E1 c true).2 = c1 at *
  obtain ⟨b1, b2, b3⟩ := togglePreviewMode_enter E2 c1 (d2 c1) a5
  have b4 := togglePreviewMode_mPreviewMode E2 c1 true (d2 c1)
  have b5 := togglePreviewMode_mVanity E2 c1 true
  generalize togglePreviewMode E2 c1 true = c2 at *
  obtain ⟨e1, e2, e3⟩ := togglePreviewMode_leave E3 c2 (d3 c2) b4
  have e4 := togglePreviewMode_mPreviewMode E3 c2 false (d3 c2)
  have e5 := togglePreviewMode_mVanity E3 c2 false
  generalize togglePreviewMode E3 c2 false = c3 at *
  have hen : c3.mVanity.enabled = true := by rw [e5, b5]; exact a2
  obtain ⟨_, f2, f3, _⟩ := toggleVanityMode_leave E4 c3 (d4 c3) hen
  refine ⟨f2, ?_, ?_⟩
  · rw [toggleVanityMode_mPreviewMode]; exact e4
  · rw [f3, e2, b2, a3]

/-- C18, as stated, fails: from the state after construction (distance 192, preview offset
400) with the animation ready, the sequence vanity on, preview on, preview off, vanity off
ends with `mCameraDistance = 400`, not 192: `togglePreviewMode(true)` overwrites the distance
that `toggleVanityMode(true)` saved in `mMainCam.offset`. -/
theorem vanity_preview_not_restored :
    (toggleVanityMode (sampleEnv true) (togglePreviewMode (sampleEnv true)
      (togglePreviewMode (sampleEnv true) (toggleVanityMode (sampleEnv true) sampleCamera
        true).2 true) false) false).2.mCameraDistance = 400
    ∧ (toggleVanityMode (sampleEnv true) (togglePreviewMode (sampleEnv true)
        (togglePreviewMode (sampleEnv true) (toggleVanityMode (sampleEnv true) sampleCamera
          true).2 true) false) false).2.mCameraDistance ≠ sampleCamera.mCameraDistance := by
  have h := (vanity_preview_sequence (sampleEnv true) (sampleEnv true) (sampleEnv true)
      (sampleEnv true) sampleCamera rfl rfl rfl rfl rfl rfl rfl).2.2
  have h400 : sampleCamera.mPreviewCam.offset = 400 := rfl
  have h192 : sampleCamera.mCameraDistance = 192 := rfl
  rw [h, h400, h192]
  exact ⟨rfl, by norm_num⟩

/-- C18, amended: from a state with vanity and preview both off and vanity allowed, with the
animation ready at each call, the sequence `toggleVanityMode(true)`,
`togglePreviewMode(true)`, `togglePreviewMode(false)`, `toggleVanityMode(false)` ends with
vanity and preview both off and with `mCameraDistance` equal to the `mPreviewCam.offset` from
before the sequence; so the distance from before the sequence is restored exactly when it
was equal to that offset. -/
theorem vanity_preview_composition (E1 E2 E3 E4 : Env α) (c : Camera α)
    (he : c.mVanity.enabled = false) (ha : c.mVanity.allowed = true)
    (hp : c.mPreviewMode = false)
    (h1 : E1.upperBodyReady = true) (h2 : E2.upperBodyReady = true)
    (h3 : E3.upperBodyReady = true) (h4 : E4.upperBodyReady = true) :
    (toggleVanityMode E4 (togglePreviewMode E3
      (togglePreviewMode E2 (toggleVanityMode E1 c true).2 true) false) false).2.mVanity.enabled
        = false
    ∧ (toggleVanityMode E4 (togglePreviewMode E3
        (togglePreviewMode E2 (toggleVanityMode E1 c true).2 true) false) false).2.mPreviewMode
        = false
    ∧ (toggleVanityMode E4 (togglePreviewMode E3
        (togglePreviewMode E2 (toggleVanityMode E1 c true).2 true) false)
          false).2.mCameraDistance = c.mPreviewCam.offset
    ∧ ((toggleVanityMode E4 (togglePreviewMode E3
        (togglePreviewMode E2 (toggleVanityMode E1 c true).2 true) false)
          false).2.mCameraDistance = c.mCameraDistance
        ↔ c.mCameraDistance = c.mPreviewCam.offset) := by
  obtain ⟨r1, r2, r3⟩ := vanity_preview_sequence E1 E2 E3 E4 c he ha hp h1 h2 h3 h4
  refine ⟨r1, r2, r3, ?_⟩
  rw [r3]
  exact eq_comm

/-- Witness of C18 (amended) from the state after construction: the sequence ends with
vanity off. -/
theorem vanity_preview_composition_witness :
    (toggleVanityMode (sampleEnv true) (togglePreviewMode (sampleEnv true)
      (togglePreviewMode (sampleEnv true) (toggleVanityMode (sampleEnv true) sampleCamera
        true).2 true) false) false).2.mVanity.enabled = false :=
  (vanity_preview_composition (sampleEnv true) (sampleEnv true) (sampleEnv true)
    (sampleEnv true) sampleCamera rfl rfl rfl rfl rfl rfl rfl).1

/-! ### The distance predicate -/

/-- The distance predicate reads only `mCameraDistance`, the two slot offsets and
`mFurthest`. -/
theorem DistInv_frame (c c' : Camera α) (hD : c'.mCameraDistance = c.mCameraDistance)
    (hM : c'.mMainCam.offset = c.mMainCam.offset)
    (hP : c'.mPreviewCam.offset = c.mPreviewCam.offset) (hF : c'.mFurthest = c.mFurthest)
    (h : DistInv c) : DistInv c' := by
  unfold DistInv at *
  rw [hD, hM, hP, hF]
  exact h

theorem DistInv_init (zoom : α) : DistInv (Camera.init zoom) := by
  unfold DistInv Camera.init
  norm_num

theorem DistInv_toggleVanityMode (E : Env α) (c : Camera α) (b : Bool) (h : DistInv c) :
    DistInv (toggleVanityMode E c b).2 := by
  have hF := toggleVanityMode_mFurthest E c b
  have hP := toggleVanityMode_mPreviewCam_offset E c b
  cases hd : (c.mFirstPersonView && !E.upperBodyReady)
  · cases ha : (!c.mVanity.allowed && b)
    · by_cases hs : c.mVanity.enabled = b
      · rw [toggleVanityMode_same E c b hd ha hs]; exact h
      · cases b
        · have he : c.mVanity.enabled = true := by simpa using hs
          obtain ⟨_, _, hD, hM⟩ := toggleVanityMode_leave E c hd he
          unfold DistInv at *
          rw [hD, hM, hP, hF]
          exact ⟨h.2.1, h.2.1, h.2.2⟩
        · have he : c.mVanity.enabled = false := by simpa using hs
          have hal : c.mVanity.allowed = true := by simpa using ha
          obtain ⟨_, _, hD, hM⟩ := toggleVanityMode_enter E c hd hal he
          unfold DistInv at *
          rw [hD, hM, hP, hF]
          exact ⟨h.2.2, h.1, h.2.2⟩
    · rw [toggleVanityMode_refused E c b hd ha]; exact h
  · rw [toggleVanityMode_deferred E c b hd]; exact h

theorem DistInv_togglePreviewMode (E : Env α) (c : Camera α) (b : Bool) (h : DistInv c) :
    DistInv (togglePreviewMode E c b) := by
  have hF := togglePreviewMode_mFurthest E c b
  cases hd : (c.mFirstPersonView && !E.upperBodyReady)
  · by_cases hs : c.mPreviewMode = b
    · rw [togglePreviewMode_noop E c b (Or.inr hs)]; exact h
    · cases b
      · have hp : c.mPreviewMode = true := by simpa using hs
        obtain ⟨hD, hM, hP⟩ := togglePreviewMode_leave E c hd hp
        unfold DistInv at *
        rw [hD, hM, hP, hF]
        exact ⟨h.2.1, h.2.1, h.1⟩
      · have hp : c.mPreviewMode = false := by simpa using hs
        obtain ⟨hD, hM, hP⟩ := togglePreviewMode_enter E c hd hp
        unfold DistInv at *
        rw [hD, hM, hP, hF]
        exact ⟨h.2.2, h.1, h.2.2⟩
  · rw [togglePreviewMode_noop E c b (Or.inl hd)]; exact h

theorem DistInv_toggleViewMode (E : Env α) (c : Camera α) (f : Bool) (h : DistInv c) :
    DistInv (toggleViewMode E c f) :=
  DistInv_frame c _ (by simp) (by simp) (by simp) (by simp) h

theorem DistInv_rotateCamera (E : Env α) (c : Camera α) (p y : α) (adj : Bool)
    (h : DistInv c) : DistInv (rotateCamera E c p y adj) :=
  DistInv_frame c _ (by simp) (by simp) (by simp) (by simp) h

theorem DistInv_processViewChange (E : Env α) (c : Camera α) (h : DistInv c) :
    DistInv (processViewChange E c) :=
  DistInv_frame c _ (by simp) (by simp) (by simp) (by simp) h

theorem DistInv_updateToggles (E : Env α) (c : Camera α) (h : DistInv c) :
    DistInv (updateToggles E c) := by
  have aux0 : DistInv (if c.mVanityToggleQueued then
      { (toggleVanityMode E c c.mVanityToggleQueuedValue).2 with mVanityToggleQueued := false }
      else c) := by
    by_cases hv : c.mVanityToggleQueued = true
    · rw [if_pos hv]; exact DistInv_toggleVanityMode E c _ h
    · rw [if_neg hv]; exact h
  have aux : ∀ c1 : Camera α, DistInv c1 → DistInv (if c1.mViewModeToggleQueued then
      { toggleViewMode E (togglePreviewMode E c1 false) false with
        mViewModeToggleQueued := false }
      else c1) := by
    intro c1 h1
    by_cases hv : c1.mViewModeToggleQueued = true
    · rw [if_pos hv]
      exact DistInv_toggleViewMode E _ false (DistInv_togglePreviewMode E c1 false h1)
    · rw [if_neg hv]; exact h1
  unfold updateToggles
  by_cases hr : E.upperBodyReady = true
  · rw [if_pos hr]; exact aux _ aux0
  · rw [if_neg hr]; exact h

theorem DistInv_updateFrame (E : Env α) (c : Camera α) (d : α) (h : DistInv c) :
    DistInv (updateFrame E c d) := by
  have aux0 : DistInv (if c.mVanity.enabled then
      rotateCamera E c 0 (DegreesToRadians E (3 * d)) true else c) := by
    by_cases hv : c.mVanity.enabled = true
    · rw [if_pos hv]; exact DistInv_rotateCamera E c _ _ _ h
    · rw [if_neg hv]; exact h
  have aux : ∀ c1 : Camera α, DistInv c1 → DistInv (updateFocalPointOffset E c1 d) :=
    fun c1 h1 => DistInv_frame c1 _ (by simp) (by simp) (by simp) (by simp) h1
  unfold updateFrame
  exact aux _ aux0

theorem DistInv_update (E : Env α) (c : Camera α) (d : α) (p : Bool) (h : DistInv c) :
    DistInv (update E c d p) := by
  rw [update_eq_blocks]
  cases p
  · exact DistInv_updateFrame E _ d (DistInv_updateToggles E c h)
  · exact DistInv_updateToggles E c h

theorem DistInv_reset (E : Env α) (c : Camera α) (h : DistInv c) : DistInv (reset E c) := by
  have aux : ∀ c1 : Camera α, DistInv c1 →
      DistInv (if !c1.mFirstPersonView then toggleViewMode E c1 false else c1) := by
    intro c1 h1
    by_cases hv : (!c1.mFirstPersonView) = true
    · rw [if_pos hv]; exact DistInv_toggleViewMode E c1 false h1
    · rw [if_neg hv]; exact h1
  unfold reset
  exact aux _ (DistInv_toggleVanityMode E _ false (DistInv_togglePreviewMode E c false h))

theorem DistInv_allowVanityMode (E : Env α) (c : Camera α) (b : Bool) (h : DistInv c) :
    DistInv (allowVanityMode E c b) := by
  have aux0 : DistInv (if !b && c.mVanity.enabled then (toggleVanityMode E c false).2
      else c) := by
    by_cases hv : (!b && c.mVanity.enabled) = true
    · rw [if_pos hv]; exact DistInv_toggleVanityMode E c false h
    · rw [if_neg hv]; exact h
  unfold allowVanityMode
  exact aux0

theorem DistInv_setCameraDistance (c : Camera α) (dist : α) (adjust : Bool)
    (h : DistInv c) : DistInv (setCameraDistance c dist adjust) := by
  have hF : 10 ≤ c.mFurthest := le_trans h.1.1 h.1.2
  have aux : ∀ x : α, DistInv { c with mCameraDistance :=
      if x ≥ c.mFurthest then c.mFurthest else if x < 10 then 10 else x } := by
    intro x
    refine ⟨?_, h.2.1, h.2.2⟩
    show 10 ≤ (if x ≥ c.mFurthest then c.mFurthest else if x < 10 then 10 else x)
      ∧ (if x ≥ c.mFurthest then c.mFurthest else if x < 10 then 10 else x) ≤ c.mFurthest
    by_cases h2 : x ≥ c.mFurthest
    · rw [if_pos h2]; exact ⟨hF, le_refl _⟩
    · rw [if_neg h2]
      by_cases h3 : x < 10
      · rw [if_pos h3]; exact ⟨le_refl _, hF⟩
      · rw [if_neg h3]
        push_neg at h2 h3
        exact ⟨h3, le_of_lt h2⟩
  unfold setCameraDistance
  by_cases h1 : (c.mFirstPersonView && !c.mPreviewMode && !c.mVanity.enabled) = true
  · rw [if_pos h1]; exact h
  · rw [if_neg h1]; exact aux _

theorem DistInv_step (E : Env α) (op : Op α) (c : Camera α) (h : DistInv c)
    (hb : ∀ d a, op ≠ Op.setBaseCameraDistance d a) (hn : op ≠ Op.setCameraDistanceNoArg) :
    DistInv (step E op c) := by
  cases op with
  | reset => exact DistInv_reset E c h
  | rotateCamera p y adj => exact DistInv_rotateCamera E c p y adj h
  | update d p => exact DistInv_update E c d p h
  | setOverShoulderHorizontalOffset v => exact h
  | switchToLeftShoulder =>
    show DistInv (switchToLeftShoulder c)
    unfold switchToLeftShoulder
    split_ifs
    · exact h
    · exact h
  | switchToRightShoulder =>
    show DistInv (switchToRightShoulder c)
    unfold switchToRightShoulder
    split_ifs
    · exact h
    · exact h
  | switchToDefaultShoulder =>
    show DistInv (switchToDefaultShoulder c)
    unfold switchToDefaultShoulder
    split_ifs
    · exact h
    · exact h
    · exact h
  | toggleViewMode f => exact DistInv_toggleViewMode E c f h
  | allowVanityMode b => exact DistInv_allowVanityMode E c b h
  | toggleVanityMode b => exact DistInv_toggleVanityMode E c b h
  | togglePreviewMode b => exact DistInv_togglePreviewMode E c b h
  | setYaw a =>
    show DistInv (setYaw E c a)
    exact DistInv_frame c _ (by simp) (by simp) (by simp) (by simp) h
  | setPitch a =>
    show DistInv (setPitch E c a)
    exact DistInv_frame c _ (by simp) (by simp) (by simp) (by simp) h
  | setBaseCameraDistance d a => exact absurd rfl (hb d a)
  | setCameraDistance d a => exact DistInv_setCameraDistance c d a h
  | setCameraDistanceNoArg => exact absurd rfl hn
  | setAnimation => exact DistInv_processViewChange E c h
  | processViewChange => exact DistInv_processViewChange E c h

/-- With vanity or preview on, or in Standard mode, `setBaseCameraDistance` keeps the
distance predicate when `10 ≤ mNearest ≤ mFurthest`, and outside strict first person it
leaves `mCameraDistance` in `[mNearest, mFurthest]`. -/
theorem DistInv_setBaseCameraDistance (c : Camera α) (dist : α) (adjust : Bool)
    (h : DistInv c) (hN : 10 ≤ c.mNearest) (hNF : c.mNearest ≤ c.mFurthest)
    (hmode : (c.mVanity.enabled || c.mPreviewMode) = true
      ∨ c.mThirdPersonMode = ThirdPersonViewMode.Standard) :
    DistInv (setBaseCameraDistance c dist adjust)
    ∧ ((c.mFirstPersonView && !c.mPreviewMode && !c.mVanity.enabled) = false →
        c.mNearest ≤ (setBaseCameraDistance c dist adjust).mCameraDistance
        ∧ (setBaseCameraDistance c dist adjust).mCameraDistance ≤ c.mFurthest) := by
  cases hg : (c.mFirstPersonView && !c.mPreviewMode && !c.mVanity.enabled)
  · obtain ⟨x, hx, _, hD, hF, _, hM, hP⟩ := setBaseCameraDistance_stored c dist adjust hg
    have hcl : c.mNearest ≤ (if x ≥ c.mFurthest then c.mFurthest
          else if x ≤ c.mNearest then c.mNearest else x)
        ∧ (if x ≥ c.mFurthest then c.mFurthest
          else if x ≤ c.mNearest then c.mNearest else x) ≤ c.mFurthest := by
      by_cases h1 : x ≥ c.mFurthest
      · rw [if_pos h1]; exact ⟨hNF, le_refl _⟩
      · rw [if_neg h1]
        by_cases h2 : x ≤ c.mNearest
        · rw [if_pos h2]; exact ⟨le_refl _, hNF⟩
        · rw [if_neg h2]
          push_neg at h1 h2
          exact ⟨le_of_lt h2, le_of_lt h1⟩
    generalize (if x ≥ c.mFurthest then c.mFurthest
          else if x ≤ c.mNearest then c.mNearest else x) = r at hx hD hcl
    cases hvp : (c.mVanity.enabled || c.mPreviewMode)
    · have hst : c.mThirdPersonMode = ThirdPersonViewMode.Standard := by
        rcases hmode with hm | hm
        · rw [hvp] at hm; exact absurd hm (by simp)
        · exact hm
      have hc0 : getCameraDistanceCorrection c = 0 := by
        simp [getCameraDistanceCorrection, hst]
      rw [hvp] at hD
      simp only [Bool.false_eq_true, if_false, hc0, add_zero] at hD
      refine ⟨?_, fun _ => by rw [hD]; exact hcl⟩
      unfold DistInv
      rw [hD, hF, hM, hP hvp]
      exact ⟨⟨le_trans hN hcl.1, hcl.2⟩, h.2.1, h.2.2⟩
    · rw [hvp] at hD hx
      simp only [if_true] at hD hx
      refine ⟨?_, fun _ => by rw [hD]; exact hcl⟩
      unfold DistInv
      rw [hD, hF, hM, hx]
      exact ⟨⟨le_trans hN hcl.1, hcl.2⟩, h.2.1, ⟨le_trans hN hcl.1, hcl.2⟩⟩
  · have he : setBaseCameraDistance c dist adjust = c := by
      unfold setBaseCameraDistance; rw [hg]; simp
    rw [he]
    exact ⟨h, fun hf => absurd hf (by simp)⟩

/-- C14, as stated, fails: in OverShoulder third-person view `setBaseCameraDistance` adds the
distance correction to the clamped base distance.  From a state that satisfies the distance
predicate (pitch −1, `mFurthest = 800`), `setBaseCameraDistance(800, false)` leaves
`mCameraDistance = 850`, above `mFurthest`. -/
theorem setBaseCameraDistance_overShoulder_exceeds :
    DistInv { sampleCamera with
        mFirstPersonView := false
        mThirdPersonMode := ThirdPersonViewMode.OverShoulder
        mMainCam := ⟨-1, 0, 400⟩ }
    ∧ (setBaseCameraDistance { sampleCamera with
        mFirstPersonView := false
        mThirdPersonMode := ThirdPersonViewMode.OverShoulder
        mMainCam := ⟨-1, 0, 400⟩ } 800 false).mCameraDistance = 850
    ∧ ¬ DistInv (setBaseCameraDistance { sampleCamera with
        mFirstPersonView := false
        mThirdPersonMode := ThirdPersonViewMode.OverShoulder
        mMainCam := ⟨-1, 0, 400⟩ } 800 false) := by
  have hD : (setBaseCameraDistance { sampleCamera with
        mFirstPersonView := false
        mThirdPersonMode := ThirdPersonViewMode.OverShoulder
        mMainCam := ⟨-1, 0, 400⟩ } 800 false).mCameraDistance = 850 := by
    simp [setBaseCameraDistance, setCameraDistanceNoArg, getCameraDistanceCorrection,
      getPitch, sampleCamera, Camera.init]
    norm_num
  have hF : (setBaseCameraDistance { sampleCamera with
        mFirstPersonView := false
        mThirdPersonMode := ThirdPersonViewMode.OverShoulder
        mMainCam := ⟨-1, 0, 400⟩ } 800 false).mFurthest = 800 := by
    simp [setBaseCameraDistance, setCameraDistanceNoArg, getCameraDistanceCorrection,
      getPitch, sampleCamera, Camera.init]
  refine ⟨?_, hD, ?_⟩
  · unfold DistInv sampleCamera Camera.init
    norm_num
  · intro h
    have := h.1.2
    rw [hD, hF] at this
    norm_num at this

/-- C14, amended: the distance predicate (`mCameraDistance`, `mMainCam.offset` and
`mPreviewCam.offset` all in `[10, mFurthest]`) holds in the state after construction and is
preserved, from every state that satisfies it, by every member function of `camera.cpp` other
than `setBaseCameraDistance` and the argument-less `setCameraDistance()`; with
`10 ≤ mNearest ≤ mFurthest`, `setBaseCameraDistance` preserves it when vanity or preview is on
or the third-person mode is Standard, and outside strict first person it then leaves
`mCameraDistance` in `[mNearest, mFurthest]`; in third-person view without vanity and preview,
in any mode, `setBaseCameraDistance` sets `mCameraDistance` to the stored base distance, which
is in `[mNearest, mFurthest]`, plus the distance correction. -/
theorem distance_invariant (E : Env α) (c : Camera α) (zoom : α) :
    DistInv (Camera.init zoom)
    ∧ (DistInv c → ∀ op : Op α, (∀ d a, op ≠ Op.setBaseCameraDistance d a) →
        op ≠ Op.setCameraDistanceNoArg → DistInv (step E op c))
    ∧ (DistInv c → 10 ≤ c.mNearest → c.mNearest ≤ c.mFurthest →
        ((c.mVanity.enabled || c.mPreviewMode) = true
          ∨ c.mThirdPersonMode = ThirdPersonViewMode.Standard) →
        ∀ (dist : α) (adjust : Bool),
          DistInv (setBaseCameraDistance c dist adjust)
          ∧ ((c.mFirstPersonView && !c.mPreviewMode && !c.mVanity.enabled) = false →
              c.mNearest ≤ (setBaseCameraDistance c dist adjust).mCameraDistance
              ∧ (setBaseCameraDistance c dist adjust).mCameraDistance ≤ c.mFurthest))
    ∧ (c.mFirstPersonView = false → (c.mVanity.enabled || c.mPreviewMode) = false →
        c.mNearest ≤ c.mFurthest →
        ∀ (dist : α) (adjust : Bool),
          (setBaseCameraDistance c dist adjust).mCameraDistance
            = (setBaseCameraDistance c dist adjust).mBaseCameraDistance
              + getCameraDistanceCorrection c
          ∧ c.mNearest ≤ (setBaseCameraDistance c dist adjust).mBaseCameraDistance
          ∧ (setBaseCameraDistance c dist adjust).mBaseCameraDistance ≤ c.mFurthest) := by
  refine ⟨DistInv_init zoom, fun h op hb hn => DistInv_step E op c h hb hn,
    fun h hN hNF hmode dist adjust => DistInv_setBaseCameraDistance c dist adjust h hN hNF hmode,
    ?_⟩
  intro hf hvp hNF dist adjust
  have hg : (c.mFirstPersonView && !c.mPreviewMode && !c.mVanity.enabled) = false := by
    simp [hf]
  obtain ⟨x, hx, _, hD, _⟩ := setBaseCameraDistance_stored c dist adjust hg
  rw [hvp] at hx hD
  simp only [Bool.false_eq_true, if_false] at hx hD
  rw [hD, hx]
  refine ⟨rfl, ?_⟩
  by_cases h1 : x ≥ c.mFurthest
  · rw [if_pos h1]; exact ⟨hNF, le_refl _⟩
  · rw [if_neg h1]
    by_cases h2 : x ≤ c.mNearest
    · rw [if_pos h2]; exact ⟨le_refl _, hNF⟩
    · rw [if_neg h2]
      push_neg at h1 h2
      exact ⟨le_of_lt h2, le_of_lt h1⟩

/-- Witness of C14 (amended): in Standard third-person view, from the state after
construction switched to third person, `setBaseCameraDistance(5, false)` keeps the distance
predicate. -/
theorem distance_invariant_witness :
    DistInv (setBaseCameraDistance { sampleCamera with mFirstPersonView := false } 5 false) :=
  ((distance_invariant (sampleEnv true) { sampleCamera with mFirstPersonView := false }
    20).2.2.1
    (by unfold DistInv sampleCamera Camera.init; norm_num)
    (by norm_num [sampleCamera, Camera.init])
    (by norm_num [sampleCamera, Camera.init])
    (Or.inr rfl) 5 false).1

/-! ### The pitch invariant -/

/-- The pitch invariant reads only the two slot pitches and `mPreviewMode`. -/
theorem PitchInv_frame (pi : α) (c c' : Camera α)
    (hM : c'.mMainCam.pitch = c.mMainCam.pitch)
    (hP : c'.mPreviewCam.pitch = c.mPreviewCam.pitch)
    (hm : c'.mPreviewMode = c.mPreviewMode) (h : PitchInv pi c) : PitchInv pi c' := by
  unfold PitchInv at *
  rw [hM, hP, hm]
  exact h

theorem PitchInv_init (pi zoom : α) (hpi : 3 < pi) : PitchInv pi (Camera.init zoom) := by
  unfold PitchInv Camera.init epsilon
  simp only [abs_zero]
  refine ⟨by linarith, by linarith, fun _ => by linarith⟩

/-- The value `setPitch` stores has magnitude at most the limit it clamps to. -/
theorem abs_clamp_le (l a : α) (hl : 0 ≤ l) :
    |(if a > l then l else if a < -l then -l else a)| ≤ l := by
  rw [abs_le]
  split_ifs with h1 h2
  · exact ⟨by linarith, le_refl _⟩
  · exact ⟨le_refl _, by linarith⟩
  · push_neg at h1 h2
    exact ⟨h2, h1⟩

/-- From a state whose two slot pitches are within the full limit, `setPitch` ends in a state
with the pitch invariant (the preview slot is clamped to the halved limit in preview mode). -/
theorem PitchInv_setPitch (pi : α) (E : Env α) (c : Camera α) (a : α) (hE : E.PI = pi)
    (hpi : 3 < pi) (hM : |c.mMainCam.pitch| ≤ pi / 2 - epsilon)
    (hP : |c.mPreviewCam.pitch| ≤ pi / 2 - epsilon) : PitchInv pi (setPitch E c a) := by
  have hL : (0 : α) ≤ pi / 2 - epsilon := by unfold epsilon; linarith
  unfold PitchInv
  rw [setPitch_mPreviewMode]
  unfold setPitch PI_2
  rw [hE]
  cases hp : c.mPreviewMode
  · cases hv : c.mVanity.enabled
    · simp only [Bool.or_self, Bool.false_eq_true, if_false]
      exact ⟨abs_clamp_le _ a hL, hP, fun h => absurd h (by simp)⟩
    · simp only [Bool.or_false, Bool.false_eq_true, if_false, if_true]
      exact ⟨hM, abs_clamp_le _ a hL, fun h => absurd h (by simp)⟩
  · simp only [Bool.or_true, if_true]
    have h2 : (0 : α) ≤ (pi / 2 - epsilon) / 2 := by linarith
    have := abs_clamp_le _ a h2
    exact ⟨hM, by linarith, fun _ => this⟩

theorem PitchInv_rotateCamera (pi : α) (E : Env α) (c : Camera α) (p y : α) (adj : Bool)
    (hE : E.PI = pi) (hpi : 3 < pi) (hM : |c.mMainCam.pitch| ≤ pi / 2 - epsilon)
    (hP : |c.mPreviewCam.pitch| ≤ pi / 2 - epsilon) :
    PitchInv pi (rotateCamera E c p y adj) := by
  unfold rotateCamera
  exact PitchInv_setPitch pi E _ _ hE hpi (by rw [setYaw_mMainCam_pitch]; exact hM)
    (by rw [setYaw_mPreviewCam_pitch]; exact hP)

theorem PitchInv_processViewChange (pi : α) (E : Env α) (c : Camera α)
    (hE : E.PI = pi) (hpi : 3 < pi) (hM : |c.mMainCam.pitch| ≤ pi / 2 - epsilon)
    (hP : |c.mPreviewCam.pitch| ≤ pi / 2 - epsilon) :
    PitchInv pi (processViewChange E c) := by
  unfold processViewChange
  by_cases hf : isFirstPerson c = true
  · simp only [hf, if_true]
    exact PitchInv_rotateCamera pi E _ _ _ _ hE hpi hM hP
  · simp only [hf, if_false]
    exact PitchInv_rotateCamera pi E _ _ _ _ hE hpi hM hP

theorem PitchInv_toggleViewMode (pi : α) (E : Env α) (c : Camera α) (f : Bool)
    (hE : E.PI = pi) (hpi : 3 < pi) (h : PitchInv pi c) :
    PitchInv pi (toggleViewMode E c f) := by
  unfold toggleViewMode
  by_cases hq : (!E.upperBodyReady && !f) = true
  · rw [if_pos hq]; exact h
  · rw [if_neg hq]
    exact PitchInv_processViewChange pi E _ hE hpi h.1 h.2.1

theorem PitchInv_toggleVanityMode (pi : α) (E : Env α) (c : Camera α) (b : Bool)
    (hE : E.PI = pi) (hpi : 3 < pi) (h : PitchInv pi c) :
    PitchInv pi (toggleVanityMode E c b).2 := by
  have hpv : PitchInv pi
      (processViewChange E { c with mVanity := { c.mVanity with enabled := b } }) :=
    PitchInv_processViewChange pi E _ hE hpi h.1 h.2.1
  unfold toggleVanityMode
  by_cases h1 : (c.mFirstPersonView && !E.upperBodyReady) = true
  · rw [if_pos h1]; exact h
  · rw [if_neg h1]
    by_cases h2 : (!c.mVanity.allowed && b) = true
    · rw [if_pos h2]; exact h
    · rw [if_neg h2]
      by_cases h3 : (c.mVanity.enabled == b) = true
      · rw [if_pos h3]; exact h
      · rw [if_neg h3]
        dsimp only
        by_cases h4 : (processViewChange E
            { c with mVanity := { c.mVanity with enabled := b } }).mVanity.enabled = true
        · rw [if_pos h4]
          exact PitchInv_setPitch pi E _ _ hE hpi hpv.1 hpv.2.1
        · rw [if_neg h4]
          exact hpv

theorem PitchInv_togglePreviewMode (pi : α) (E : Env α) (c : Camera α) (b : Bool)
    (hE : E.PI = pi) (hpi : 3 < pi) (h : PitchInv pi c) :
    PitchInv pi (togglePreviewMode E c b) := by
  have hpv : PitchInv pi (processViewChange E { c with mPreviewMode := b }) :=
    PitchInv_processViewChange pi E _ hE hpi h.1 h.2.1
  unfold togglePreviewMode
  by_cases h1 : (c.mFirstPersonView && !E.upperBodyReady) = true
  · rw [if_pos h1]; exact h
  · rw [if_neg h1]
    by_cases h3 : (c.mPreviewMode == b) = true
    · rw [if_pos h3]; exact h
    · rw [if_neg h3]
      dsimp only
      by_cases h4 : (processViewChange E { c with mPreviewMode := b }).mPreviewMode = true
      · rw [if_pos h4]; exact hpv
      · rw [if_neg h4]; exact hpv

theorem PitchInv_allowVanityMode (pi : α) (E : Env α) (c : Camera α) (b : Bool)
    (hE : E.PI = pi) (hpi : 3 < pi) (h : PitchInv pi c) :
    PitchInv pi (allowVanityMode E c b) := by
  have aux0 : PitchInv pi (if !b && c.mVanity.enabled then (toggleVanityMode E c false).2
      else c) := by
    by_cases hv : (!b && c.mVanity.enabled) = true
    · rw [if_pos hv]; exact PitchInv_toggleVanityMode pi E c false hE hpi h
    · rw [if_neg hv]; exact h
  unfold allowVanityMode
  exact aux0

theorem PitchInv_reset (pi : α) (E : Env α) (c : Camera α)
    (hE : E.PI = pi) (hpi : 3 < pi) (h : PitchInv pi c) : PitchInv pi (reset E c) := by
  have aux : ∀ c1 : Camera α, PitchInv pi c1 →
      PitchInv pi (if !c1.mFirstPersonView then toggleViewMode E c1 false else c1) := by
    intro c1 h1
    by_cases hv : (!c1.mFirstPersonView) = true
    · rw [if_pos hv]; exact PitchInv_toggleViewMode pi E c1 false hE hpi h1
    · rw [if_neg hv]; exact h1
  unfold reset
  exact aux _ (PitchInv_toggleVanityMode pi E _ false hE hpi
    (PitchInv_togglePreviewMode pi E c false hE hpi h))

theorem PitchInv_updateToggles (pi : α) (E : Env α) (c : Camera α)
    (hE : E.PI = pi) (hpi : 3 < pi) (h : PitchInv pi c) :
    PitchInv pi (updateToggles E c) := by
  have aux0 : PitchInv pi (if c.mVanityToggleQueued then
      { (toggleVanityMode E c c.mVanityToggleQueuedValue).2 with mVanityToggleQueued := false }
      else c) := by
    by_cases hv : c.mVanityToggleQueued = true
    · rw [if_pos hv]; exact PitchInv_toggleVanityMode pi E c _ hE hpi h
    · rw [if_neg hv]; exact h
  have aux : ∀ c1 : Camera α, PitchInv pi c1 → PitchInv pi (if c1.mViewModeToggleQueued then
      { toggleViewMode E (togglePreviewMode E c1 false) false with
        mViewModeToggleQueued := false }
      else c1) := by
    intro c1 h1
    by_cases hv : c1.mViewModeToggleQueued = true
    · rw [if_pos hv]
      exact PitchInv_toggleViewMode pi E _ false hE hpi
        (PitchInv_togglePreviewMode pi E c1 false hE hpi h1)
    · rw [if_neg hv]; exact h1
  unfold updateToggles
  by_cases hr : E.upperBodyReady = true
  · rw [if_pos hr]; exact aux _ aux0
  · rw [if_neg hr]; exact h

theorem PitchInv_updateFrame (pi : α) (E : Env α) (c : Camera α) (d : α)
    (hE : E.PI = pi) (hpi : 3 < pi) (h : PitchInv pi c) :
    PitchInv pi (updateFrame E c d) := by
  have aux0 : PitchInv pi (if c.mVanity.enabled then
      rotateCamera E c 0 (DegreesToRadians E (3 * d)) true else c) := by
    by_cases hv : c.mVanity.enabled = true
    · rw [if_pos hv]; exact PitchInv_rotateCamera pi E c _ _ _ hE hpi h.1 h.2.1
    · rw [if_neg hv]; exact h
  have aux : ∀ c1 : Camera α, PitchInv pi c1 → PitchInv pi (updateFocalPointOffset E c1 d) :=
    fun c1 h1 => PitchInv_frame pi c1 _ (by simp) (by simp) (by simp) h1
  unfold updateFrame
  exact aux _ aux0

theorem PitchInv_update (pi : α) (E : Env α) (c : Camera α) (d : α) (p : Bool)
    (hE : E.PI = pi) (hpi : 3 < pi) (h : PitchInv pi c) :
    PitchInv pi (update E c d p) := by
  rw [update_eq_blocks]
  cases p
  · exact PitchInv_updateFrame pi E _ d hE hpi (PitchInv_updateToggles pi E c hE hpi h)
  · exact PitchInv_updateToggles pi E c hE hpi h

theorem PitchInv_setCameraDistanceNoArg (pi : α) (c : Camera α) (h : PitchInv pi c) :
    PitchInv pi (setCameraDistanceNoArg c) := by
  unfold setCameraDistanceNoArg
  by_cases h1 : (c.mVanity.enabled || c.mPreviewMode) = true
  · rw [if_pos h1]; exact h
  · rw [if_neg h1]
    by_cases h2 : (!c.mFirstPersonView) = true
    · rw [if_pos h2]; exact h
    · rw [if_neg h2]; exact h

/-- The members `setBaseCameraDistance` leaves alone that the pitch invariant reads. -/
theorem setBaseCameraDistance_pitch_frame (c : Camera α) (dist : α) (adjust : Bool) :
    (setBaseCameraDistance c dist adjust).mPreviewMode = c.mPreviewMode
    ∧ (setBaseCameraDistance c dist adjust).mMainCam.pitch = c.mMainCam.pitch
    ∧ (setBaseCameraDistance c dist adjust).mPreviewCam.pitch = c.mPreviewCam.pitch := by
  cases hg : (c.mFirstPersonView && !c.mPreviewMode && !c.mVanity.enabled)
  · have hcorr2 : ∀ (b : Bool),
        getCameraDistanceCorrection { c with mIsNearest := b }
          = getCameraDistanceCorrection c := fun _ => rfl
    unfold setBaseCameraDistance
    rw [hg]
    simp only [Bool.false_eq_true, if_false, hcorr2]
    generalize (if adjust then
        (if c.mVanity.enabled || c.mPreviewMode then dist + c.mCameraDistance
          else dist + min (c.mCameraDistance - getCameraDistanceCorrection c)
            c.mBaseCameraDistance)
      else dist) = x
    cases hvp : (c.mVanity.enabled || c.mPreviewMode)
    · have hf : c.mFirstPersonView = false := by
        cases h1 : c.mFirstPersonView
        · rfl
        · simp only [Bool.or_eq_false_iff] at hvp
          simp [h1, hvp.1, hvp.2] at hg
      by_cases h1 : x ≥ c.mFurthest
      · simp [setCameraDistanceNoArg, hvp, hf, h1]
      · by_cases h2 : x ≤ c.mNearest
        · simp [setCameraDistanceNoArg, hvp, hf, h1, h2]
        · simp [setCameraDistanceNoArg, hvp, hf, h1, h2]
    · by_cases h1 : x ≥ c.mFurthest
      · simp [setCameraDistanceNoArg, hvp, h1]
      · by_cases h2 : x ≤ c.mNearest
        · simp [setCameraDistanceNoArg, hvp, h1, h2]
        · simp [setCameraDistanceNoArg, hvp, h1, h2]
  · have he : setBaseCameraDistance c dist adjust = c := by
      unfold setBaseCameraDistance; rw [hg]; simp
    rw [he]
    exact ⟨rfl, rfl, rfl⟩

theorem PitchInv_setBaseCameraDistance (pi : α) (c : Camera α) (dist : α) (adjust : Bool)
    (h : PitchInv pi c) : PitchInv pi (setBaseCameraDistance c dist adjust) := by
  obtain ⟨hm, hM, hP⟩ := setBaseCameraDistance_pitch_frame c dist adjust
  exact PitchInv_frame pi c _ hM hP hm h

theorem PitchInv_setCameraDistance (pi : α) (c : Camera α) (dist : α) (adjust : Bool)
    (h : PitchInv pi c) : PitchInv pi (setCameraDistance c dist adjust) := by
  unfold setCameraDistance
  by_cases h1 : (c.mFirstPersonView && !c.mPreviewMode && !c.mVanity.enabled) = true
  · rw [if_pos h1]; exact h
  · rw [if_neg h1]; exact h

theorem PitchInv_step (pi : α) (E : Env α) (op : Op α) (c : Camera α)
    (hE : E.PI = pi) (hpi : 3 < pi) (h : PitchInv pi c) : PitchInv pi (step E op c) := by
  cases op with
  | reset => exact PitchInv_reset pi E c hE hpi h
  | rotateCamera p y adj => exact PitchInv_rotateCamera pi E c p y adj hE hpi h.1 h.2.1
  | update d p => exact PitchInv_update pi E c d p hE hpi h
  | setOverShoulderHorizontalOffset v => exact h
  | switchToLeftShoulder =>
    show PitchInv pi (switchToLeftShoulder c)
    unfold switchToLeftShoulder
    split_ifs
    · exact h
    · exact h
  | switchToRightShoulder =>
    show PitchInv pi (switchToRightShoulder c)
    unfold switchToRightShoulder
    split_ifs
    · exact h
    · exact h
  | switchToDefaultShoulder =>
    show PitchInv pi (switchToDefaultShoulder c)
    unfold switchToDefaultShoulder
    split_ifs
    · exact h
    · exact h
    · exact h
  | toggleViewMode f => exact PitchInv_toggleViewMode pi E c f hE hpi h
  | allowVanityMode b => exact PitchInv_allowVanityMode pi E c b hE hpi h
  | toggleVanityMode b => exact PitchInv_toggleVanityMode pi E c b hE hpi h
  | togglePreviewMode b => exact PitchInv_togglePreviewMode pi E c b hE hpi h
  | setYaw a =>
    show PitchInv pi (setYaw E c a)
    exact PitchInv_frame pi c _ (by simp) (by simp) (by simp) h
  | setPitch a => exact PitchInv_setPitch pi E c a hE hpi h.1 h.2.1
  | setBaseCameraDistance d a => exact PitchInv_setBaseCameraDistance pi c d a h
  | setCameraDistance d a => exact PitchInv_setCameraDistance pi c d a h
  | setCameraDistanceNoArg => exact PitchInv_setCameraDistanceNoArg pi c h
  | setAnimation => exact PitchInv_processViewChange pi E c hE hpi h.1 h.2.1
  | processViewChange => exact PitchInv_processViewChange pi E c hE hpi h.1 h.2.1

theorem PitchInv_run (pi : α) (hpi : 3 < pi) (trace : List (Env α × Op α))
    (htr : ∀ p ∈ trace, p.1.PI = pi) (c : Camera α) (h : PitchInv pi c) :
    PitchInv pi (run trace c) := by
  induction trace generalizing c with
  | nil => exact h
  | cons p rest ih =>
    have hp : p.1.PI = pi := htr p (List.mem_cons_self _ _)
    have hrest : ∀ q ∈ rest, q.1.PI = pi := fun q hq => htr q (List.mem_cons_of_mem _ hq)
    show PitchInv pi (run rest (step p.1 p.2 c))
    exact ih hrest _ (PitchInv_step pi p.1 p.2 c hp hpi h)

/-- C13: in every state reached from the state after construction by any sequence of calls of
the member functions of `camera.cpp` (each in its own environment, all with the same value of
`osg::PI` above 3), the pitch of the active slot has magnitude at most
`limit = π/2 − 0.000001`, and at most `limit / 2` when preview mode is on; so it is never
`π/2` or `−π/2`. -/
theorem pitch_invariant (pi zoom : α) (trace : List (Env α × Op α)) (hpi : 3 < pi)
    (htr : ∀ p ∈ trace, p.1.PI = pi) :
    |getPitch (run trace (Camera.init zoom))| ≤ pi / 2 - 1 / 1000000
    ∧ ((run trace (Camera.init zoom)).mPreviewMode = true →
        |getPitch (run trace (Camera.init zoom))| ≤ (pi / 2 - 1 / 1000000) / 2)
    ∧ getPitch (run trace (Camera.init zoom)) ≠ pi / 2
    ∧ getPitch (run trace (Camera.init zoom)) ≠ -(pi / 2) := by
  have h := PitchInv_run pi hpi trace htr (Camera.init zoom) (PitchInv_init pi zoom hpi)
  generalize run trace (Camera.init zoom) = c at h
  unfold PitchInv epsilon at h
  obtain ⟨hM, hP, hQ⟩ := h
  have hact : |getPitch c| ≤ pi / 2 - 1 / 1000000 := by
    unfold getPitch
    split_ifs
    · exact hP
    · exact hM
  refine ⟨hact, ?_, ?_, ?_⟩
  · intro hp
    unfold getPitch
    rw [hp]
    simp only [Bool.or_true, if_true]
    exact hQ hp
  · intro he
    rw [he] at hact
    have := le_abs_self (pi / 2)
    linarith
  · intro he
    rw [he, abs_neg] at hact
    have := le_abs_self (pi / 2)
    linarith

/-- Witness of C13: after a view switch, a pitch request of 5 radians and the entry into
preview mode, the pitch is within the halved limit. -/
theorem pitch_invariant_witness :
    |getPitch (run
        [(sampleEnv true, Op.toggleViewMode false), (sampleEnv true, Op.setPitch 5),
          (sampleEnv true, Op.togglePreviewMode true)] sampleCamera)|
      ≤ (3.14159265358979323846 / 2 - 1 / 1000000) / 2 :=
  (pitch_invariant 3.14159265358979323846 20
    [(sampleEnv true, Op.toggleViewMode false), (sampleEnv true, Op.setPitch 5),
      (sampleEnv true, Op.togglePreviewMode true)] (by norm_num)
    (by
      intro p hp
      simp only [List.mem_cons, List.mem_singleton, List.not_mem_nil, or_false] at hp
      rcases hp with h | h | h <;> rw [h] <;> rfl)).2.1
    (by
      simp [run, step, togglePreviewMode_mPreviewMode, sampleEnv])

end Theorems

end MWRender
